import Mathlib

/-!
# Host-side control flow of the OpenCL example programs

A shallow embedding of the host code of the example programs
(`SimpleOpenCL.c++`, `saxpy.c++`, `matrixMultiplyV1.c++`).

* Host code is a state transformer over a `World` (standard output, standard
  input, the driver calls issued so far, the global variables of the file)
  that ends in an `Outcome`: it returns, calls `exit`, never returns, or has
  no defined behaviour.
* The OpenCL driver is a parameter (`Driver`): the status every call returns
  and the counts and strings the queries report.
* `float` and `double` data are exact rationals; sizes and loop counters are
  natural numbers.
-/

namespace GPGPU

/-! ## Processes -/

/-- How a piece of host code ends. -/
inductive Outcome (α : Type) where
  /-- normal return with a value -/
  | returned (value : α)
  /-- the process was terminated by `exit(code)` -/
  | exited (code : Int)
  /-- the code loops for ever -/
  | hangs
  /-- an access outside an array: no defined behaviour -/
  | undefinedBehaviour
deriving DecidableEq, Repr

/-- The observable state of a running example program. -/
structure World where
  /-- the file-level `bool debug` -/
  debug : Bool
  /-- everything written to `std::cout`, one entry per output statement -/
  stdout : List String
  /-- everything written to `std::cerr` -/
  stderr : List String
  /-- the integers still to be read from `std::cin` -/
  stdin : List Int
  /-- the driver calls issued so far, oldest first -/
  calls : List String
  /-- length of the global `platforms` array (`none`: still `nullptr`) -/
  platforms : Option Nat
  /-- length of the global `devices` array (`none`: still `nullptr`) -/
  devices : Option Nat
deriving DecidableEq, Repr

/-- The state in which `main` starts: `debug = false`, nothing printed, the
global arrays `nullptr`, and `input` waiting on standard input. -/
def World.initial (input : List Int) : World :=
  { debug := false, stdout := [], stderr := [], stdin := input, calls := [],
    platforms := none, devices := none }

/-- Host code computing an `α`. -/
def Proc (α : Type) : Type := World → Outcome α × World

namespace Proc

/-- Run host code from a state. -/
def run {α : Type} (p : Proc α) (w : World) : Outcome α × World := p w

/-- Return a value without touching the state. -/
protected def pure {α : Type} (a : α) : Proc α := fun w => (Outcome.returned a, w)

/-- Sequencing: what follows runs only if the first part returned. -/
protected def bind {α β : Type} (p : Proc α) (f : α → Proc β) : Proc β := fun w =>
  match p w with
  | (Outcome.returned a, w1) => f a w1
  | (Outcome.exited c, w1) => (Outcome.exited c, w1)
  | (Outcome.hangs, w1) => (Outcome.hangs, w1)
  | (Outcome.undefinedBehaviour, w1) => (Outcome.undefinedBehaviour, w1)

end Proc

instance : Monad Proc where
  pure := Proc.pure
  bind := Proc.bind

/-- The exit code of the process when `main` ends with this outcome: the value
`main` returns, or the argument of `exit`. -/
def Outcome.exitCode : Outcome Int → Option Int
  | Outcome.returned v => some v
  | Outcome.exited c => some c
  | Outcome.hangs => none
  | Outcome.undefinedBehaviour => none

/-- The statement `std::cout << ...;` writing the text `s`. -/
def cout (s : String) : Proc Unit := fun w =>
  (Outcome.returned (), { w with stdout := w.stdout ++ [s] })

/-- The statement `std::cerr << ...;` writing the text `s`. -/
def cerr (s : String) : Proc Unit := fun w =>
  (Outcome.returned (), { w with stderr := w.stderr ++ [s] })

/-- The library call `exit(code)`. -/
def exit {α : Type} (code : Int) : Proc α := fun w => (Outcome.exited code, w)

/-- Read the global `debug`. -/
def getDebug : Proc Bool := fun w => (Outcome.returned w.debug, w)

/-- The assignment `debug = b`. -/
def setDebug (b : Bool) : Proc Unit := fun w =>
  (Outcome.returned (), { w with debug := b })

/-- The line `checkStatus` prints: `"Step " << where << ", status = " << status << '\n'`. -/
def stepLine (loc : String) (status : Int) : String :=
  "Step " ++ loc ++ ", status = " ++ toString status ++ "\n"

namespace saxpy

/-- The function `checkStatus(where, status, abortOnError)` of `saxpy.c++`
(the copy in `matrixMultiplyV1.c++` is the same text). -/
def checkStatus (loc : String) (status : Int) (abortOnError : Bool) : Proc Unit := do
  if (← getDebug) || status != 0 then
    cout (stepLine loc status)
  if status != 0 && abortOnError then
    exit 1

end saxpy

namespace SimpleOpenCL

/-- The function `checkStatus(where, status)` of `SimpleOpenCL.c++`. -/
def checkStatus (loc : String) (status : Int) : Proc Unit := do
  if (← getDebug) || status != 0 then
    cout (stepLine loc status)
  if status != 0 then
    exit 1

end SimpleOpenCL

/-! ## The OpenCL driver -/

/-- Everything the host code receives from outside its own text: the status
each driver call returns (keyed by the label the source gives the step, or by
the name of the API function where the source gives none), what the discovery
queries report, and how `operator<<` renders a floating-point value. -/
structure Driver where
  /-- the `cl_int` status returned by the driver call of that step -/
  status : String → Int
  /-- the platform count reported by `clGetPlatformIDs` -/
  numPlatforms : Nat
  /-- `CL_PLATFORM_NAME` of `platforms[0]` -/
  platformName : String
  /-- `CL_PLATFORM_VERSION` of `platforms[0]` -/
  platformVersion : String
  /-- the device count reported by `clGetDeviceIDs` for the requested type -/
  numDevices : Nat
  /-- `CL_DEVICE_NAME` of `devices[idx]` -/
  deviceName : Nat → String
  /-- `CL_DEVICE_EXTENSIONS` of `devices[idx]` -/
  deviceExtensions : Nat → String
  /-- the numeric limits reported by `clGetDeviceInfo` and `clGetKernelWorkGroupInfo` -/
  limit : String → Nat
  /-- `CL_PROGRAM_BUILD_LOG` -/
  buildLog : String
  /-- the value a successful `clEnqueueReadBuffer` stores at each index of the host array -/
  deviceOutput : Nat → ℚ
  /-- the indeterminate content of the k-th array obtained from `new` -/
  heap : Nat → Nat → ℚ
  /-- the text `operator<<` produces for a floating-point value -/
  fmt : ℚ → String

/-- Issue a driver call whose status the host code does not look at. -/
def call (name : String) : Proc Unit := fun w =>
  (Outcome.returned (), { w with calls := w.calls ++ [name] })

/-- Issue the driver call of step `label` and receive its status. -/
def statusCall (d : Driver) (label : String) : Proc Int := fun w =>
  (Outcome.returned (d.status label), { w with calls := w.calls ++ [label] })

/-- The loop `for (idx = first; ...; idx++) body(idx)` over the listed values of `idx`. -/
def forEach {α : Type} : List α → (α → Proc Unit) → Proc Unit
  | [], _ => pure ()
  | i :: rest, body => do
      body i
      forEach rest body

/-- The statement `platforms = new cl_platform_id[n]`. -/
def newPlatforms (n : Nat) : Proc Unit := fun w =>
  (Outcome.returned (), { w with platforms := some n })

/-- The statement `devices = new cl_device_id[n]`. -/
def newDevices (n : Nat) : Proc Unit := fun w =>
  (Outcome.returned (), { w with devices := some n })

/-- The read `platforms[i]`: defined only inside the allocated array. -/
def readPlatforms (i : Nat) : Proc Nat := fun w =>
  match w.platforms with
  | some len => if i < len then (Outcome.returned i, w) else (Outcome.undefinedBehaviour, w)
  | none => (Outcome.undefinedBehaviour, w)

/-- The read `devices[i]` for an `int` index: defined only inside the allocated array. -/
def readDevices (i : Int) : Proc Nat := fun w =>
  match w.devices with
  | some len =>
      if 0 ≤ i ∧ i < len then (Outcome.returned i.toNat, w) else (Outcome.undefinedBehaviour, w)
  | none => (Outcome.undefinedBehaviour, w)

/-- The largest value of an `int`. -/
def INT_MAX : Int := 2147483647

/-- The smallest value of an `int`. -/
def INT_MIN : Int := -2147483648

/-- The extraction `std::cin >> devIndex` into an `int`, on a stream in good
state over a standard input holding integers: the value `devIndex` holds
afterwards, and whether the stream is still good. A number an `int` can hold
is consumed and stored. A number outside `int` is consumed, `INT_MAX` or
`INT_MIN` is stored and the stream fails. At the end of the input nothing is
stored, the variable keeps its value and the stream fails. -/
def cinInt (devIndex : Int) : Proc (Int × Bool) := fun w =>
  match w.stdin with
  | [] => (Outcome.returned (devIndex, false), w)
  | v :: rest =>
      if v < INT_MIN then (Outcome.returned (INT_MIN, false), { w with stdin := rest })
      else if INT_MAX < v then (Outcome.returned (INT_MAX, false), { w with stdin := rest })
      else (Outcome.returned (v, true), { w with stdin := rest })

/-- A loop that can never leave: the process does not return. -/
def hang {α : Type} : Proc α := fun w => (Outcome.hangs, w)

/-! ## Command lines -/

/-- The device kinds the programs select between: the `cl_device_type`
constants `CL_DEVICE_TYPE_DEFAULT`, `_CPU`, `_GPU` and `_ALL` of the OpenCL
header, which the sources name but do not define. -/
inductive cl_device_type where
  | CL_DEVICE_TYPE_DEFAULT
  | CL_DEVICE_TYPE_CPU
  | CL_DEVICE_TYPE_GPU
  | CL_DEVICE_TYPE_ALL
deriving DecidableEq, Repr

open cl_device_type

/-- The character `s[k]` of a C string: past the last character stands the
terminating NUL. -/
def charAt (s : String) (k : Nat) : Char := s.toList.getD k (Char.ofNat 0)

/-- The library function `strcmp`: zero for equal strings, negative or positive
according to the lexicographic order otherwise. -/
def strcmp (a b : String) : Int :=
  if a = b then 0 else if a < b then -1 else 1

/-- The `switch (argv[i][1])` of the three parsers: `case 'a'`, `case 'c'`,
`case 'g'`, no default. -/
def switchDevType (c : Char) (devType : cl_device_type) : cl_device_type :=
  if c = 'a' then CL_DEVICE_TYPE_ALL
  else if c = 'c' then CL_DEVICE_TYPE_CPU
  else if c = 'g' then CL_DEVICE_TYPE_GPU
  else devType

/-- The library function `isspace` in the C locale. -/
def isspace (c : Char) : Bool :=
  c = ' ' || (9 ≤ c.toNat && c.toNat ≤ 13)

/-- The decimal value of the leading digits of a character list, after the
digits already accumulated in `acc`. -/
def digitsValue : List Char → Nat → Nat
  | [], acc => acc
  | c :: rest, acc =>
      if c.isDigit then digitsValue rest (10 * acc + (c.toNat - 48)) else acc

/-- The library function `atoi`: leading white space, an optional sign, then
decimal digits; zero when no digit follows. The value is the mathematical one
(the standard leaves a value outside `int` undefined). -/
def atoi (s : String) : Int :=
  match s.toList.dropWhile isspace with
  | '-' :: rest => -(digitsValue rest 0 : Int)
  | '+' :: rest => (digitsValue rest 0 : Int)
  | cs => (digitsValue cs 0 : Int)

/-- Conversion of an `int` to the 64-bit `size_t`. -/
def toSizeT (v : Int) : Nat := (v % 2 ^ 64).toNat

/-- The device type an argument selects, in the words of the command-line
description: an argument that begins with `-` followed by `a`, `c` or `g`
selects ALL, CPU or GPU; any other argument selects nothing. -/
def selector (arg : String) : Option cl_device_type :=
  match arg.toList with
  | '-' :: 'a' :: _ => some CL_DEVICE_TYPE_ALL
  | '-' :: 'c' :: _ => some CL_DEVICE_TYPE_CPU
  | '-' :: 'g' :: _ => some CL_DEVICE_TYPE_GPU
  | _ => none

/-- The device type a whole argument list selects when the parser starts from
`devType`: the choice of the last selecting argument, `devType` without one. -/
def selected (args : List String) (devType : cl_device_type) : cl_device_type :=
  ((args.filterMap selector).getLast?).getD devType

/-- The matrix size an argument list leaves in `N` when the parser of
`matrixMultiplyV1.c++` starts from `N`: `atoi` of the last argument that does
not start with `-`, `N` without one. -/
def sizeArg (args : List String) (N : Nat) : Nat :=
  (((args.filter fun arg => decide (charAt arg 0 ≠ '-')).getLast?).map
    fun arg => toSizeT (atoi arg)).getD N

/-! ## Host arrays -/

/-- The expression `new T[n]`: `n` cells of indeterminate content. -/
def newArray (n : Nat) (garbage : Nat → ℚ) : List ℚ := (List.range n).map garbage

/-- The driver call `clEnqueueReadBuffer` of step `label` into a host array:
it returns its status, and on success the host array holds the device's
output. -/
def clEnqueueReadBuffer (d : Driver) (label : String) (host : List ℚ) :
    Proc (Int × List ℚ) := fun w =>
  ((Outcome.returned
      (d.status label,
        if d.status label = 0 then (List.range host.length).map d.deviceOutput else host)),
    { w with calls := w.calls ++ [label] })

/-- The function `readSource(fileName)`: declared in every example, defined in
none of the four source files; it is taken to return the kernel text. -/
def readSource (_fileName : String) : Proc Unit := pure ()

/-- The statements `delete [] platforms; delete [] devices;`. -/
def deleteGlobals : Proc Unit := fun w =>
  (Outcome.returned (), { w with platforms := none, devices := none })

/-- Read what is left on standard input. -/
def getStdin : Proc (List Int) := fun w => (Outcome.returned w.stdin, w)

/-- The prompt of the device menu. -/
def prompt : String := "Which device do you want to use? "

/-- The loop
`while ((devIndex < 0) || (devIndex >= bound)) { cout << prompt; cin >> devIndex; }`
over the integers `input` waiting on standard input. Once an extraction has
failed, every later one fails too and leaves `devIndex` as it is: the loop ends
if the value then stored is acceptable and never ends otherwise. `wide` tells
the type of `bound`: the `cl_uint` count `numDevices` of `saxpy.c++` (`true`),
which can exceed `INT_MAX`, or the `int` count `nPossibleDevs` of
`matrixMultiplyV1.c++` (`false`), which `INT_MAX` always reaches, so that there
a failed extraction never ends the loop. -/
def whichDevice (wide : Bool) (bound : Nat) : List Int → Int → Proc Int
  | [], devIndex =>
      if devIndex < 0 ∨ devIndex ≥ bound then do
        cout prompt
        hang
      else pure devIndex
  | _ :: rest, devIndex =>
      if devIndex < 0 ∨ devIndex ≥ bound then do
        cout prompt
        let (devIndex, good) ← cinInt devIndex
        if good = true then
          whichDevice wide bound rest devIndex
        else if devIndex < 0 ∨ devIndex ≥ bound ∨ wide = false then
          hang
        else
          pure devIndex
      else pure devIndex

/-- The function `reportVersion(platform)`. -/
def reportVersion (d : Driver) : Proc Unit := do
  call "clGetPlatformInfo"
  call "clGetPlatformInfo"
  cout (d.platformVersion ++ "\n")

/-- The function `showProgramBuildLog(pgm, dev)`. -/
def showProgramBuildLog (d : Driver) : Proc Unit := do
  call "clGetProgramBuildInfo"
  call "clGetProgramBuildInfo"
  cout ("LOG:\n" ++ d.buildLog ++ "\n\n")

/-! ## saxpy.c++ -/

namespace saxpy

/-- The function `lookAtDeviceLimits(dev)`. -/
def lookAtDeviceLimits (d : Driver) : Proc Unit := do
  call "clGetDeviceInfo"
  call "clGetDeviceInfo"
  call "clGetDeviceInfo"
  call "clGetDeviceInfo"
  cout ("Device global mem size:     " ++ toString (d.limit "CL_DEVICE_GLOBAL_MEM_SIZE") ++ "\n")
  cout ("Device local mem size:      " ++ toString (d.limit "CL_DEVICE_LOCAL_MEM_SIZE") ++ "\n")
  cout ("Device max work group size: " ++ toString (d.limit "CL_DEVICE_MAX_WORK_GROUP_SIZE") ++ "\n")
  cout ("Device max compute units:   " ++ toString (d.limit "CL_DEVICE_MAX_COMPUTE_UNITS") ++ "\n")
  cout "\n"

/-- The function `lookAtKernelLimits(kernel, dev)`. -/
def lookAtKernelLimits (d : Driver) : Proc Unit := do
  call "clGetKernelWorkGroupInfo"
  call "clGetKernelWorkGroupInfo"
  call "clGetKernelWorkGroupInfo"
  call "clGetKernelWorkGroupInfo"
  cout ("Kernel local memory size:   " ++ toString (d.limit "CL_KERNEL_LOCAL_MEM_SIZE") ++ "\n")
  cout ("Kernel private memory size: " ++ toString (d.limit "CL_KERNEL_PRIVATE_MEM_SIZE") ++ "\n")
  cout ("Kernel warpSize:            " ++
    toString (d.limit "CL_KERNEL_PREFERRED_WORK_GROUP_SIZE_MULTIPLE") ++ "\n")
  cout ("Kernel max work group size: " ++ toString (d.limit "CL_KERNEL_WORK_GROUP_SIZE") ++ "\n")
  cout "\n"

/-- The body of the loop of `typicalOpenCLProlog` that lists the devices:
two `clGetDeviceInfo` queries on `devices[idx]` and the line
`"Device " << idx << ": " << name << '\n'`. -/
def showDevice (d : Driver) (idx : Nat) : Proc Unit := do
  let _dev ← readDevices idx
  call "clGetDeviceInfo"
  call "clGetDeviceInfo"
  cout ("Device " ++ toString idx ++ ": " ++ d.deviceName idx ++ "\n")

/-- The function `typicalOpenCLProlog(desiredDeviceType)` of `saxpy.c++`:
"Return value is device index to use; -1 ==> no available devices". The
driver `d` answers for the requested device type. -/
def typicalOpenCLProlog (d : Driver) (_desiredDeviceType : cl_device_type) : Proc Int := do
  let status ← statusCall d "clGetPlatformIDs-0"
  checkStatus "clGetPlatformIDs-0" status true
  if d.numPlatforms ≤ 0 then do
    cout "No platforms!\n"
    pure (-1)
  else do
    newPlatforms d.numPlatforms
    let status ← statusCall d "clGetPlatformIDs-1"
    checkStatus "clGetPlatformIDs-1" status true
    let _curPlatform ← readPlatforms 0
    if d.numPlatforms > 1 then do
      call "clGetPlatformInfo"
      call "clGetPlatformInfo"
      cout ("Found " ++ toString d.numPlatforms ++ " platforms. Arbitrarily using: " ++
        d.platformName ++ "\n")
    reportVersion d
    let status ← statusCall d "clGetDeviceIDs-0"
    checkStatus "clGetDeviceIDs-0" status true
    if d.numDevices ≤ 0 then do
      cout "No devices on platform!\n"
      pure (-1)
    else do
      newDevices d.numDevices
      let status ← statusCall d "clGetDeviceIDs-1"
      checkStatus "clGetDeviceIDs-1" status true
      let devIndex : Int := 0
      if d.numDevices > 1 then do
        forEach (List.range d.numDevices) (showDevice d)
        let devIndex : Int := -1
        let input ← getStdin
        whichDevice true d.numDevices input devIndex
      else if d.numDevices ≤ 0 then do
        cout "No devices found\n"
        pure devIndex
      else do
        cout "Only one device detected\n"
        pure devIndex

/-- The function `doTheKernelLaunch(dev, a, h_X, h_Y, n, h_Z)` of `saxpy.c++`;
the value is the content of `h_Z` when it returns. -/
def doTheKernelLaunch (d : Driver) (_dev : Nat) (_a : ℚ) (_h_X _h_Y : List ℚ) (_n : Nat)
    (h_Z : List ℚ) : Proc (List ℚ) := do
  let status ← statusCall d "clCreateContext"
  checkStatus "clCreateContext" status true
  let status ← statusCall d "clCreateCommandQueue"
  checkStatus "clCreateCommandQueue" status true
  let status ← statusCall d "clCreateBuffer-X"
  checkStatus "clCreateBuffer-X" status true
  let status ← statusCall d "clCreateBuffer-Y"
  checkStatus "clCreateBuffer-Y" status true
  let status ← statusCall d "clCreateBuffer-Z"
  checkStatus "clCreateBuffer-Z" status true
  let status ← statusCall d "clEnqueueWriteBuffer-X"
  checkStatus "clEnqueueWriteBuffer-X" status true
  let status ← statusCall d "clEnqueueWriteBuffer-Y"
  checkStatus "clEnqueueWriteBuffer-Y" status true
  readSource "saxpy.cl"
  let status ← statusCall d "clCreateProgramWithSource"
  checkStatus "clCreateProgramWithSource" status true
  let status ← statusCall d "clBuildProgram"
  checkStatus "clBuildProgram" status false
  if status != 0 then
    showProgramBuildLog d
  let _status ← statusCall d "clCreateKernel"
  lookAtDeviceLimits d
  lookAtKernelLimits d
  let status ← statusCall d "clSetKernelArg-0"
  checkStatus "clSetKernelArg-0" status true
  let status ← statusCall d "clSetKernelArg-1"
  checkStatus "clSetKernelArg-1" status true
  let status ← statusCall d "clSetKernelArg-2"
  checkStatus "clSetKernelArg-2" status true
  let status ← statusCall d "clSetKernelArg-3"
  checkStatus "clSetKernelArg-3" status true
  let status ← statusCall d "clSetKernelArg-4"
  checkStatus "clSetKernelArg-4" status true
  let status ← statusCall d "clEnqueueNDRangeKernel"
  checkStatus "clEnqueueNDRangeKernel" status true
  let (_, h_Z) ← clEnqueueReadBuffer d "clEnqueueReadBuffer" h_Z
  call "clReleaseKernel"
  call "clReleaseProgram"
  call "clReleaseCommandQueue"
  call "clReleaseMemObject"
  call "clReleaseMemObject"
  call "clReleaseMemObject"
  call "clReleaseContext"
  deleteGlobals
  pure h_Z

/-- The pattern `status = <driver call>; checkStatus(label, status, true);` of
`saxpy.c++`, repeated over a list of labels. -/
def checkedSteps (d : Driver) : List String → Proc Unit
  | [] => pure ()
  | label :: rest => do
      let status ← statusCall d label
      checkStatus label status true
      checkedSteps d rest

/-- The steps of `doTheKernelLaunch` before the build, each checked with
`abortOnError = true`. -/
def launchSetup : List String :=
  ["clCreateContext", "clCreateCommandQueue", "clCreateBuffer-X", "clCreateBuffer-Y",
   "clCreateBuffer-Z", "clEnqueueWriteBuffer-X", "clEnqueueWriteBuffer-Y",
   "clCreateProgramWithSource"]

/-- The steps of `doTheKernelLaunch` between the kernel limits and the
read-back, each checked with `abortOnError = true`. -/
def launchArguments : List String :=
  ["clSetKernelArg-0", "clSetKernelArg-1", "clSetKernelArg-2", "clSetKernelArg-3",
   "clSetKernelArg-4", "clEnqueueNDRangeKernel"]

/-- The middle of `doTheKernelLaunch`: the build, checked with
`abortOnError = false`, the build log after a failed build, the kernel
creation, whose status is stored and not looked at, and the two reports. -/
def buildAndCreate (d : Driver) : Proc Unit := do
  let status ← statusCall d "clBuildProgram"
  checkStatus "clBuildProgram" status false
  if status != 0 then
    showProgramBuildLog d
  let _status ← statusCall d "clCreateKernel"
  lookAtDeviceLimits d
  lookAtKernelLimits d

/-- The end of `doTheKernelLaunch`: the read-back, whose status is dropped,
and the releases. -/
def readBackAndRelease (d : Driver) (h_Z : List ℚ) : Proc (List ℚ) := do
  let (_, h_Z) ← clEnqueueReadBuffer d "clEnqueueReadBuffer" h_Z
  call "clReleaseKernel"
  call "clReleaseProgram"
  call "clReleaseCommandQueue"
  call "clReleaseMemObject"
  call "clReleaseMemObject"
  call "clReleaseMemObject"
  call "clReleaseContext"
  deleteGlobals
  pure h_Z

/-- The driver calls that end `doTheKernelLaunch`: the read-back and the
releases, none of them checked. -/
def launchTail : List String :=
  ["clEnqueueReadBuffer", "clReleaseKernel", "clReleaseProgram", "clReleaseCommandQueue",
   "clReleaseMemObject", "clReleaseMemObject", "clReleaseMemObject", "clReleaseContext"]

/-- What `do_saxpy` sets up before the launch: the scalar `a` and the arrays
`X`, `Y`, `Z`. -/
structure Operands where
  a : ℚ
  X : List ℚ
  Y : List ℚ
  Z : List ℚ

/-- The body of the loop of `do_saxpy`:
`X[i] = 1000.0; Y[i] = 10.0; Z[i] = -999.99;`. -/
def fillCell (s : Operands) (i : Nat) : Operands :=
  { s with X := s.X.set i 1000.0, Y := s.Y.set i 10.0, Z := s.Z.set i (-999.99) }

/-- The first part of `do_saxpy(curDevice, n)`, up to the call of
`doTheKernelLaunch`: `a = 2.0`, three fresh arrays of `n` floats, and the loop
`for (i = 0; i < n; i++) { X[i] = 1000.0; Y[i] = 10.0; Z[i] = -999.99; }`. -/
def do_saxpy_init (heap : Nat → Nat → ℚ) (n : Nat) : Operands :=
  (List.range n).foldl fillCell
    { a := 2.0, X := newArray n (heap 0), Y := newArray n (heap 1), Z := newArray n (heap 2) }

/-- The function `do_saxpy(curDevice, n)`; the value is the content of the
array it returns. -/
def do_saxpy (d : Driver) (curDevice : Nat) (n : Nat) : Proc (List ℚ) := do
  let s := do_saxpy_init d.heap n
  let Z ← doTheKernelLaunch d curDevice s.a s.X s.Y n s.Z
  forEach (List.range n) fun i =>
    cout (d.fmt (Z.getD i 0) ++ " = " ++ d.fmt s.a ++ " * " ++ d.fmt (s.X.getD i 0) ++ "  +  " ++
      d.fmt (s.Y.getD i 0) ++ "\n")
  pure Z

/-- The argument loop of `main` in `saxpy.c++`, over `argv[1..]`. -/
def parseArgs : List String → cl_device_type → Proc cl_device_type
  | [], devType => pure devType
  | arg :: rest, devType =>
      if strcmp "-debug" arg = 0 then do
        setDebug true
        parseArgs rest devType
      else if charAt arg 0 = '-' then
        parseArgs rest (switchDevType (charAt arg 1) devType)
      else
        parseArgs rest devType

/-- The function `main` of `saxpy.c++` on the arguments `argv[1..]`. -/
def main (d : Driver) (args : List String) : Proc Int := do
  let devType ← parseArgs args CL_DEVICE_TYPE_DEFAULT
  let deviceIndex ← typicalOpenCLProlog d devType
  if deviceIndex < 0 then
    pure 0
  else do
    let dev ← readDevices deviceIndex
    let _Z ← do_saxpy d dev 20
    pure 0

/-- The reference result of the kernel named in the output line of `do_saxpy`
(`Z[i] = a * X[i] + Y[i]`); the kernel file `saxpy.cl` is not among the sources. -/
def reference (s : Operands) (i : Nat) : ℚ := s.a * s.X.getD i 0 + s.Y.getD i 0

end saxpy

/-! ## SimpleOpenCL.c++ -/

namespace SimpleOpenCL

/-- The argument loop of `main` in `SimpleOpenCL.c++`, over `argv[1..]`. -/
def parseArgs : List String → cl_device_type → Proc cl_device_type
  | [], devType => pure devType
  | arg :: rest, devType =>
      if strcmp "-debug" arg = 0 then do
        setDebug true
        parseArgs rest devType
      else if charAt arg 0 = '-' then
        parseArgs rest (switchDevType (charAt arg 1) devType)
      else
        parseArgs rest devType

/-- The pattern `status = <driver call>; checkStatus(label, status);` of
`SimpleOpenCL.c++`, repeated over a list of labels. -/
def checkedSteps (d : Driver) : List String → Proc Unit
  | [] => pure ()
  | label :: rest => do
      let status ← statusCall d label
      checkStatus label status
      checkedSteps d rest

/-- What `main` of `SimpleOpenCL.c++` does after the last checked call: the
two summary lines, the releases, the deletion of `platforms` and `devices`,
`return 0`. -/
def epilogue (d : Driver) (nDiffs : Nat) (maxDiff : ℚ) : Proc Int := do
  cout ("There were " ++ toString 16384 ++ " elements for a total of " ++
    toString (2 * 16384) ++ " possible differences.\n")
  cout ("There were " ++ toString nDiffs ++ " differences, maxDiff = " ++ d.fmt maxDiff ++ "\n")
  call "clReleaseKernel"
  call "clReleaseProgram"
  call "clReleaseCommandQueue"
  call "clReleaseMemObject"
  call "clReleaseMemObject"
  call "clReleaseMemObject"
  call "clReleaseContext"
  deleteGlobals
  pure 0

/-- The labels of the fourteen checked calls of `main` from step 4 on, in
source order. -/
def laterCalls : List String :=
  ["clCreateCommandQueue", "clCreateProgramWithSource", "clBuildProgram",
   "clCreateKernel", "clCreateBuffer-A", "clCreateBuffer-B", "clCreateBuffer-C",
   "clEnqueueWriteBuffer-A", "clEnqueueWriteBuffer-B", "clSetKernelArg-0", "clSetKernelArg-1",
   "clSetKernelArg-2", "clEnqueueNDRangeKernel", "clEnqueueReadBuffer"]

/-- Steps 1 to 3 of `main` and the read of `devices[0]` for step 4: the two
arrays are allocated with the counts the driver reports, `platforms[0]` is
read for each of the two calls of `clGetDeviceIDs`, and `devices[0]` for
`clCreateCommandQueue`; neither count is tested. -/
def discovery (d : Driver) : Proc Unit := do
  let status ← statusCall d "clGetPlatformIDs-0"
  checkStatus "clGetPlatformIDs-0" status
  newPlatforms d.numPlatforms
  let status ← statusCall d "clGetPlatformIDs-1"
  checkStatus "clGetPlatformIDs-1" status
  let _platform ← readPlatforms 0
  let status ← statusCall d "clGetDeviceIDs-0"
  checkStatus "clGetDeviceIDs-0" status
  newDevices d.numDevices
  let _platform ← readPlatforms 0
  let status ← statusCall d "clGetDeviceIDs-1"
  checkStatus "clGetDeviceIDs-1" status
  let status ← statusCall d "clCreateContext"
  checkStatus "clCreateContext" status
  let _device ← readDevices 0
  pure ()

/-- The function `main` of `SimpleOpenCL.c++` on the arguments `argv[1..]`,
as far as its control flow goes: the argument loop, the driver calls with
their checks, the arrays `platforms` and `devices` with the reads of their
first cells, the two summary lines and the releases. The floating-point
tables are left out; `nDiffs` and `maxDiff` stand for the two numbers the
sanity check computes from them. -/
def main (d : Driver) (nDiffs : Nat) (maxDiff : ℚ) (args : List String) : Proc Int := do
  let _devType ← parseArgs args CL_DEVICE_TYPE_DEFAULT
  let status ← statusCall d "clGetPlatformIDs-0"
  checkStatus "clGetPlatformIDs-0" status
  newPlatforms d.numPlatforms
  let status ← statusCall d "clGetPlatformIDs-1"
  checkStatus "clGetPlatformIDs-1" status
  let _platform ← readPlatforms 0
  let status ← statusCall d "clGetDeviceIDs-0"
  checkStatus "clGetDeviceIDs-0" status
  newDevices d.numDevices
  let _platform ← readPlatforms 0
  let status ← statusCall d "clGetDeviceIDs-1"
  checkStatus "clGetDeviceIDs-1" status
  let status ← statusCall d "clCreateContext"
  checkStatus "clCreateContext" status
  let _device ← readDevices 0
  let status ← statusCall d "clCreateCommandQueue"
  checkStatus "clCreateCommandQueue" status
  readSource "SimpleOpenCL.cl"
  let status ← statusCall d "clCreateProgramWithSource"
  checkStatus "clCreateProgramWithSource" status
  let status ← statusCall d "clBuildProgram"
  checkStatus "clBuildProgram" status
  let status ← statusCall d "clCreateKernel"
  checkStatus "clCreateKernel" status
  let status ← statusCall d "clCreateBuffer-A"
  checkStatus "clCreateBuffer-A" status
  let status ← statusCall d "clCreateBuffer-B"
  checkStatus "clCreateBuffer-B" status
  let status ← statusCall d "clCreateBuffer-C"
  checkStatus "clCreateBuffer-C" status
  let status ← statusCall d "clEnqueueWriteBuffer-A"
  checkStatus "clEnqueueWriteBuffer-A" status
  let status ← statusCall d "clEnqueueWriteBuffer-B"
  checkStatus "clEnqueueWriteBuffer-B" status
  let status ← statusCall d "clSetKernelArg-0"
  checkStatus "clSetKernelArg-0" status
  let status ← statusCall d "clSetKernelArg-1"
  checkStatus "clSetKernelArg-1" status
  let status ← statusCall d "clSetKernelArg-2"
  checkStatus "clSetKernelArg-2" status
  let status ← statusCall d "clEnqueueNDRangeKernel"
  checkStatus "clEnqueueNDRangeKernel" status
  let status ← statusCall d "clEnqueueReadBuffer"
  checkStatus "clEnqueueReadBuffer" status
  cout ("There were " ++ toString 16384 ++ " elements for a total of " ++
    toString (2 * 16384) ++ " possible differences.\n")
  cout ("There were " ++ toString nDiffs ++ " differences, maxDiff = " ++ d.fmt maxDiff ++ "\n")
  call "clReleaseKernel"
  call "clReleaseProgram"
  call "clReleaseCommandQueue"
  call "clReleaseMemObject"
  call "clReleaseMemObject"
  call "clReleaseMemObject"
  call "clReleaseContext"
  deleteGlobals
  pure 0

end SimpleOpenCL

/-! ## matrixMultiplyV1.c++ -/

namespace matrixMultiplyV1

/-- The function `checkStatus(where, status, abortOnError)` of `matrixMultiplyV1.c++`. -/
def checkStatus (loc : String) (status : Int) (abortOnError : Bool) : Proc Unit := do
  if (← getDebug) || status != 0 then
    cout (stepLine loc status)
  if status != 0 && abortOnError then
    exit 1

/-- The library function `strstr`: the offset of the first occurrence of
`needle` in `haystack`, or `none` for the null pointer. -/
def strstr : List Char → List Char → Option Nat
  | [], needle => if needle.isEmpty then some 0 else none
  | c :: rest, needle =>
      if needle.isPrefixOf (c :: rest) then some 0
      else (strstr rest needle).map (fun k => k + 1)

/-- The read `possibleDevs[i]` for an `int` index: defined only for the
entries that were stored. -/
def readPossibleDevs (possibleDevs : List Nat) (i : Int) : Proc Nat := fun w =>
  if 0 ≤ i then
    match possibleDevs.get? i.toNat with
    | some idx => (Outcome.returned idx, w)
    | none => (Outcome.undefinedBehaviour, w)
  else (Outcome.undefinedBehaviour, w)

/-- The test `strstr(extString, "cl_khr_fp64") != nullptr` on the extension
string of `devices[idx]`. -/
def supportsDouble (d : Driver) (idx : Nat) : Bool :=
  strstr (d.deviceExtensions idx).toList "cl_khr_fp64".toList ≠ none

/-- The loop of `typicalOpenCLProlog` that collects in `possibleDevs` the
indices of the devices whose extension string contains `cl_khr_fp64`. -/
def findDoubleDevices (d : Driver) : List Nat → List Nat → Proc (List Nat)
  | [], possibleDevs => pure possibleDevs
  | idx :: rest, possibleDevs => do
      let _dev ← readDevices idx
      call "clGetDeviceInfo"
      call "clGetDeviceInfo"
      if supportsDouble d idx then
        findDoubleDevices d rest (possibleDevs ++ [idx])
      else
        findDoubleDevices d rest possibleDevs

/-- The body of the loop of `typicalOpenCLProlog` that lists the candidates:
two `clGetDeviceInfo` queries on `devices[possibleDevs[i]]` and the line
`"Device " << i << ": [" << name << "] supports double precision.\n"`. -/
def showCandidate (d : Driver) (possibleDevs : List Nat) (i : Nat) : Proc Unit := do
  let p ← readPossibleDevs possibleDevs i
  let _dev ← readDevices p
  call "clGetDeviceInfo"
  call "clGetDeviceInfo"
  cout ("Device " ++ toString i ++ ": [" ++ d.deviceName p ++ "] supports double precision.\n")

/-- The function `typicalOpenCLProlog(desiredDeviceType)` of
`matrixMultiplyV1.c++`: "Return value is device index to use; -1 ==> no
available devices". The driver `d` answers for the requested device type. -/
def typicalOpenCLProlog (d : Driver) (_desiredDeviceType : cl_device_type) : Proc Int := do
  let status ← statusCall d "clGetPlatformIDs-0"
  checkStatus "clGetPlatformIDs-0" status true
  newPlatforms d.numPlatforms
  let status ← statusCall d "clGetPlatformIDs-1"
  checkStatus "clGetPlatformIDs-1" status true
  let _curPlatform ← readPlatforms 0
  if d.numPlatforms > 1 then do
    call "clGetPlatformInfo"
    call "clGetPlatformInfo"
    cout ("Found " ++ toString d.numPlatforms ++ " platforms. Arbitrarily using: " ++
      d.platformName ++ "\n")
  reportVersion d
  let status ← statusCall d "clGetDeviceIDs-0"
  checkStatus "clGetDeviceIDs-0" status true
  if d.numDevices ≤ 0 then do
    cout "No devices on platform!\n"
    pure (-1)
  else do
    newDevices d.numDevices
    let status ← statusCall d "clGetDeviceIDs-1"
    checkStatus "clGetDeviceIDs-1" status true
    cout "\nLooking for a device that supports double precision...\n"
    let possibleDevs ← findDoubleDevices d (List.range d.numDevices) []
    let nPossibleDevs := possibleDevs.length
    if nPossibleDevs = 0 then do
      cerr "\nNo device supports double precision.\n"
      pure (-1)
    else do
      forEach (List.range nPossibleDevs) (showCandidate d possibleDevs)
      if nPossibleDevs = 1 then do
        cout ("\nNo other device in the requested device category supports double precision.\n" ++
          "You may want to try the -a command line option to see if there are others.\n" ++
          "For now, I will use the one I found.\n")
        let r ← readPossibleDevs possibleDevs 0
        pure (r : Int)
      else do
        let devIndex : Int := -1
        let input ← getStdin
        let devIndex ← whichDevice false nPossibleDevs input devIndex
        let r ← readPossibleDevs possibleDevs devIndex
        pure (r : Int)

/-- The function `doTheKernelLaunch(dev, A, B, C, N)` of `matrixMultiplyV1.c++`;
the value is the content of `C` when it returns. -/
def doTheKernelLaunch (d : Driver) (_dev : Nat) (_A _B : List ℚ) (C : List ℚ) (_N : Nat) :
    Proc (List ℚ) := do
  let status ← statusCall d "clCreateContext"
  checkStatus "clCreateContext" status true
  let status ← statusCall d "clCreateCommandQueue"
  checkStatus "clCreateCommandQueue" status true
  let status ← statusCall d "clCreateBuffer-A"
  checkStatus "clCreateBuffer-A" status true
  let status ← statusCall d "clCreateBuffer-B"
  checkStatus "clCreateBuffer-B" status true
  let status ← statusCall d "clCreateBuffer-C"
  checkStatus "clCreateBuffer-C" status true
  let status ← statusCall d "clEnqueueWriteBuffer-A"
  checkStatus "clEnqueueWriteBuffer-A" status true
  let status ← statusCall d "clEnqueueWriteBuffer-B"
  checkStatus "clEnqueueWriteBuffer-B" status true
  readSource "matrixMultiplyV1.cl"
  let status ← statusCall d "clCreateProgramWithSource"
  checkStatus "clCreateProgramWithSource" status true
  let status ← statusCall d "clBuildProgram"
  checkStatus "clBuildProgram" status false
  if status != 0 then
    showProgramBuildLog d
  let _status ← statusCall d "clCreateKernel"
  let status ← statusCall d "clSetKernelArg-A"
  checkStatus "clSetKernelArg-A" status true
  let status ← statusCall d "clSetKernelArg-B"
  checkStatus "clSetKernelArg-B" status true
  let status ← statusCall d "clSetKernelArg-C"
  checkStatus "clSetKernelArg-C" status true
  let status ← statusCall d "clSetKernelArg-N"
  checkStatus "clSetKernelArg-N" status true
  let status ← statusCall d "clEnqueueNDRangeKernel"
  checkStatus "clEnqueueNDRangeKernel" status true
  let (_, C) ← clEnqueueReadBuffer d "clEnqueueReadBuffer" C
  call "clReleaseKernel"
  call "clReleaseProgram"
  call "clReleaseCommandQueue"
  call "clReleaseMemObject"
  call "clReleaseMemObject"
  call "clReleaseMemObject"
  call "clReleaseContext"
  deleteGlobals
  pure C

/-- The two input matrices `do_MatrixMultiply` sets up, row-major. -/
structure Operands where
  X : List ℚ
  Y : List ℚ

/-- The body of the loop nest of `do_MatrixMultiply`:
`X[row*N + col] = (row == col) ? 2.0 : 0.0; Y[row*N + col] = 17.5;`. -/
def fillCell (N row : Nat) (s : Operands) (col : Nat) : Operands :=
  { X := s.X.set (row * N + col) (if row = col then 2.0 else 0.0),
    Y := s.Y.set (row * N + col) 17.5 }

/-- The inner loop of `do_MatrixMultiply`: `for (col = 0; col < N; col++)` over
the body. -/
def fillRow (N : Nat) (s : Operands) (row : Nat) : Operands :=
  (List.range N).foldl (fillCell N row) s

/-- The first part of `do_MatrixMultiply(dev, N)`, up to the call of
`doTheKernelLaunch`: fresh arrays `X` and `Y` of `N*N` doubles and the loop
nest over `row` and `col` that fills them. -/
def do_MatrixMultiply_init (heap : Nat → Nat → ℚ) (N : Nat) : Operands :=
  (List.range N).foldl (fillRow N)
    { X := newArray (N * N) (heap 0), Y := newArray (N * N) (heap 1) }

/-- The function `do_MatrixMultiply(dev, N)`; the value is the content of the
array it returns. -/
def do_MatrixMultiply (d : Driver) (dev : Nat) (N : Nat) : Proc (List ℚ) := do
  let s := do_MatrixMultiply_init d.heap N
  let Z := newArray (N * N) (d.heap 2)
  doTheKernelLaunch d dev s.X s.Y Z N

/-- The function `print(label, M, N)`. -/
def print (d : Driver) (label : String) (M : List ℚ) (N : Nat) : Proc Unit := do
  cout (label ++ ":\n")
  forEach (List.range N) fun row => do
    forEach (List.range N) fun col =>
      cout (d.fmt (M.getD (row * N + col) 0) ++ " ")
    cout "\n"

/-- The argument loop of `main` in `matrixMultiplyV1.c++`, over `argv[1..]`;
the state is the pair of `devType` and `N`. -/
def parseArgs : List String → cl_device_type × Nat → Proc (cl_device_type × Nat)
  | [], s => pure s
  | arg :: rest, (devType, N) =>
      if strcmp "-debug" arg = 0 then do
        setDebug true
        parseArgs rest (devType, N)
      else if charAt arg 0 = '-' then
        parseArgs rest (switchDevType (charAt arg 1) devType, N)
      else
        parseArgs rest (devType, toSizeT (atoi arg))

/-- The function `main` of `matrixMultiplyV1.c++` on the arguments `argv[1..]`. -/
def main (d : Driver) (args : List String) : Proc Int := do
  let (devType, N) ← parseArgs args (CL_DEVICE_TYPE_DEFAULT, 20)
  let devIndex ← typicalOpenCLProlog d devType
  if devIndex ≥ 0 then do
    let dev ← readDevices devIndex
    let C ← do_MatrixMultiply d dev N
    print d "The product is" C N
  pure 0

/-- The end of `typicalOpenCLProlog`, from the test `nPossibleDevs == 0` on:
the candidates are listed, a single one is taken without asking, and among
several the user chooses by menu number. -/
def chooseCandidate (d : Driver) (possibleDevs : List Nat) : Proc Int := do
  let nPossibleDevs := possibleDevs.length
  if nPossibleDevs = 0 then do
    cerr "\nNo device supports double precision.\n"
    pure (-1)
  else do
    forEach (List.range nPossibleDevs) (showCandidate d possibleDevs)
    if nPossibleDevs = 1 then do
      cout ("\nNo other device in the requested device category supports double precision.\n" ++
        "You may want to try the -a command line option to see if there are others.\n" ++
        "For now, I will use the one I found.\n")
      let r ← readPossibleDevs possibleDevs 0
      pure (r : Int)
    else do
      let devIndex : Int := -1
      let input ← getStdin
      let devIndex ← whichDevice false nPossibleDevs input devIndex
      let r ← readPossibleDevs possibleDevs devIndex
      pure (r : Int)

/-- The capability "supports double precision" as a predicate over the
extension string of `devices[idx]`: the string contains `cl_khr_fp64`. -/
def hasDouble (d : Driver) (idx : Nat) : Prop :=
  "cl_khr_fp64".toList <:+: (d.deviceExtensions idx).toList

instance (d : Driver) (idx : Nat) : Decidable (hasDouble d idx) := by
  unfold hasDouble
  infer_instance

/-- The content of `possibleDevs` when the search loop of `typicalOpenCLProlog`
has gone through all the devices. -/
def candidates (d : Driver) : List Nat :=
  (List.range d.numDevices).filter (supportsDouble d)

/-- Modelled from the spec: the kernel file `matrixMultiplyV1.cl` is not among
the sources; the reference product of two row-major `N*N` matrices is
`Z[row*N+col] = sum over k < N of X[row*N+k] * Y[k*N+col]`. -/
def product (N : Nat) (s : Operands) (row col : Nat) : ℚ :=
  Finset.sum (Finset.range N) fun k => s.X.getD (row * N + k) 0 * s.Y.getD (k * N + col) 0

end matrixMultiplyV1

/-! ## What the prolog of saxpy has done when the menu loop starts -/

/-- The line `checkStatus` adds for a successful step: none unless `debug` is set. -/
def debugLine (debug : Bool) (label : String) : List String :=
  if debug = true then [stepLine label 0] else []

namespace saxpy

/-- The state in which `typicalOpenCLProlog` of `saxpy.c++` reaches its device
menu when the four discovery calls succeed: both arrays allocated, the
discovery calls and queries issued, the platform note, the version and one
line per device printed; standard input untouched. -/
def menuState (d : Driver) (w : World) : World :=
  { w with
    platforms := some d.numPlatforms
    devices := some d.numDevices
    calls := w.calls ++ ["clGetPlatformIDs-0", "clGetPlatformIDs-1"] ++
      (if d.numPlatforms > 1 then ["clGetPlatformInfo", "clGetPlatformInfo"] else []) ++
      ["clGetPlatformInfo", "clGetPlatformInfo", "clGetDeviceIDs-0", "clGetDeviceIDs-1"] ++
      List.replicate (2 * d.numDevices) "clGetDeviceInfo"
    stdout := w.stdout ++ debugLine w.debug "clGetPlatformIDs-0" ++
      debugLine w.debug "clGetPlatformIDs-1" ++
      (if d.numPlatforms > 1 then
        ["Found " ++ toString d.numPlatforms ++ " platforms. Arbitrarily using: " ++
          d.platformName ++ "\n"] else []) ++
      [d.platformVersion ++ "\n"] ++ debugLine w.debug "clGetDeviceIDs-0" ++
      debugLine w.debug "clGetDeviceIDs-1" ++
      (List.range d.numDevices).map fun idx =>
        "Device " ++ toString idx ++ ": " ++ d.deviceName idx ++ "\n" }

end saxpy

namespace matrixMultiplyV1

/-- The pattern `status = <driver call>; checkStatus(label, status, true);` of
`matrixMultiplyV1.c++`, repeated over a list of labels. -/
def checkedSteps (d : Driver) : List String → Proc Unit
  | [] => pure ()
  | label :: rest => do
      let status ← statusCall d label
      checkStatus label status true
      checkedSteps d rest

/-- The steps of `doTheKernelLaunch` before the build, each checked with
`abortOnError = true`. -/
def launchSetup : List String :=
  ["clCreateContext", "clCreateCommandQueue", "clCreateBuffer-A", "clCreateBuffer-B",
   "clCreateBuffer-C", "clEnqueueWriteBuffer-A", "clEnqueueWriteBuffer-B",
   "clCreateProgramWithSource"]

/-- The steps of `doTheKernelLaunch` between the kernel creation and the
read-back, each checked with `abortOnError = true`. -/
def launchArguments : List String :=
  ["clSetKernelArg-A", "clSetKernelArg-B", "clSetKernelArg-C", "clSetKernelArg-N",
   "clEnqueueNDRangeKernel"]

/-- The middle of `doTheKernelLaunch`: the build, checked with
`abortOnError = false`, the build log after a failed build, and the kernel
creation, whose status is stored and not looked at. -/
def buildAndCreate (d : Driver) : Proc Unit := do
  let status ← statusCall d "clBuildProgram"
  checkStatus "clBuildProgram" status false
  if status != 0 then
    showProgramBuildLog d
  let _status ← statusCall d "clCreateKernel"

/-- The end of `doTheKernelLaunch`: the read-back, whose status is dropped,
and the releases. -/
def readBackAndRelease (d : Driver) (C : List ℚ) : Proc (List ℚ) := do
  let (_, C) ← clEnqueueReadBuffer d "clEnqueueReadBuffer" C
  call "clReleaseKernel"
  call "clReleaseProgram"
  call "clReleaseCommandQueue"
  call "clReleaseMemObject"
  call "clReleaseMemObject"
  call "clReleaseMemObject"
  call "clReleaseContext"
  deleteGlobals
  pure C

/-- The state in which `typicalOpenCLProlog` of `matrixMultiplyV1.c++` leaves
its search loop when the four discovery calls succeed: both arrays allocated,
the discovery calls and queries issued, the platform note, the version and
the search heading printed; standard input untouched. -/
def searchState (d : Driver) (w : World) : World :=
  { w with
    platforms := some d.numPlatforms
    devices := some d.numDevices
    calls := w.calls ++ ["clGetPlatformIDs-0", "clGetPlatformIDs-1"] ++
      (if d.numPlatforms > 1 then ["clGetPlatformInfo", "clGetPlatformInfo"] else []) ++
      ["clGetPlatformInfo", "clGetPlatformInfo", "clGetDeviceIDs-0", "clGetDeviceIDs-1"] ++
      List.replicate (2 * d.numDevices) "clGetDeviceInfo"
    stdout := w.stdout ++ debugLine w.debug "clGetPlatformIDs-0" ++
      debugLine w.debug "clGetPlatformIDs-1" ++
      (if d.numPlatforms > 1 then
        ["Found " ++ toString d.numPlatforms ++ " platforms. Arbitrarily using: " ++
          d.platformName ++ "\n"] else []) ++
      [d.platformVersion ++ "\n"] ++ debugLine w.debug "clGetDeviceIDs-0" ++
      debugLine w.debug "clGetDeviceIDs-1" ++
      ["\nLooking for a device that supports double precision...\n"] }

end matrixMultiplyV1

/-! ## Floating-point numbers -/

/-- The integer nearest to `s`; a tie goes to the even neighbour. -/
def roundHalfEven (s : ℚ) : ℤ :=
  if s - ⌊s⌋ < 1 / 2 then ⌊s⌋
  else if 1 / 2 < s - ⌊s⌋ then ⌊s⌋ + 1
  else if ⌊s⌋ % 2 = 0 then ⌊s⌋ else ⌊s⌋ + 1

/-- Rounding to a binary floating-point format with `p` significant bits, as
IEEE 754 does in its default mode (round to nearest, ties to even). A
floating-point number is the rational number it holds. With
`e = floor (log2 |q|) - (p - 1)` the quotient `q / 2 ^ e` has `p` bits before
the point, and the result is the multiple of `2 ^ e` nearest to `q`. The
exponent range of the format is not modelled, so there is no overflow and
there are no subnormal numbers: the numbers of the tables are 0 or lie between
0.0001 and 4. -/
def roundTo (p : ℕ) (q : ℚ) : ℚ :=
  if q = 0 then 0
  else
    let e : ℤ := Int.log 2 |q| - ((p : ℤ) - 1)
    roundHalfEven (q / 2 ^ e) * 2 ^ e

/-- The value a `float` holds after `q` is stored in it (IEEE 754 binary32, 24
significant bits). An operation is rounded to the type of its operands, with
no excess precision. -/
def toFloat (q : ℚ) : ℚ := roundTo 24 q

/-- The `double` that an operation with the exact result `q` yields (IEEE 754
binary64, 53 significant bits). -/
def toDouble (q : ℚ) : ℚ := roundTo 53 q

/-- The constant `M_PI` of `math.h`: the `double` written
`3.14159265358979323846`. -/
def M_PI : ℚ := toDouble 3.14159265358979323846

/-! ## The tables of SimpleOpenCL.c++ -/

namespace SimpleOpenCL

/-- The variables of the initialisation loop of `main`: the arrays `A`, `B`
and the running angle `theta`, all of type `float`. -/
structure Angles where
  A : List ℚ
  B : List ℚ
  theta : ℚ

/-- The statement `float dTheta = M_PI / static_cast<float>(n-1);`: the integer
`n-1` becomes a `float`, the quotient is computed in `double` (a `float`
converts to `double` without change) and is stored in a `float`. -/
def dTheta (n : ℕ) : ℚ := toFloat (toDouble (M_PI / toFloat ((((n : ℤ) - 1 : ℤ)) : ℚ)))

/-- The body of the initialisation loop:
`A[i] = theta; B[i] = M_PI - theta; theta += dTheta;`. The difference is
computed in `double` and stored in a `float`; the sum is computed in `float`. -/
def initCell (dTheta : ℚ) (s : Angles) (i : ℕ) : Angles :=
  { A := s.A.set i s.theta
    B := s.B.set i (toFloat (toDouble (M_PI - s.theta)))
    theta := toFloat (s.theta + dTheta) }

/-- The initialisation of `A` and `B` in `main`: `float theta = 0.0;` and the
loop `for (i = 0; i < n; i++)` over the body. `A` and `B` are the fresh
arrays. -/
def initAngles (n : ℕ) (A B : List ℚ) : Angles :=
  (List.range n).foldl (initCell (dTheta n)) { A := A, B := B, theta := 0 }

/-- The value of `theta` when round `i` of the initialisation loop begins. -/
def thetaAt (n i : ℕ) : ℚ := (fun t => toFloat (t + dTheta n))^[i] 0

end SimpleOpenCL

/-! ## The result check of SimpleOpenCL.c++ -/

namespace SimpleOpenCL

/-- The constant `NUM_ELEMENTS`. -/
def NUM_ELEMENTS : Nat := 16384

/-- The variables of the sanity check of `main`: `nDiffs` and `maxDiff`. -/
structure Check (K : Type) where
  nDiffs : Nat
  maxDiff : K

/-- The statement `if (diff != 0.0) { nDiffs++; if (diff > maxDiff) maxDiff = diff; }`. -/
def countDiff {K : Type} [LinearOrderedField K] (s : Check K) (diff : K) : Check K :=
  if diff ≠ 0 then
    { nDiffs := s.nDiffs + 1, maxDiff := if diff > s.maxDiff then diff else s.maxDiff }
  else s

/-- The body of the loop of the sanity check:
`diff = fabs(C[2*i] - cos(A[i]))`, counted, then
`diff = fabs(C[2*i+1] - sin(B[i]))`, counted. The library functions `cos` and
`sin` are parameters. -/
def checkCell {K : Type} [LinearOrderedField K] (cos sin : K → K) (A B C : List K)
    (s : Check K) (i : Nat) : Check K :=
  let diff := |C.getD (2 * i) 0 - cos (A.getD i 0)|
  let s := countDiff s diff
  let diff := |C.getD (2 * i + 1) 0 - sin (B.getD i 0)|
  countDiff s diff

/-- The sanity check of `main` after the read-back, in exact arithmetic:
`nDiffs = 0; maxDiff = 0.0;` and the loop `for (i = 0; i < n; i++)` over the
body. -/
def sanityCheck {K : Type} [LinearOrderedField K] (cos sin : K → K) (n : Nat)
    (A B C : List K) : Check K :=
  (List.range n).foldl (checkCell cos sin A B C) { nDiffs := 0, maxDiff := 0 }

/-- The differences between the outputs and their references, in the order in
which the sanity check meets them: `|C[2i] - cos(A[i])|` at position `2i` and
`|C[2i+1] - sin(B[i])|` at position `2i+1`, for `i < n`. -/
def differences {K : Type} [LinearOrderedField K] (cos sin : K → K) (n : Nat)
    (A B C : List K) : List K :=
  (List.range (2 * n)).map fun j =>
    |C.getD j 0 - (if j % 2 = 0 then cos (A.getD (j / 2) 0) else sin (B.getD (j / 2) 0))|

end SimpleOpenCL

/-! ## HelloOpenCL.c++ -/

namespace HelloOpenCL

/-- The function `checkStatus(where, status, abortOnError)` of `HelloOpenCL.c++`. -/
def checkStatus (loc : String) (status : Int) (abortOnError : Bool) : Proc Unit := do
  if (← getDebug) || status != 0 then
    cout (stepLine loc status)
  if status != 0 && abortOnError then
    exit 1

/-- The function `typicalOpenCLProlog(desiredDeviceType)` of `HelloOpenCL.c++`;
it returns nothing, and tests neither the number of platforms nor the number
of devices. -/
def typicalOpenCLProlog (d : Driver) (_desiredDeviceType : cl_device_type) : Proc Unit := do
  let status ← statusCall d "clGetPlatformIDs-0"
  checkStatus "clGetPlatformIDs-0" status true
  newPlatforms d.numPlatforms
  let status ← statusCall d "clGetPlatformIDs-1"
  checkStatus "clGetPlatformIDs-1" status true
  let _curPlatform ← readPlatforms 0
  reportVersion d
  let status ← statusCall d "clGetDeviceIDs-0"
  checkStatus "clGetDeviceIDs-0" status true
  newDevices d.numDevices
  let status ← statusCall d "clGetDeviceIDs-1"
  checkStatus "clGetDeviceIDs-1" status true

/-- The first statements of `main`:
`int numDimsToUse = 1; if (argc > 1) numDimsToUse = atoi(argv[1]);`, over
`argv[1..]`. -/
def numDimsToUse (args : List String) : Int :=
  match args with
  | [] => 1
  | arg :: _ => atoi arg

/-- The array `globalWorkSize` of `main`. -/
def globalWorkSize : List Nat := [64, 32, 32]

/-- The array `localWorkSize` of `main` when the kernel is enqueued:
`{ 8, 8, 4 }`, then `localWorkSize[0] = 32` for one dimension and
`localWorkSize[0] = localWorkSize[1] = 16` for two. -/
def localWorkSize (numDimsToUse : Int) : List Nat :=
  let localWorkSize := [8, 8, 4]
  if numDimsToUse = 1 then localWorkSize.set 0 32
  else if numDimsToUse = 2 then (localWorkSize.set 1 16).set 0 16
  else localWorkSize

/-- The entry of the call trace for
`clEnqueueNDRangeKernel(cmdQueue, kernel, work_dim, nullptr, globalWorkSize, localWorkSize, ...)`:
the name of the call with the three arguments `main` computes. -/
def enqueueEntry (work_dim : Int) (globalWorkSize localWorkSize : List Nat) : String :=
  "clEnqueueNDRangeKernel work_dim=" ++ toString work_dim ++ " global=" ++
    toString globalWorkSize ++ " local=" ++ toString localWorkSize

/-- The driver call `clEnqueueNDRangeKernel`: it is recorded with its
arguments and returns the status the driver gives the step. -/
def clEnqueueNDRangeKernel (d : Driver) (work_dim : Int) (globalWorkSize localWorkSize : List Nat) :
    Proc Int := fun w =>
  (Outcome.returned (d.status "clEnqueueNDRangeKernel"),
   { w with calls := w.calls ++ [enqueueEntry work_dim globalWorkSize localWorkSize] })

/-- The function `main` of `HelloOpenCL.c++` on the arguments `argv[1..]`. -/
def main (d : Driver) (args : List String) : Proc Int := do
  let numDimsToUse := numDimsToUse args
  typicalOpenCLProlog d CL_DEVICE_TYPE_DEFAULT
  let status ← statusCall d "clCreateContext"
  checkStatus "clCreateContext" status true
  let _dev ← readDevices 0
  let status ← statusCall d "clCreateCommandQueue"
  checkStatus "clCreateCommandQueue" status true
  readSource "HelloOpenCL.cl"
  let status ← statusCall d "clCreateProgramWithSource"
  checkStatus "clCreateProgramWithSource" status true
  let status ← statusCall d "clBuildProgram"
  checkStatus "clBuildProgram" status true
  let _status ← statusCall d "clCreateKernel"
  let status ← clEnqueueNDRangeKernel d numDimsToUse globalWorkSize (localWorkSize numDimsToUse)
  checkStatus "clEnqueueNDRangeKernel" status true
  call "clFinish"
  call "clReleaseKernel"
  call "clReleaseProgram"
  call "clReleaseCommandQueue"
  call "clReleaseContext"
  deleteGlobals
  pure 0

end HelloOpenCL

/-! ## The size argument of the kernels -/

/-- Modelled from the spec: the object representation of a 64-bit `size_t`,
8 bytes with the least significant first. -/
def sizeTBytes (n : Nat) : List Nat :=
  (List.range 8).map fun k => n / 256 ^ k % 256

/-- Modelled from the spec: the kernel files are not among the sources; the
kernel reads its argument as a 32-bit two's-complement `int` from the bytes
bound to it, least significant first. -/
def kernelInt (bytes : List Nat) : Int :=
  let u : Nat := bytes.foldr (fun b acc => b + 256 * acc) 0
  if u < 2 ^ 31 then (u : Int) else (u : Int) - 2 ^ 32

/-- The size of an `int` in bytes. -/
def sizeofInt : Nat := 4

/-- The call `clSetKernelArg(kernel, 3, sizeof(int), &n)` of `saxpy.c++` and
`clSetKernelArg(kernel, 3, sizeof(int), &N)` of `matrixMultiplyV1.c++` for the
`size_t` count: the first `sizeof(int)` bytes of the object are bound to the
kernel, and the value is what the kernel reads from them. -/
def clSetKernelArg_n (n : Nat) : Int :=
  kernelInt ((sizeTBytes n).take sizeofInt)

/-! ## Concrete drivers -/

/-- A driver with one platform and `numDevices` devices, none of them with
extensions, that answers every call with the status `status` gives. -/
def testDriver (status : String → Int) (numPlatforms numDevices : Nat) : Driver :=
  { status := status, numPlatforms := numPlatforms, platformName := "P",
    platformVersion := "OpenCL 1.2", numDevices := numDevices,
    deviceName := fun idx => "D" ++ toString idx, deviceExtensions := fun _ => "",
    limit := fun _ => 0, buildLog := "", deviceOutput := fun _ => 2010, heap := fun _ _ => 0,
    fmt := fun _ => "#" }

/-- Every call succeeds; one platform with three devices. -/
def threeDevices : Driver := testDriver (fun _ => 0) 1 3

/-- Every call succeeds, but no platform is reported. -/
def noPlatform : Driver := testDriver (fun _ => 0) 0 0

/-- Every call succeeds; one platform without a device of the requested type. -/
def noDevice : Driver := testDriver (fun _ => 0) 1 0

/-- Every call succeeds; one platform with one device. -/
def oneDevice : Driver := testDriver (fun _ => 0) 1 1

/-- Every call succeeds except the read-back, which returns -5. -/
def readBackFails : Driver :=
  testDriver (fun x => if x = "clEnqueueReadBuffer" then -5 else 0) 1 1

/-- Every call succeeds except the kernel creation, which returns -46. -/
def createKernelFails : Driver :=
  testDriver (fun x => if x = "clCreateKernel" then -46 else 0) 1 1

/-- Every call succeeds except the build of the program, which returns -11. -/
def buildFails : Driver :=
  testDriver (fun x => if x = "clBuildProgram" then -11 else 0) 1 1

/-- Every call succeeds; one platform with three devices, of which the second
and the third report the extension `cl_khr_fp64`. -/
def twoDoubles : Driver :=
  { testDriver (fun _ => 0) 1 3 with
    deviceExtensions := fun idx => if idx = 0 then "cl_khr_icd" else "cl_khr_icd cl_khr_fp64" }

/-- Every call succeeds; one platform with two devices, of which only the
second reports the extension `cl_khr_fp64`. -/
def secondIsDouble : Driver :=
  { testDriver (fun _ => 0) 1 2 with
    deviceExtensions := fun idx => if idx = 1 then "cl_khr_fp64" else "" }

/-! ## Concrete outputs of the device -/

/-- The output in which every cell holds its reference exactly:
`C[2i] = cos(A[i])` and `C[2i+1] = sin(B[i])` for `i < n`. -/
def referenceOutput {K : Type} [LinearOrderedField K] (cos sin : K → K) (A B : List K)
    (n : Nat) : List K :=
  (List.range (2 * n)).map fun j =>
    if j % 2 = 0 then cos (A.getD (j / 2) 0) else sin (B.getD (j / 2) 0)

/-- The reference output with `C[0]` moved up by one millionth. -/
def nearOutput {K : Type} [LinearOrderedField K] (cos sin : K → K) (A B : List K)
    (n : Nat) : List K :=
  (referenceOutput cos sin A B n).set 0 (cos (A.getD 0 0) + 1 / 1000000)

/-! ## Basic facts about processes -/

theorem run_pure {α : Type} (a : α) (w : World) :
    (pure a : Proc α).run w = (Outcome.returned a, w) := rfl

theorem run_bind {α β : Type} (p : Proc α) (f : α → Proc β) (w : World) :
    (p >>= f).run w =
      match p.run w with
      | (Outcome.returned a, w1) => (f a).run w1
      | (Outcome.exited c, w1) => (Outcome.exited c, w1)
      | (Outcome.hangs, w1) => (Outcome.hangs, w1)
      | (Outcome.undefinedBehaviour, w1) => (Outcome.undefinedBehaviour, w1) := rfl

theorem run_ite {α : Type} (c : Prop) [Decidable c] (p q : Proc α) (w : World) :
    (if c then p else q).run w = if c then p.run w else q.run w := by
  split <;> rfl

theorem run_cout (s : String) (w : World) :
    (cout s).run w = (Outcome.returned (), { w with stdout := w.stdout ++ [s] }) := rfl

theorem run_cerr (s : String) (w : World) :
    (cerr s).run w = (Outcome.returned (), { w with stderr := w.stderr ++ [s] }) := rfl

theorem run_exit {α : Type} (code : Int) (w : World) :
    (exit code : Proc α).run w = (Outcome.exited code, w) := rfl

theorem run_hang {α : Type} (w : World) : (hang : Proc α).run w = (Outcome.hangs, w) := rfl

theorem run_getDebug (w : World) : getDebug.run w = (Outcome.returned w.debug, w) := rfl

theorem run_setDebug (b : Bool) (w : World) :
    (setDebug b).run w = (Outcome.returned (), { w with debug := b }) := rfl

theorem run_call (name : String) (w : World) :
    (call name).run w = (Outcome.returned (), { w with calls := w.calls ++ [name] }) := rfl

theorem run_statusCall (d : Driver) (label : String) (w : World) :
    (statusCall d label).run w =
      (Outcome.returned (d.status label), { w with calls := w.calls ++ [label] }) := rfl

theorem run_getStdin (w : World) : getStdin.run w = (Outcome.returned w.stdin, w) := rfl

theorem run_readSource (f : String) (w : World) :
    (readSource f).run w = (Outcome.returned (), w) := rfl

/-- What `checkStatus` of `saxpy.c++` does, in one equation. -/
theorem saxpy_checkStatus_run (loc : String) (status : Int) (abortOnError : Bool) (w : World) :
    (saxpy.checkStatus loc status abortOnError).run w =
      (if status ≠ 0 ∧ abortOnError = true then Outcome.exited 1 else Outcome.returned (),
       if w.debug = true ∨ status ≠ 0 then { w with stdout := w.stdout ++ [stepLine loc status] }
       else w) := by
  simp only [saxpy.checkStatus, run_bind, run_getDebug, run_ite, run_cout, run_pure, run_exit]
  by_cases hs : status = 0 <;> cases abortOnError <;> cases hd : w.debug <;> simp [hs, hd]

theorem proc_pure_bind {α β : Type} (a : α) (f : α → Proc β) : (pure a >>= f) = f a := rfl

theorem proc_bind_assoc {α β γ : Type} (p : Proc α) (f : α → Proc β) (g : β → Proc γ) :
    (p >>= f) >>= g = p >>= fun a => f a >>= g := by
  funext w
  show Proc.bind (Proc.bind p f) g w = Proc.bind p (fun a => Proc.bind (f a) g) w
  unfold Proc.bind
  rcases p w with ⟨o, w1⟩
  cases o <;> rfl

theorem proc_ite_bind {α β : Type} (c : Prop) [Decidable c] (p q : Proc α) (f : α → Proc β) :
    ((if c then p else q) >>= f) = if c then p >>= f else q >>= f := by
  split <;> rfl

/-- The sequential text of `main` is the argument loop, the discovery, the
chain of the fourteen later checked calls, and the epilogue. -/
theorem SimpleOpenCL_main_eq (d : Driver) (nDiffs : Nat) (maxDiff : ℚ) (args : List String) :
    SimpleOpenCL.main d nDiffs maxDiff args =
      (SimpleOpenCL.parseArgs args cl_device_type.CL_DEVICE_TYPE_DEFAULT >>= fun _ =>
        SimpleOpenCL.discovery d >>= fun _ =>
          SimpleOpenCL.checkedSteps d SimpleOpenCL.laterCalls >>= fun _ =>
            SimpleOpenCL.epilogue d nDiffs maxDiff) := by
  simp only [SimpleOpenCL.main, SimpleOpenCL.discovery, SimpleOpenCL.laterCalls,
    SimpleOpenCL.checkedSteps, SimpleOpenCL.epilogue, proc_bind_assoc, proc_pure_bind, readSource]

/-! ## The argument loops -/

theorem strcmp_eq_zero (a b : String) : strcmp a b = 0 ↔ a = b := by
  unfold strcmp
  by_cases h : a = b
  · simp [h]
  · simp only [h, if_false, iff_false]
    split <;> decide

theorem selector_debug : selector "-debug" = none := by decide

/-- One step of the `else if (argv[i][0] == '-') switch (argv[i][1])` branch
agrees with `selector`. -/
theorem switchDevType_eq (arg : String) (devType : cl_device_type) :
    (if charAt arg 0 = '-' then switchDevType (charAt arg 1) devType else devType) =
      (selector arg).getD devType := by
  unfold charAt switchDevType selector
  rcases h : arg.toList with _ | ⟨c0, _ | ⟨c1, rest⟩⟩
  · simp
  · by_cases h0 : c0 = '-'
    · subst h0
      simp
    · simp [h0]
  · by_cases h0 : c0 = '-'
    · subst h0
      by_cases ha : c1 = 'a'
      · subst ha; simp
      by_cases hc : c1 = 'c'
      · subst hc; simp
      by_cases hg : c1 = 'g'
      · subst hg; simp
      simp [ha, hc, hg]
    · simp [h0]

theorem selected_nil (devType : cl_device_type) : selected [] devType = devType := rfl

theorem selected_cons (arg : String) (rest : List String) (devType : cl_device_type) :
    selected (arg :: rest) devType = selected rest ((selector arg).getD devType) := by
  unfold selected
  cases h : selector arg with
  | none => simp [List.filterMap_cons, h]
  | some u =>
    simp only [List.filterMap_cons, h, Option.getD_some]
    cases h2 : (List.filterMap selector rest).getLast? with
    | none => simp [List.getLast?_cons, h2]
    | some v => simp [List.getLast?_cons, h2]

/-- The argument loop of `saxpy.c++` in one equation: it returns the selected
device type and sets `debug` exactly when some argument is `-debug`. -/
theorem saxpy_parseArgs_run (args : List String) (devType : cl_device_type) (w : World) :
    (saxpy.parseArgs args devType).run w =
      (Outcome.returned (selected args devType),
       { w with debug := w.debug || decide ("-debug" ∈ args) }) := by
  induction args generalizing devType w with
  | nil => simp [saxpy.parseArgs, run_pure, selected_nil]
  | cons arg rest ih =>
    rw [selected_cons]
    unfold saxpy.parseArgs
    by_cases hd : arg = "-debug"
    · subst hd
      have h0 : strcmp "-debug" "-debug" = 0 := (strcmp_eq_zero _ _).2 rfl
      simp only [h0, if_true, run_bind, run_setDebug, ih, selector_debug]
      simp
    · have h0 : strcmp "-debug" arg ≠ 0 := fun h => hd ((strcmp_eq_zero _ _).1 h).symm
      have h1 : ¬ ("-debug" = arg) := fun h => hd h.symm
      rw [← switchDevType_eq]
      simp only [h0, if_false]
      by_cases hc : charAt arg 0 = '-'
      · simp [hc, ih, h1]
      · simp [hc, ih, h1]

/-- The argument loop of `SimpleOpenCL.c++` in one equation. -/
theorem SimpleOpenCL_parseArgs_run (args : List String) (devType : cl_device_type) (w : World) :
    (SimpleOpenCL.parseArgs args devType).run w =
      (Outcome.returned (selected args devType),
       { w with debug := w.debug || decide ("-debug" ∈ args) }) := by
  induction args generalizing devType w with
  | nil => simp [SimpleOpenCL.parseArgs, run_pure, selected_nil]
  | cons arg rest ih =>
    rw [selected_cons]
    unfold SimpleOpenCL.parseArgs
    by_cases hd : arg = "-debug"
    · subst hd
      have h0 : strcmp "-debug" "-debug" = 0 := (strcmp_eq_zero _ _).2 rfl
      simp only [h0, if_true, run_bind, run_setDebug, ih, selector_debug]
      simp
    · have h0 : strcmp "-debug" arg ≠ 0 := fun h => hd ((strcmp_eq_zero _ _).1 h).symm
      have h1 : ¬ ("-debug" = arg) := fun h => hd h.symm
      rw [← switchDevType_eq]
      simp only [h0, if_false]
      by_cases hc : charAt arg 0 = '-'
      · simp [hc, ih, h1]
      · simp [hc, ih, h1]

theorem sizeArg_nil (N : Nat) : sizeArg [] N = N := rfl

theorem sizeArg_cons (arg : String) (rest : List String) (N : Nat) :
    sizeArg (arg :: rest) N =
      sizeArg rest (if charAt arg 0 = '-' then N else toSizeT (atoi arg)) := by
  unfold sizeArg
  by_cases hc : charAt arg 0 = '-'
  · simp [List.filter_cons, hc]
  · simp only [List.filter_cons, hc, ne_eq, not_false_eq_true, decide_True, if_true, if_false]
    cases h2 : (List.filter (fun arg => decide (¬ charAt arg 0 = '-')) rest).getLast? with
    | none => rw [List.getLast?_cons, h2]; rfl
    | some v => rw [List.getLast?_cons, h2]; rfl

/-- The argument loop of `matrixMultiplyV1.c++` in one equation. -/
theorem matrixMultiplyV1_parseArgs_run (args : List String) (devType : cl_device_type)
    (N : Nat) (w : World) :
    (matrixMultiplyV1.parseArgs args (devType, N)).run w =
      (Outcome.returned (selected args devType, sizeArg args N),
       { w with debug := w.debug || decide ("-debug" ∈ args) }) := by
  induction args generalizing devType N w with
  | nil => simp [matrixMultiplyV1.parseArgs, run_pure, selected_nil, sizeArg_nil]
  | cons arg rest ih =>
    rw [selected_cons, sizeArg_cons]
    unfold matrixMultiplyV1.parseArgs
    by_cases hd : arg = "-debug"
    · subst hd
      have h0 : strcmp "-debug" "-debug" = 0 := (strcmp_eq_zero _ _).2 rfl
      have h2 : charAt "-debug" 0 = '-' := by decide
      simp only [h0, if_true, run_bind, run_setDebug, ih, selector_debug, h2]
      simp
    · have h0 : strcmp "-debug" arg ≠ 0 := fun h => hd ((strcmp_eq_zero _ _).1 h).symm
      have h1 : ¬ ("-debug" = arg) := fun h => hd h.symm
      rw [← switchDevType_eq]
      simp only [h0, if_false]
      by_cases hc : charAt arg 0 = '-'
      · simp [hc, ih, h1]
      · simp [hc, ih, h1]

/-- What `checkStatus` of `SimpleOpenCL.c++` does, in one equation. -/
theorem SimpleOpenCL_checkStatus_run (loc : String) (status : Int) (w : World) :
    (SimpleOpenCL.checkStatus loc status).run w =
      (if status ≠ 0 then Outcome.exited 1 else Outcome.returned (),
       if w.debug = true ∨ status ≠ 0 then { w with stdout := w.stdout ++ [stepLine loc status] }
       else w) := by
  simp only [SimpleOpenCL.checkStatus, run_bind, run_getDebug, run_ite, run_cout, run_pure,
    run_exit]
  by_cases hs : status = 0 <;> cases hd : w.debug <;> simp [hs, hd]

theorem selector_eq_none_iff (arg : String) :
    selector arg = none ↔
      ¬ (charAt arg 0 = '-' ∧ (charAt arg 1 = 'a' ∨ charAt arg 1 = 'c' ∨ charAt arg 1 = 'g')) := by
  unfold charAt selector
  rcases h : arg.toList with _ | ⟨c0, _ | ⟨c1, rest⟩⟩
  · simp
  · by_cases h0 : c0 = '-'
    · subst h0
      simp
    · simp [h0]
  · by_cases h0 : c0 = '-'
    · subst h0
      by_cases ha : c1 = 'a'
      · subst ha; simp
      by_cases hc : c1 = 'c'
      · subst hc; simp
      by_cases hg : c1 = 'g'
      · subst hg; simp
      simp [ha, hc, hg]
    · simp [h0]

/-! ## Chains of checked driver calls -/

theorem run_forEach_cout {α : Type} (l : List α) (f : α → String) (w : World) :
    (forEach l fun i => cout (f i)).run w =
      (Outcome.returned (), { w with stdout := w.stdout ++ l.map f }) := by
  induction l generalizing w with
  | nil => simp [forEach, run_pure]
  | cons i rest ih => simp [forEach, run_bind, run_cout, ih]

theorem run_newPlatforms (n : Nat) (w : World) :
    (newPlatforms n).run w = (Outcome.returned (), { w with platforms := some n }) := rfl

theorem run_newDevices (n : Nat) (w : World) :
    (newDevices n).run w = (Outcome.returned (), { w with devices := some n }) := rfl

theorem run_deleteGlobals (w : World) :
    deleteGlobals.run w = (Outcome.returned (), { w with platforms := none, devices := none }) :=
  rfl

theorem run_clEnqueueReadBuffer (d : Driver) (label : String) (host : List ℚ) (w : World) :
    (clEnqueueReadBuffer d label host).run w =
      ((Outcome.returned
        (d.status label,
          if d.status label = 0 then (List.range host.length).map d.deviceOutput else host)),
       { w with calls := w.calls ++ [label] }) := rfl

theorem run_readPlatforms (i : Nat) (w : World) :
    (readPlatforms i).run w =
      match w.platforms with
      | some len => if i < len then (Outcome.returned i, w) else (Outcome.undefinedBehaviour, w)
      | none => (Outcome.undefinedBehaviour, w) := rfl

theorem run_readDevices (i : Int) (w : World) :
    (readDevices i).run w =
      match w.devices with
      | some len =>
          if 0 ≤ i ∧ i < len then (Outcome.returned i.toNat, w)
          else (Outcome.undefinedBehaviour, w)
      | none => (Outcome.undefinedBehaviour, w) := rfl

theorem run_cinInt (devIndex : Int) (w : World) :
    (cinInt devIndex).run w =
      match w.stdin with
      | [] => (Outcome.returned (devIndex, false), w)
      | v :: rest =>
          if v < INT_MIN then (Outcome.returned (INT_MIN, false), { w with stdin := rest })
          else if INT_MAX < v then (Outcome.returned (INT_MAX, false), { w with stdin := rest })
          else (Outcome.returned (v, true), { w with stdin := rest }) := rfl

/-! ## The discovery of SimpleOpenCL -/

/-- The discovery of `SimpleOpenCL.c++` when its two first calls succeed and no
platform is reported: `platforms[0]` is read from an array of length zero. -/
theorem SimpleOpenCL_discovery_noPlatform (d : Driver) (w : World)
    (h0 : d.status "clGetPlatformIDs-0" = 0) (h1 : d.status "clGetPlatformIDs-1" = 0)
    (hp : d.numPlatforms = 0) :
    ((SimpleOpenCL.discovery d).run w).1 = Outcome.undefinedBehaviour := by
  simp only [SimpleOpenCL.discovery, run_bind, run_statusCall, SimpleOpenCL_checkStatus_run, h0,
    h1, run_newPlatforms, run_readPlatforms]
  cases hdbg : w.debug <;> simp [hdbg, hp]

/-- On a driver whose calls all succeed but which reports no platform, `main`
of `SimpleOpenCL.c++` reads `platforms[0]` from an array of length zero. -/
theorem SimpleOpenCL_main_noPlatform (d : Driver) (nDiffs : Nat) (maxDiff : ℚ)
    (args : List String) (w : World)
    (h0 : d.status "clGetPlatformIDs-0" = 0) (h1 : d.status "clGetPlatformIDs-1" = 0)
    (hp : d.numPlatforms = 0) :
    ((SimpleOpenCL.main d nDiffs maxDiff args).run w).1 = Outcome.undefinedBehaviour := by
  rw [SimpleOpenCL_main_eq, run_bind, SimpleOpenCL_parseArgs_run]
  simp only [run_bind]
  have h := SimpleOpenCL_discovery_noPlatform d
    { w with debug := w.debug || decide ("-debug" ∈ args) } h0 h1 hp
  revert h
  generalize (SimpleOpenCL.discovery d).run _ = res
  rcases res with ⟨o, w2⟩
  intro h
  simp only at h
  subst h
  rfl

/-! ## The device menu -/

/-- The prompt loop over values an `int` can hold that are all rejected: it
prompts once for each of them and goes on with the rest of the input. -/
theorem whichDevice_skip (wide : Bool) (bound : Nat) (pre tail : List Int) (devIndex : Int)
    (w : World) (hw : w.stdin = pre ++ tail) (hcur : devIndex < 0 ∨ devIndex ≥ bound)
    (hpre : ∀ x ∈ pre, (x < 0 ∨ x ≥ bound) ∧ INT_MIN ≤ x ∧ x ≤ INT_MAX) :
    ∃ cur : Int, (cur < 0 ∨ cur ≥ bound) ∧
      (whichDevice wide bound (pre ++ tail) devIndex).run w =
        (whichDevice wide bound tail cur).run
          { w with stdin := tail, stdout := w.stdout ++ List.replicate pre.length prompt } := by
  induction pre generalizing devIndex w with
  | nil =>
    refine ⟨devIndex, hcur, ?_⟩
    simp only [List.nil_append] at hw ⊢
    rw [← hw]
    simp
  | cons x xs ih =>
    obtain ⟨hx, hlo, hhi⟩ := hpre x (List.mem_cons_self _ _)
    have h1 : ¬ x < INT_MIN := by omega
    have h2 : ¬ INT_MAX < x := by omega
    simp only [List.cons_append] at hw ⊢
    obtain ⟨cur, hc, he⟩ := ih x
      { w with stdout := w.stdout ++ [prompt], stdin := xs ++ tail } rfl hx
      (fun y hy => hpre y (List.mem_cons_of_mem _ hy))
    refine ⟨cur, hc, ?_⟩
    rw [whichDevice, run_ite, if_pos hcur]
    simp only [run_bind, run_cout, run_cinInt, hw, h1, h2, if_false, if_true]
    rw [he]
    simp [List.replicate_succ]

/-- The prompt loop on an input whose first acceptable value is `v`, when `v`
and the values before it are values an `int` can hold: it returns `v`, has
consumed the input up to and including `v`, and has printed one prompt per
rejected value and one more. -/
theorem whichDevice_accepts (wide : Bool) (bound : Nat) (pre rest : List Int) (v devIndex : Int)
    (w : World) (hw : w.stdin = pre ++ v :: rest) (hcur : devIndex < 0 ∨ devIndex ≥ bound)
    (hpre : ∀ x ∈ pre, (x < 0 ∨ x ≥ bound) ∧ INT_MIN ≤ x ∧ x ≤ INT_MAX)
    (hv : 0 ≤ v ∧ v < bound) (hmax : v ≤ INT_MAX) :
    (whichDevice wide bound (pre ++ v :: rest) devIndex).run w =
      (Outcome.returned v,
       { w with stdin := rest, stdout := w.stdout ++ List.replicate (pre.length + 1) prompt }) := by
  obtain ⟨cur, hc, he⟩ := whichDevice_skip wide bound pre (v :: rest) devIndex w hw hcur hpre
  have h1 : ¬ v < INT_MIN := by
    unfold INT_MIN
    omega
  have h2 : ¬ INT_MAX < v := by omega
  have h3 : ¬ (v < 0 ∨ v ≥ bound) := by omega
  rw [he, whichDevice, run_ite, if_pos hc]
  simp only [run_bind, run_cout, run_cinInt, h1, h2, if_false, if_true]
  cases rest with
  | nil =>
    rw [whichDevice, run_ite, if_neg h3, run_pure]
    simp [List.replicate_succ']
  | cons y ys =>
    rw [whichDevice, run_ite, if_neg h3, run_pure]
    simp [List.replicate_succ']

/-- The prompt loop on an input of rejected values an `int` can hold never
returns. -/
theorem whichDevice_hangs (wide : Bool) (bound : Nat) (input : List Int) (devIndex : Int)
    (w : World) (hw : w.stdin = input) (hcur : devIndex < 0 ∨ devIndex ≥ bound)
    (hall : ∀ x ∈ input, (x < 0 ∨ x ≥ bound) ∧ INT_MIN ≤ x ∧ x ≤ INT_MAX) :
    ((whichDevice wide bound input devIndex).run w).1 = Outcome.hangs := by
  obtain ⟨cur, hc, he⟩ := whichDevice_skip wide bound input [] devIndex w (by simpa using hw)
    hcur hall
  rw [List.append_nil] at he
  rw [he, whichDevice, run_ite, if_pos hc]
  simp [run_bind, run_cout, run_hang]

/-- The prompt loop on an input whose first value outside `int` comes before
any acceptable value: the extraction fails there. The loop never returns,
unless the value is above `INT_MAX`, the bound is a `cl_uint` above `INT_MAX`
too, and so the value `INT_MAX` the failed extraction stores is returned. -/
theorem whichDevice_fails (wide : Bool) (bound : Nat) (pre rest : List Int) (y devIndex : Int)
    (w : World) (hw : w.stdin = pre ++ y :: rest) (hcur : devIndex < 0 ∨ devIndex ≥ bound)
    (hpre : ∀ x ∈ pre, (x < 0 ∨ x ≥ bound) ∧ INT_MIN ≤ x ∧ x ≤ INT_MAX)
    (hy : y < INT_MIN ∨ INT_MAX < y) :
    ((whichDevice wide bound (pre ++ y :: rest) devIndex).run w).1 =
      (if wide = true ∧ INT_MAX < y ∧ INT_MAX < bound then Outcome.returned INT_MAX
       else Outcome.hangs)
    ∧ ((whichDevice wide bound (pre ++ y :: rest) devIndex).run w).2.stdin = rest := by
  obtain ⟨cur, hc, he⟩ := whichDevice_skip wide bound pre (y :: rest) devIndex w hw hcur hpre
  rw [he, whichDevice, run_ite, if_pos hc]
  simp only [run_bind, run_cout, run_cinInt]
  rcases hy with hlo | hhi
  · have hneg : INT_MIN < 0 := by decide
    have hnot : ¬ INT_MAX < y := by
      unfold INT_MIN at hlo
      unfold INT_MAX
      omega
    simp [hlo, hneg, hnot, run_hang, run_ite]
  · have h1 : ¬ y < INT_MIN := by
      unfold INT_MAX at hhi
      unfold INT_MIN
      omega
    have hpos : ¬ INT_MAX < 0 := by decide
    by_cases hb : INT_MAX < (bound : Int)
    · cases wide <;> simp [h1, hhi, hpos, hb, run_hang, run_ite, run_pure, not_le.2 hb]
    · cases wide <;> simp [h1, hhi, hpos, hb, run_hang, run_ite, run_pure, not_lt.1 hb]

/-- An input either consists of rejected values an `int` can hold, or splits at
the first value that is acceptable or outside `int`. -/
theorem first_decisive (bound : Nat) (input : List Int) :
    (∀ x ∈ input, (x < 0 ∨ x ≥ bound) ∧ INT_MIN ≤ x ∧ x ≤ INT_MAX) ∨
      ∃ (pre : List Int) (v : Int) (rest : List Int),
        input = pre ++ v :: rest
        ∧ (∀ x ∈ pre, (x < 0 ∨ x ≥ bound) ∧ INT_MIN ≤ x ∧ x ≤ INT_MAX)
        ∧ ((0 ≤ v ∧ v < bound ∧ v ≤ INT_MAX) ∨ v < INT_MIN ∨ INT_MAX < v) := by
  induction input with
  | nil => left; simp
  | cons x xs ih =>
    by_cases hx : (x < 0 ∨ x ≥ bound) ∧ INT_MIN ≤ x ∧ x ≤ INT_MAX
    · rcases ih with h | ⟨pre, v, rest, he, hp, hv⟩
      · left
        intro y hy
        rcases List.mem_cons.1 hy with rfl | hy
        · exact hx
        · exact h y hy
      · right
        refine ⟨x :: pre, v, rest, by rw [he]; rfl, ?_, hv⟩
        intro y hy
        rcases List.mem_cons.1 hy with rfl | hy
        · exact hx
        · exact hp y hy
    · right
      refine ⟨[], x, xs, rfl, by simp, ?_⟩
      unfold INT_MIN at hx ⊢
      omega

/-- The prompt loop leaves the array of devices alone. -/
theorem whichDevice_devices (wide : Bool) (bound : Nat) (input : List Int) (devIndex : Int)
    (w : World) :
    ((whichDevice wide bound input devIndex).run w).2.devices = w.devices := by
  induction input generalizing devIndex w with
  | nil =>
    rw [whichDevice, run_ite]
    split_ifs <;> simp [run_bind, run_cout, run_hang, run_pure]
  | cons x xs ih =>
    rw [whichDevice, run_ite]
    split_ifs with hc
    · simp only [run_bind, run_cout, run_cinInt]
      rcases hs : w.stdin with _ | ⟨v, rest⟩
      · simp [run_ite, run_hang, run_pure]
        split_ifs <;> rfl
      · simp only []
        by_cases h1 : v < INT_MIN
        · simp only [h1, if_true]
          simp [run_ite, run_hang, run_pure]
          split_ifs <;> rfl
        · by_cases h2 : INT_MAX < v
          · simp only [h1, h2, if_true, if_false]
            simp [run_ite, run_hang, run_pure]
            split_ifs <;> rfl
          · simp only [h1, h2, if_false, if_true]
            rw [ih]
    · simp [run_pure]

/-- Where the prompt loop returns: its input splits into rejected values an
`int` can hold and a value that is either acceptable, and then returned, or
above `INT_MAX` like a `cl_uint` bound, and then `INT_MAX` is returned; the
input after that value is left unread. -/
theorem whichDevice_returned (wide : Bool) (bound : Nat) (input : List Int) (devIndex r : Int)
    (w : World) (hw : w.stdin = input) (hcur : devIndex < 0 ∨ devIndex ≥ bound)
    (hret : ((whichDevice wide bound input devIndex).run w).1 = Outcome.returned r) :
    ∃ (pre : List Int) (v : Int) (rest : List Int),
      input = pre ++ v :: rest
      ∧ (∀ x ∈ pre, (x < 0 ∨ x ≥ bound) ∧ INT_MIN ≤ x ∧ x ≤ INT_MAX)
      ∧ ((0 ≤ v ∧ v < bound ∧ v ≤ INT_MAX ∧ r = v)
          ∨ (wide = true ∧ INT_MAX < v ∧ INT_MAX < bound ∧ r = INT_MAX))
      ∧ ((whichDevice wide bound input devIndex).run w).2.stdin = rest := by
  rcases first_decisive bound input with hall | ⟨pre, v, rest, hsplit, hpre, hv | hv⟩
  · rw [whichDevice_hangs wide bound input devIndex w hw hcur hall] at hret
    cases hret
  · subst hsplit
    have hacc := whichDevice_accepts wide bound pre rest v devIndex w hw hcur hpre
      ⟨hv.1, hv.2.1⟩ hv.2.2
    rw [hacc] at hret ⊢
    exact ⟨pre, v, rest, rfl, hpre, Or.inl ⟨hv.1, hv.2.1, hv.2.2, (Outcome.returned.inj hret).symm⟩,
      rfl⟩
  · subst hsplit
    obtain ⟨e1, e2⟩ := whichDevice_fails wide bound pre rest v devIndex w hw hcur hpre hv
    rw [e1] at hret
    by_cases hc : wide = true ∧ INT_MAX < v ∧ INT_MAX < (bound : Int)
    · rw [if_pos hc] at hret
      exact ⟨pre, v, rest, rfl, hpre,
        Or.inr ⟨hc.1, hc.2.1, hc.2.2, (Outcome.returned.inj hret).symm⟩, e2⟩
    · rw [if_neg hc] at hret
      cases hret

/-- The loop that lists the devices, run inside the allocated array. -/
theorem run_showDevices (d : Driver) (n : Nat) (l : List Nat) (w : World)
    (hdev : w.devices = some n) (hl : ∀ idx ∈ l, idx < n) :
    (forEach l (saxpy.showDevice d)).run w =
      (Outcome.returned (),
       { w with calls := w.calls ++ List.replicate (2 * l.length) "clGetDeviceInfo",
                stdout := w.stdout ++ l.map fun idx =>
                  "Device " ++ toString idx ++ ": " ++ d.deviceName idx ++ "\n" }) := by
  induction l generalizing w with
  | nil => simp [forEach, run_pure]
  | cons idx rest ih =>
    have h1 : idx < n := hl idx (List.mem_cons_self _ _)
    have h2 : ∀ j ∈ rest, j < n := fun j hj => hl j (List.mem_cons_of_mem _ hj)
    simp only [forEach, saxpy.showDevice, run_bind, run_readDevices, hdev, run_call, run_cout]
    rw [if_pos ⟨by omega, by exact_mod_cast h1⟩]
    simp only []
    rw [ih]
    · simp [List.replicate_succ, Nat.mul_succ, List.replicate_add, hdev]
    · exact hdev
    · exact h2

/-- A successful step under `checkStatus` of `saxpy.c++`: it returns, and
prints its line only with `debug` set. -/
theorem saxpy_checkStatus_zero (loc : String) (abortOnError : Bool) (w : World) :
    (saxpy.checkStatus loc 0 abortOnError).run w =
      (Outcome.returned (), { w with stdout := w.stdout ++ debugLine w.debug loc }) := by
  rw [saxpy_checkStatus_run]
  rcases w with ⟨dbg, out, err, inp, cs, ps, ds⟩
  cases dbg <;> simp [debugLine]

/-- The prolog of saxpy up to its menu, when the four discovery calls succeed
and more than one device is reported. -/
theorem saxpy_prolog_menu (d : Driver) (t : cl_device_type) (w : World)
    (h0 : d.status "clGetPlatformIDs-0" = 0) (h1 : d.status "clGetPlatformIDs-1" = 0)
    (h2 : d.status "clGetDeviceIDs-0" = 0) (h3 : d.status "clGetDeviceIDs-1" = 0)
    (hp : 1 ≤ d.numPlatforms) (hd : 1 < d.numDevices) :
    (saxpy.typicalOpenCLProlog d t).run w =
      (whichDevice true d.numDevices w.stdin (-1)).run (saxpy.menuState d w) := by
  have hp0 : ¬ d.numPlatforms ≤ 0 := by omega
  have hd0 : ¬ d.numDevices ≤ 0 := by omega
  have hp1 : 0 < d.numPlatforms := by omega
  simp only [saxpy.typicalOpenCLProlog, run_bind, run_statusCall, saxpy_checkStatus_zero, h0, h1,
    h2, h3, run_ite, run_newPlatforms, run_newDevices, run_readPlatforms, run_pure, run_cout,
    run_call, reportVersion, run_getStdin, hp0, hd0, hp1, if_true, if_false, gt_iff_lt, hd]
  by_cases hpp : 1 < d.numPlatforms
  · simp only [hpp, if_true]
    rw [run_showDevices d d.numDevices _ _ rfl (fun idx h => List.mem_range.1 h)]
    simp [saxpy.menuState, hpp]
  · simp only [hpp, if_false]
    rw [run_showDevices d d.numDevices _ _ rfl (fun idx h => List.mem_range.1 h)]
    simp [saxpy.menuState, hpp]

/-- The prolog of saxpy when no platform is reported. -/
theorem saxpy_prolog_noPlatform (d : Driver) (t : cl_device_type) (w : World)
    (h0 : d.status "clGetPlatformIDs-0" = 0) (hp : d.numPlatforms = 0) :
    (saxpy.typicalOpenCLProlog d t).run w =
      (Outcome.returned (-1),
       { w with calls := w.calls ++ ["clGetPlatformIDs-0"],
                stdout := w.stdout ++ debugLine w.debug "clGetPlatformIDs-0" ++
                  ["No platforms!\n"] }) := by
  simp only [saxpy.typicalOpenCLProlog, run_bind, run_statusCall, saxpy_checkStatus_zero, h0,
    run_ite, run_pure, run_cout, hp, le_refl, if_true]

/-- The prolog of saxpy when a platform but no device is reported. -/
theorem saxpy_prolog_noDevice (d : Driver) (t : cl_device_type) (w : World)
    (h0 : d.status "clGetPlatformIDs-0" = 0) (h1 : d.status "clGetPlatformIDs-1" = 0)
    (h2 : d.status "clGetDeviceIDs-0" = 0) (hp : 1 ≤ d.numPlatforms) (hd : d.numDevices = 0) :
    ((saxpy.typicalOpenCLProlog d t).run w).1 = Outcome.returned (-1)
    ∧ ((saxpy.typicalOpenCLProlog d t).run w).2.stdin = w.stdin := by
  have hp0 : ¬ d.numPlatforms ≤ 0 := by omega
  have hp1 : 0 < d.numPlatforms := by omega
  simp only [saxpy.typicalOpenCLProlog, run_bind, run_statusCall, saxpy_checkStatus_zero, h0, h1,
    h2, run_ite, run_newPlatforms, run_readPlatforms, run_pure, run_cout,
    run_call, reportVersion, hp0, hp1, if_true, if_false, gt_iff_lt, hd, le_refl]
  by_cases hpp : 1 < d.numPlatforms
  · simp [hpp]
  · simp [hpp]

/-- The prolog of saxpy when a platform and exactly one device are reported. -/
theorem saxpy_prolog_oneDevice (d : Driver) (t : cl_device_type) (w : World)
    (h0 : d.status "clGetPlatformIDs-0" = 0) (h1 : d.status "clGetPlatformIDs-1" = 0)
    (h2 : d.status "clGetDeviceIDs-0" = 0) (h3 : d.status "clGetDeviceIDs-1" = 0)
    (hp : 1 ≤ d.numPlatforms) (hd : d.numDevices = 1) :
    ((saxpy.typicalOpenCLProlog d t).run w).1 = Outcome.returned 0
    ∧ ((saxpy.typicalOpenCLProlog d t).run w).2.stdin = w.stdin
    ∧ ((saxpy.typicalOpenCLProlog d t).run w).2.devices = some 1 := by
  have hp0 : ¬ d.numPlatforms ≤ 0 := by omega
  have hp1 : 0 < d.numPlatforms := by omega
  simp only [saxpy.typicalOpenCLProlog, run_bind, run_statusCall, saxpy_checkStatus_zero, h0, h1,
    h2, h3, run_ite, run_newPlatforms, run_newDevices, run_readPlatforms, run_pure, run_cout,
    run_call, reportVersion, hp0, hp1, if_true, if_false, gt_iff_lt, hd, lt_irrefl,
    Nat.not_succ_le_zero, Nat.reduceLeDiff]
  by_cases hpp : 1 < d.numPlatforms
  · simp [hpp]
  · simp [hpp]

/-- A chunk of output that ends a line is not the prompt, which ends in a blank. -/
theorem line_ne_prompt (s : String) : s ++ "\n" ≠ prompt := by
  intro h
  have h2 := congrArg (fun t : String => t.data.getLast?) h
  simp [String.data_append, prompt] at h2

theorem count_debugLine (debug : Bool) (label : String) :
    (debugLine debug label).count prompt = 0 := by
  unfold debugLine stepLine
  cases debug
  · simp
  · simp only [if_true]
    exact List.count_eq_zero.2 (by simpa using (line_ne_prompt _).symm)

/-- Up to its menu the prolog of saxpy prints no prompt. -/
theorem count_menuState (d : Driver) (w : World) :
    (saxpy.menuState d w).stdout.count prompt = w.stdout.count prompt := by
  have hfound : ∀ s : String, List.count prompt [s ++ "\n"] = 0 := fun s =>
    List.count_eq_zero.2 (by simpa using (line_ne_prompt _).symm)
  have hdev : ((List.range d.numDevices).map fun idx =>
      "Device " ++ toString idx ++ ": " ++ d.deviceName idx ++ "\n").count prompt = 0 := by
    apply List.count_eq_zero.2
    intro hmem
    obtain ⟨idx, -, hidx⟩ := List.mem_map.1 hmem
    exact line_ne_prompt _ hidx
  simp only [saxpy.menuState, List.count_append, count_debugLine, hdev, hfound]
  split <;> simp [hfound]

/-- Without a menu (at most one device) the prolog of saxpy leaves standard
input alone, whatever the driver answers. -/
theorem saxpy_prolog_stdin (d : Driver) (t : cl_device_type) (w : World)
    (hd : d.numDevices ≤ 1) :
    ((saxpy.typicalOpenCLProlog d t).run w).2.stdin = w.stdin := by
  have hd' : ¬ d.numDevices > 1 := by omega
  simp only [saxpy.typicalOpenCLProlog, run_bind, run_statusCall, saxpy_checkStatus_run,
    run_ite, run_newPlatforms, run_newDevices, run_readPlatforms, run_pure, run_cout,
    run_call, reportVersion, hd', if_false]
  by_cases h0 : d.status "clGetPlatformIDs-0" = 0 <;>
  by_cases h1 : d.status "clGetPlatformIDs-1" = 0 <;>
  by_cases h2 : d.status "clGetDeviceIDs-0" = 0 <;>
  by_cases h3 : d.status "clGetDeviceIDs-1" = 0 <;>
  by_cases hp : d.numPlatforms = 0 <;>
  by_cases hpp : d.numPlatforms > 1 <;>
  by_cases hdd : d.numDevices = 0 <;>
  cases hdb : w.debug <;>
  simp [h0, h1, h2, h3, hp, hpp, hdd, hdb, Nat.pos_iff_ne_zero]

/-! ## Loops that fill an array -/

theorem length_foldl_set (A : List ℚ) (base : Nat) (v : Nat → ℚ) (m : Nat) :
    ((List.range m).foldl (fun A col => A.set (base + col) (v col)) A).length = A.length := by
  induction m with
  | zero => rfl
  | succ m ih => rw [List.range_succ, List.foldl_append]; simpa using ih

/-- The cells of an array after the loop `for (col = 0; col < m; col++) A[base + col] = v(col)`. -/
theorem getElem?_foldl_set (A : List ℚ) (base : Nat) (v : Nat → ℚ) (m i : Nat) :
    ((List.range m).foldl (fun A col => A.set (base + col) (v col)) A)[i]? =
      if base ≤ i ∧ i < base + m ∧ i < A.length then some (v (i - base)) else A[i]? := by
  induction m with
  | zero => rw [if_neg (by omega)]; rfl
  | succ m ih =>
    rw [List.range_succ, List.foldl_append]
    simp only [List.foldl_cons, List.foldl_nil]
    rw [List.getElem?_set, length_foldl_set, ih]
    by_cases h1 : base + m = i
    · subst h1
      by_cases h2 : base + m < A.length
      · simp [h2]
      · have h4 : A[base + m]? = none := List.getElem?_eq_none (by omega)
        simp [h2, h4]
    · rw [if_neg h1]
      by_cases h3 : base ≤ i ∧ i < base + m ∧ i < A.length
      · rw [if_pos h3, if_pos ⟨h3.1, by omega, h3.2.2⟩]
      · rw [if_neg h3, if_neg (by omega)]

theorem length_newArray (n : Nat) (g : Nat → ℚ) : (newArray n g).length = n := by
  simp [newArray]

/-- The cells of an array after the loop `for (i = 0; i < m; i++) A[i] = v(i)`. -/
theorem getElem?_foldl_set_zero (A : List ℚ) (v : Nat → ℚ) (m i : Nat) :
    ((List.range m).foldl (fun A k => A.set k (v k)) A)[i]? =
      if i < m ∧ i < A.length then some (v i) else A[i]? := by
  simpa using getElem?_foldl_set A 0 v m i

theorem saxpy_fill_X (l : List Nat) (s : saxpy.Operands) :
    (l.foldl saxpy.fillCell s).X = l.foldl (fun A i => A.set i 1000.0) s.X := by
  induction l generalizing s with
  | nil => rfl
  | cons i l ih => simp only [List.foldl_cons]; rw [ih]; rfl

theorem saxpy_fill_Y (l : List Nat) (s : saxpy.Operands) :
    (l.foldl saxpy.fillCell s).Y = l.foldl (fun A i => A.set i 10.0) s.Y := by
  induction l generalizing s with
  | nil => rfl
  | cons i l ih => simp only [List.foldl_cons]; rw [ih]; rfl

theorem saxpy_fill_Z (l : List Nat) (s : saxpy.Operands) :
    (l.foldl saxpy.fillCell s).Z = l.foldl (fun A i => A.set i (-999.99)) s.Z := by
  induction l generalizing s with
  | nil => rfl
  | cons i l ih => simp only [List.foldl_cons]; rw [ih]; rfl

theorem saxpy_fill_a (l : List Nat) (s : saxpy.Operands) :
    (l.foldl saxpy.fillCell s).a = s.a := by
  induction l generalizing s with
  | nil => rfl
  | cons i l ih => simp only [List.foldl_cons]; rw [ih]; rfl

/-- The operands `do_saxpy` has built when it calls the launch. -/
theorem do_saxpy_init_cells (heap : Nat → Nat → ℚ) (n i : Nat) (hi : i < n) :
    (saxpy.do_saxpy_init heap n).a = 2
    ∧ (saxpy.do_saxpy_init heap n).X[i]? = some 1000
    ∧ (saxpy.do_saxpy_init heap n).Y[i]? = some 10
    ∧ (saxpy.do_saxpy_init heap n).Z[i]? = some (-999.99) := by
  unfold saxpy.do_saxpy_init
  rw [saxpy_fill_a, saxpy_fill_X, saxpy_fill_Y, saxpy_fill_Z]
  rw [getElem?_foldl_set_zero _ (fun _ => (1000.0 : ℚ)),
    getElem?_foldl_set_zero _ (fun _ => (10.0 : ℚ)),
    getElem?_foldl_set_zero _ (fun _ => (-999.99 : ℚ))]
  simp only [length_newArray, hi, and_self, if_true]
  norm_num

theorem matrix_fill_X (N row : Nat) (l : List Nat) (s : matrixMultiplyV1.Operands) :
    (l.foldl (matrixMultiplyV1.fillCell N row) s).X =
      l.foldl (fun A col => A.set (row * N + col) (if row = col then 2.0 else 0.0)) s.X := by
  induction l generalizing s with
  | nil => rfl
  | cons i l ih => simp only [List.foldl_cons]; rw [ih]; rfl

theorem matrix_fill_Y (N row : Nat) (l : List Nat) (s : matrixMultiplyV1.Operands) :
    (l.foldl (matrixMultiplyV1.fillCell N row) s).Y =
      l.foldl (fun A col => A.set (row * N + col) 17.5) s.Y := by
  induction l generalizing s with
  | nil => rfl
  | cons i l ih => simp only [List.foldl_cons]; rw [ih]; rfl

theorem length_fillRows (N m : Nat) (s : matrixMultiplyV1.Operands) :
    ((List.range m).foldl (matrixMultiplyV1.fillRow N) s).X.length = s.X.length
    ∧ ((List.range m).foldl (matrixMultiplyV1.fillRow N) s).Y.length = s.Y.length := by
  induction m with
  | zero => exact ⟨rfl, rfl⟩
  | succ m ih =>
    rw [List.range_succ, List.foldl_append]
    simp only [List.foldl_cons, List.foldl_nil, matrixMultiplyV1.fillRow]
    rw [matrix_fill_X, matrix_fill_Y, length_foldl_set, length_foldl_set]
    exact ih

/-- The cells of `X` and `Y` in the rows the outer loop of `do_MatrixMultiply`
has gone through. -/
theorem fillRows_cells (N m : Nat) (s : matrixMultiplyV1.Operands) (hm : m ≤ N)
    (hX : s.X.length = N * N) (hY : s.Y.length = N * N) (row col : Nat) (hr : row < m)
    (hc : col < N) :
    ((List.range m).foldl (matrixMultiplyV1.fillRow N) s).X[row * N + col]? =
        some (if row = col then 2 else 0)
    ∧ ((List.range m).foldl (matrixMultiplyV1.fillRow N) s).Y[row * N + col]? = some 17.5 := by
  induction m with
  | zero => omega
  | succ m ih =>
    rw [List.range_succ, List.foldl_append]
    simp only [List.foldl_cons, List.foldl_nil, matrixMultiplyV1.fillRow]
    rw [matrix_fill_X, matrix_fill_Y,
      getElem?_foldl_set _ (m * N) (fun col => if m = col then (2.0 : ℚ) else 0.0),
      getElem?_foldl_set _ (m * N) (fun _ => (17.5 : ℚ)),
      (length_fillRows N m s).1, (length_fillRows N m s).2, hX, hY]
    have e1 : (m + 1) * N = m * N + N := by ring
    have e2 : (m + 1) * N ≤ N * N := Nat.mul_le_mul_right N hm
    by_cases hrm : row = m
    · subst hrm
      have c : row * N ≤ row * N + col ∧ row * N + col < row * N + N ∧
          row * N + col < N * N := by omega
      rw [if_pos c, if_pos c]
      simp only [Nat.add_sub_cancel_left]
      norm_num
    · have hlt : row < m := by omega
      have e3 : (row + 1) * N = row * N + N := by ring
      have e4 : (row + 1) * N ≤ m * N := Nat.mul_le_mul_right N hlt
      have c : ¬ (m * N ≤ row * N + col ∧ row * N + col < m * N + N ∧
          row * N + col < N * N) := by omega
      rw [if_neg c, if_neg c]
      exact ih (by omega) hlt

/-- The operands `do_MatrixMultiply` has built when it calls the launch. -/
theorem do_MatrixMultiply_init_cells (heap : Nat → Nat → ℚ) (N row col : Nat) (hr : row < N)
    (hc : col < N) :
    (matrixMultiplyV1.do_MatrixMultiply_init heap N).X[row * N + col]? =
        some (if row = col then 2 else 0)
    ∧ (matrixMultiplyV1.do_MatrixMultiply_init heap N).Y[row * N + col]? = some 17.5 :=
  fillRows_cells N N _ (le_refl N) (length_newArray _ _) (length_newArray _ _) row col hr hc

/-- The results of the prolog of saxpy when the four discovery calls succeed:
what a returned value satisfies, and on which inputs the prolog returns. The
menu returns at the first value of the input that is acceptable, when it and
the rejected values before it are values an `int` can hold; a value outside
`int` makes the extraction fail and ends the reading. -/
theorem saxpy_prolog_results (d : Driver) (t : cl_device_type) (w : World)
    (h0 : d.status "clGetPlatformIDs-0" = 0) (h1 : d.status "clGetPlatformIDs-1" = 0)
    (h2 : d.status "clGetDeviceIDs-0" = 0) (h3 : d.status "clGetDeviceIDs-1" = 0) :
    (∀ (r : Int) (w' : World),
        (saxpy.typicalOpenCLProlog d t).run w = (Outcome.returned r, w') →
        (r = -1 ↔ (d.numPlatforms = 0 ∨ d.numDevices = 0))
        ∧ (r ≠ -1 → 0 ≤ r ∧ r < d.numDevices
            ∧ (readDevices r).run w' = (Outcome.returned r.toNat, w')))
    ∧ ((∃ (r : Int) (w' : World),
          (saxpy.typicalOpenCLProlog d t).run w = (Outcome.returned r, w')) ↔
        (d.numPlatforms = 0 ∨ d.numDevices ≤ 1 ∨
          ∃ (pre : List Int) (v : Int) (rest : List Int),
            w.stdin = pre ++ v :: rest
            ∧ (∀ x ∈ pre, (x < 0 ∨ x ≥ (d.numDevices : Int)) ∧ INT_MIN ≤ x ∧ x ≤ INT_MAX)
            ∧ ((0 ≤ v ∧ v < (d.numDevices : Int) ∧ v ≤ INT_MAX)
                ∨ (INT_MAX < v ∧ INT_MAX < (d.numDevices : Int))))) := by
  by_cases hp : d.numPlatforms = 0
  · have hrun := saxpy_prolog_noPlatform d t w h0 hp
    rw [hrun]
    refine ⟨?_, ?_⟩
    · intro r w' heq
      have hr : r = -1 := by
        have := congrArg Prod.fst heq
        simp at this
        exact this.symm
      subst hr
      simp [hp]
    · simp [hp]
  have hp1 : 1 ≤ d.numPlatforms := by omega
  by_cases hd : d.numDevices = 0
  · obtain ⟨hout, -⟩ := saxpy_prolog_noDevice d t w h0 h1 h2 hp1 hd
    refine ⟨?_, ?_⟩
    · intro r w' heq
      rw [heq] at hout
      have hr : r = -1 := by simpa using hout
      subst hr
      simp [hd]
    · constructor
      · intro _
        right; left; omega
      · intro _
        exact ⟨-1, _, Prod.ext hout rfl⟩
  by_cases hd1 : d.numDevices = 1
  · obtain ⟨hout, -, hdev⟩ := saxpy_prolog_oneDevice d t w h0 h1 h2 h3 hp1 hd1
    refine ⟨?_, ?_⟩
    · intro r w' heq
      rw [heq] at hout hdev
      have hr : r = 0 := by simpa using hout
      subst hr
      simp only [] at hdev
      refine ⟨by simp [hp, hd], fun _ => ⟨le_refl _, by rw [hd1]; norm_num, ?_⟩⟩
      rw [run_readDevices, hdev]
      simp
    · constructor
      · intro _
        right; left; omega
      · intro _
        exact ⟨0, _, Prod.ext hout rfl⟩
  have hd2 : 1 < d.numDevices := by omega
  have hrun := saxpy_prolog_menu d t w h0 h1 h2 h3 hp1 hd2
  rw [hrun]
  have hneg : ((-1 : Int) < 0 ∨ (-1 : Int) ≥ (d.numDevices : Int)) := Or.inl (by norm_num)
  have hmax : (0 : Int) ≤ INT_MAX := by decide
  refine ⟨?_, ?_⟩
  · intro r w' heq
    obtain ⟨pre, v, rest, -, -, hv, -⟩ := whichDevice_returned true d.numDevices w.stdin (-1) r
      (saxpy.menuState d w) rfl hneg (congrArg Prod.fst heq)
    have hr : 0 ≤ r ∧ r < (d.numDevices : Int) := by
      rcases hv with ⟨a1, a2, -, rfl⟩ | ⟨-, -, a2, rfl⟩
      · exact ⟨a1, a2⟩
      · exact ⟨hmax, a2⟩
    have hdev : w'.devices = some d.numDevices := by
      have := whichDevice_devices true d.numDevices w.stdin (-1) (saxpy.menuState d w)
      rw [heq] at this
      exact this
    refine ⟨?_, fun _ => ⟨hr.1, hr.2, ?_⟩⟩
    · constructor
      · intro h; omega
      · rintro (h | h)
        · exact absurd h hp
        · exact absurd h hd
    · rw [run_readDevices, hdev]
      simp [hr.1, hr.2]
  · constructor
    · rintro ⟨r, w', heq⟩
      right; right
      obtain ⟨pre, v, rest, hsplit, hpre, hv, -⟩ := whichDevice_returned true d.numDevices
        w.stdin (-1) r (saxpy.menuState d w) rfl hneg (congrArg Prod.fst heq)
      refine ⟨pre, v, rest, hsplit, hpre, ?_⟩
      rcases hv with ⟨a1, a2, a3, -⟩ | ⟨-, a1, a2, -⟩
      · exact Or.inl ⟨a1, a2, a3⟩
      · exact Or.inr ⟨a1, a2⟩
    · rintro (h | h | ⟨pre, v, rest, hsplit, hpre, hv | hv⟩)
      · exact absurd h hp
      · omega
      · have hacc := whichDevice_accepts true d.numDevices pre rest v (-1) (saxpy.menuState d w)
          hsplit hneg hpre ⟨hv.1, hv.2.1⟩ hv.2.2
        rw [hsplit, hacc]
        exact ⟨v, _, rfl⟩
      · have hf := (whichDevice_fails true d.numDevices pre rest v (-1) (saxpy.menuState d w)
          hsplit hneg hpre (Or.inr hv.1)).1
        rw [if_pos ⟨rfl, hv.1, hv.2⟩] at hf
        rw [hsplit]
        exact ⟨INT_MAX, _, Prod.ext hf rfl⟩

/-! ## The launch of saxpy -/

/-- The sequential text of `doTheKernelLaunch` in saxpy is a chain of checked
steps, the build and kernel creation, a second chain, and the read-back with
the releases. -/
theorem saxpy_launch_eq (d : Driver) (dev : Nat) (a : ℚ) (X Y : List ℚ) (n : Nat)
    (Z : List ℚ) :
    saxpy.doTheKernelLaunch d dev a X Y n Z =
      (saxpy.checkedSteps d saxpy.launchSetup >>= fun _ =>
        saxpy.buildAndCreate d >>= fun _ =>
          saxpy.checkedSteps d saxpy.launchArguments >>= fun _ =>
            saxpy.readBackAndRelease d Z) := by
  simp only [saxpy.doTheKernelLaunch, saxpy.launchSetup, saxpy.launchArguments,
    saxpy.checkedSteps, saxpy.buildAndCreate, saxpy.readBackAndRelease, proc_bind_assoc,
    proc_pure_bind, proc_ite_bind, readSource]

/-- A chain of checked calls of saxpy whose statuses are all zero returns. -/
theorem saxpy_checkedSteps_ok (d : Driver) (labels : List String) (w : World)
    (h : ∀ x ∈ labels, d.status x = 0) :
    (saxpy.checkedSteps d labels).run w =
      (Outcome.returned (),
       { w with calls := w.calls ++ labels,
                stdout := w.stdout ++ (if w.debug = true then labels.map fun x => stepLine x 0
                                       else []) }) := by
  induction labels generalizing w with
  | nil => simp [saxpy.checkedSteps, run_pure]
  | cons x rest ih =>
    have hx : d.status x = 0 := h x (List.mem_cons_self _ _)
    have hrest : ∀ y ∈ rest, d.status y = 0 := fun y hy => h y (List.mem_cons_of_mem _ hy)
    simp only [saxpy.checkedSteps, run_bind, run_statusCall, saxpy_checkStatus_run, hx]
    cases hd : w.debug <;> simp [hd, ih _ hrest]

/-- The build and the kernel creation of saxpy return whatever status the
driver gives them. -/
theorem saxpy_buildAndCreate_returns (d : Driver) (w : World) :
    ∃ w', (saxpy.buildAndCreate d).run w = (Outcome.returned (), w') := by
  simp only [saxpy.buildAndCreate, run_bind, run_statusCall, saxpy_checkStatus_run, run_ite,
    showProgramBuildLog, saxpy.lookAtDeviceLimits, saxpy.lookAtKernelLimits, run_call, run_cout,
    run_pure]
  by_cases hb : d.status "clBuildProgram" = 0
  · simp [hb]
  · simp [hb]

/-- The read-back and the releases of saxpy return whatever status the driver
gives the read-back, after issuing all of their calls. -/
theorem saxpy_readBackAndRelease_returns (d : Driver) (Z : List ℚ) (w : World) :
    ∃ Z' w', (saxpy.readBackAndRelease d Z).run w = (Outcome.returned Z', w') ∧
      w'.calls = w.calls ++ saxpy.launchTail ∧ w'.stdout = w.stdout := by
  simp only [saxpy.readBackAndRelease, run_bind, run_clEnqueueReadBuffer, run_call,
    run_deleteGlobals, run_pure]
  exact ⟨_, _, rfl, by simp [saxpy.launchTail], rfl⟩

/-- The launch of saxpy returns as soon as its checked steps succeed: the
statuses of the build, of the kernel creation and of the read-back do not
matter, and the launch ends with the read-back and the releases. -/
theorem saxpy_launch_returns (d : Driver) (dev : Nat) (a : ℚ) (X Y : List ℚ) (n : Nat)
    (Z : List ℚ) (w : World) (h1 : ∀ x ∈ saxpy.launchSetup, d.status x = 0)
    (h2 : ∀ x ∈ saxpy.launchArguments, d.status x = 0) :
    ∃ Z' w', (saxpy.doTheKernelLaunch d dev a X Y n Z).run w = (Outcome.returned Z', w') ∧
      ∃ before, w'.calls = before ++ saxpy.launchTail := by
  rw [saxpy_launch_eq, run_bind, saxpy_checkedSteps_ok d _ _ h1]
  simp only []
  rw [run_bind]
  obtain ⟨w1, hw1⟩ := saxpy_buildAndCreate_returns d
    { w with calls := w.calls ++ saxpy.launchSetup,
             stdout := w.stdout ++ (if w.debug = true then
               saxpy.launchSetup.map fun x => stepLine x 0 else []) }
  rw [hw1]
  simp only []
  rw [run_bind, saxpy_checkedSteps_ok d _ _ h2]
  simp only []
  obtain ⟨Z', w', hrun, hcalls, -⟩ := saxpy_readBackAndRelease_returns d Z
    { w1 with calls := w1.calls ++ saxpy.launchArguments,
              stdout := w1.stdout ++ (if w1.debug = true then
                saxpy.launchArguments.map fun x => stepLine x 0 else []) }
  exact ⟨Z', w', hrun, _, hcalls⟩

/-- With one platform and one device, `main` of saxpy ends with exit code 0
as soon as the checked steps succeed, after the read-back and the releases. -/
theorem saxpy_main_returns (d : Driver) (args : List String) (w : World)
    (h0 : d.status "clGetPlatformIDs-0" = 0) (h1 : d.status "clGetPlatformIDs-1" = 0)
    (h2 : d.status "clGetDeviceIDs-0" = 0) (h3 : d.status "clGetDeviceIDs-1" = 0)
    (hp : 1 ≤ d.numPlatforms) (hd : d.numDevices = 1)
    (hs : ∀ x ∈ saxpy.launchSetup, d.status x = 0)
    (ha : ∀ x ∈ saxpy.launchArguments, d.status x = 0) :
    ((saxpy.main d args).run w).1 = Outcome.returned 0 ∧
      ∃ before, ((saxpy.main d args).run w).2.calls = before ++ saxpy.launchTail := by
  simp only [saxpy.main, run_bind]
  rw [saxpy_parseArgs_run]
  simp only []
  obtain ⟨hout, -, hdev⟩ := saxpy_prolog_oneDevice d
    (selected args cl_device_type.CL_DEVICE_TYPE_DEFAULT)
    { w with debug := w.debug || decide ("-debug" ∈ args) } h0 h1 h2 h3 hp hd
  revert hout hdev
  generalize (saxpy.typicalOpenCLProlog d
    (selected args cl_device_type.CL_DEVICE_TYPE_DEFAULT)).run _ = res
  rcases res with ⟨o, w2⟩
  intro hout hdev
  simp only [] at hout hdev
  subst hout
  simp only [run_ite, lt_irrefl, if_false, run_bind, run_readDevices, hdev]
  simp only [le_refl, Nat.cast_one, zero_lt_one, and_self, if_true, saxpy.do_saxpy, run_bind]
  obtain ⟨Z', w3, hl, before, hcalls⟩ := saxpy_launch_returns d (0 : Int).toNat
    (saxpy.do_saxpy_init d.heap 20).a (saxpy.do_saxpy_init d.heap 20).X
    (saxpy.do_saxpy_init d.heap 20).Y 20 (saxpy.do_saxpy_init d.heap 20).Z w2 hs ha
  rw [hl]
  simp only [run_forEach_cout, run_pure]
  exact ⟨trivial, before, hcalls⟩

/-! ## What `main` does when the prolog reports no device -/

/-- In `main` of saxpy a negative result of the prolog ends the program at
once with `return 0`. -/
theorem saxpy_main_skips (d : Driver) (args : List String) (w : World) (r : Int)
    (h : ((saxpy.typicalOpenCLProlog d (selected args cl_device_type.CL_DEVICE_TYPE_DEFAULT)).run
      ((saxpy.parseArgs args cl_device_type.CL_DEVICE_TYPE_DEFAULT).run w).2).1 =
        Outcome.returned r)
    (hr : r < 0) :
    (saxpy.main d args).run w =
      (Outcome.returned 0,
       ((saxpy.typicalOpenCLProlog d (selected args cl_device_type.CL_DEVICE_TYPE_DEFAULT)).run
        ((saxpy.parseArgs args cl_device_type.CL_DEVICE_TYPE_DEFAULT).run w).2).2) := by
  simp only [saxpy.main, run_bind]
  rw [saxpy_parseArgs_run] at h ⊢
  simp only []
  revert h
  generalize (saxpy.typicalOpenCLProlog d
    (selected args cl_device_type.CL_DEVICE_TYPE_DEFAULT)).run _ = res
  rcases res with ⟨o, w2⟩
  intro h
  simp only [] at h
  subst h
  simp only [run_ite, if_pos hr, run_pure]

/-- In `main` of the matrix-multiply example a negative result of the prolog
skips the launch; the program ends with `return 0`. -/
theorem matrixMultiplyV1_main_skips (d : Driver) (args : List String) (w : World) (r : Int)
    (h : ((matrixMultiplyV1.typicalOpenCLProlog d
        (selected args cl_device_type.CL_DEVICE_TYPE_DEFAULT)).run
      ((matrixMultiplyV1.parseArgs args (cl_device_type.CL_DEVICE_TYPE_DEFAULT, 20)).run w).2).1 =
        Outcome.returned r)
    (hr : r < 0) :
    (matrixMultiplyV1.main d args).run w =
      (Outcome.returned 0,
       ((matrixMultiplyV1.typicalOpenCLProlog d
          (selected args cl_device_type.CL_DEVICE_TYPE_DEFAULT)).run
        ((matrixMultiplyV1.parseArgs args
          (cl_device_type.CL_DEVICE_TYPE_DEFAULT, 20)).run w).2).2) := by
  simp only [matrixMultiplyV1.main, run_bind]
  rw [matrixMultiplyV1_parseArgs_run] at h ⊢
  simp only []
  revert h
  generalize (matrixMultiplyV1.typicalOpenCLProlog d
    (selected args cl_device_type.CL_DEVICE_TYPE_DEFAULT)).run _ = res
  rcases res with ⟨o, w2⟩
  intro h
  simp only [] at h
  subst h
  have hr' : ¬ r ≥ 0 := by omega
  simp only [run_ite, if_neg hr', run_pure, run_bind]

/-- A successful step under `checkStatus` of `matrixMultiplyV1.c++`. -/
theorem matrixMultiplyV1_checkStatus_zero (loc : String) (abortOnError : Bool) (w : World) :
    (matrixMultiplyV1.checkStatus loc 0 abortOnError).run w =
      (Outcome.returned (), { w with stdout := w.stdout ++ debugLine w.debug loc }) :=
  saxpy_checkStatus_zero loc abortOnError w

/-- The prolog of the matrix-multiply example when a platform but no device
is reported. -/
theorem matrixMultiplyV1_prolog_noDevice (d : Driver) (t : cl_device_type) (w : World)
    (h0 : d.status "clGetPlatformIDs-0" = 0) (h1 : d.status "clGetPlatformIDs-1" = 0)
    (h2 : d.status "clGetDeviceIDs-0" = 0) (hp : 1 ≤ d.numPlatforms) (hd : d.numDevices = 0) :
    ((matrixMultiplyV1.typicalOpenCLProlog d t).run w).1 = Outcome.returned (-1) := by
  have hp1 : 0 < d.numPlatforms := by omega
  simp only [matrixMultiplyV1.typicalOpenCLProlog, run_bind, run_statusCall,
    matrixMultiplyV1_checkStatus_zero, h0, h1, h2, run_ite, run_newPlatforms, run_readPlatforms,
    run_pure, run_cout, run_call, reportVersion, hp1, if_true, gt_iff_lt, hd, le_refl]
  by_cases hpp : 1 < d.numPlatforms
  · simp [hpp]
  · simp [hpp]

/-- The loop that looks for double-precision devices, run inside the
allocated array: it appends to `possibleDevs` the listed indices whose device
passes the test, in order. -/
theorem run_findDoubleDevices (d : Driver) (n : Nat) (l acc : List Nat) (w : World)
    (hdev : w.devices = some n) (hl : ∀ idx ∈ l, idx < n) :
    (matrixMultiplyV1.findDoubleDevices d l acc).run w =
      (Outcome.returned (acc ++ l.filter (matrixMultiplyV1.supportsDouble d)),
       { w with calls := w.calls ++ List.replicate (2 * l.length) "clGetDeviceInfo" }) := by
  induction l generalizing acc w with
  | nil => simp [matrixMultiplyV1.findDoubleDevices, run_pure]
  | cons idx rest ih =>
    have h1 : idx < n := hl idx (List.mem_cons_self _ _)
    have h2 : ∀ j ∈ rest, j < n := fun j hj => hl j (List.mem_cons_of_mem _ hj)
    simp only [matrixMultiplyV1.findDoubleDevices, run_bind, run_readDevices, hdev, run_call]
    rw [if_pos ⟨by omega, by exact_mod_cast h1⟩]
    simp only []
    by_cases hs : matrixMultiplyV1.supportsDouble d idx = true
    · rw [if_pos hs, ih]
      · simp [List.filter_cons, hs, List.replicate_succ, Nat.mul_succ, List.replicate_add, hdev]
      · exact hdev
      · exact h2
    · rw [if_neg hs, ih]
      · simp [List.filter_cons, hs, List.replicate_succ, Nat.mul_succ, List.replicate_add, hdev]
      · exact hdev
      · exact h2

/-- The prolog of the matrix-multiply example when devices are reported but
none of them supports double precision. -/
theorem matrixMultiplyV1_prolog_noDouble (d : Driver) (t : cl_device_type) (w : World)
    (h0 : d.status "clGetPlatformIDs-0" = 0) (h1 : d.status "clGetPlatformIDs-1" = 0)
    (h2 : d.status "clGetDeviceIDs-0" = 0) (h3 : d.status "clGetDeviceIDs-1" = 0)
    (hp : 1 ≤ d.numPlatforms) (hd : 1 ≤ d.numDevices)
    (hx : ∀ idx, idx < d.numDevices → matrixMultiplyV1.supportsDouble d idx = false) :
    ((matrixMultiplyV1.typicalOpenCLProlog d t).run w).1 = Outcome.returned (-1) := by
  have hp1 : 0 < d.numPlatforms := by omega
  have hd0 : ¬ d.numDevices ≤ 0 := by omega
  have hf : (List.range d.numDevices).filter (matrixMultiplyV1.supportsDouble d) = [] := by
    apply List.filter_eq_nil_iff.2
    intro idx hidx
    rw [hx idx (List.mem_range.1 hidx)]
    simp
  simp only [matrixMultiplyV1.typicalOpenCLProlog, run_bind, run_statusCall,
    matrixMultiplyV1_checkStatus_zero, h0, h1, h2, h3, run_ite, run_newPlatforms,
    run_newDevices, run_readPlatforms, run_pure, run_cout, run_call, reportVersion, hp1,
    if_true, gt_iff_lt, hd0, if_false]
  by_cases hpp : 1 < d.numPlatforms
  · simp only [hpp, if_true]
    rw [run_findDoubleDevices d d.numDevices _ _ _ rfl (fun idx h => List.mem_range.1 h), hf]
    simp [run_cerr]
  · simp only [hpp, if_false]
    rw [run_findDoubleDevices d d.numDevices _ _ _ rfl (fun idx h => List.mem_range.1 h), hf]
    simp [run_cerr]

/-! ## The search for a double-precision device -/

/-- The library function `strstr` finds the needle exactly when the haystack
contains it. -/
theorem strstr_ne_none_iff (hay needle : List Char) :
    matrixMultiplyV1.strstr hay needle ≠ none ↔ needle <:+: hay := by
  induction hay with
  | nil =>
    unfold matrixMultiplyV1.strstr
    cases needle with
    | nil => simp
    | cons c cs => simp
  | cons c rest ih =>
    unfold matrixMultiplyV1.strstr
    by_cases hp : needle.isPrefixOf (c :: rest) = true
    · simp only [hp, if_true]
      have h1 : needle <+: c :: rest := List.isPrefixOf_iff_prefix.1 hp
      simp [h1.isInfix]
    · have hnp : ¬ needle <+: c :: rest := fun h => hp (List.isPrefixOf_iff_prefix.2 h)
      simp only [hp]
      rw [List.infix_cons_iff]
      simp only [hnp, false_or, ← ih]
      cases matrixMultiplyV1.strstr rest needle <;> simp

theorem supportsDouble_iff (d : Driver) (idx : Nat) :
    matrixMultiplyV1.supportsDouble d idx = true ↔ matrixMultiplyV1.hasDouble d idx := by
  unfold matrixMultiplyV1.supportsDouble matrixMultiplyV1.hasDouble
  rw [decide_eq_true_iff, strstr_ne_none_iff]

theorem mem_candidates (d : Driver) (idx : Nat) :
    idx ∈ matrixMultiplyV1.candidates d ↔ idx < d.numDevices ∧ matrixMultiplyV1.hasDouble d idx := by
  unfold matrixMultiplyV1.candidates
  rw [List.mem_filter, List.mem_range, supportsDouble_iff]

theorem run_readPossibleDevs (P : List Nat) (i : Nat) (w : World) (hi : i < P.length) :
    (matrixMultiplyV1.readPossibleDevs P (i : Int)).run w = (Outcome.returned (P.getD i 0), w) := by
  unfold matrixMultiplyV1.readPossibleDevs Proc.run
  have h0 : (0 : Int) ≤ (i : Int) := Int.natCast_nonneg i
  simp only [h0, if_true, Int.toNat_ofNat]
  rw [List.get?_eq_getElem?, List.getElem?_eq_getElem hi, List.getD_eq_getElem?_getD,
    List.getElem?_eq_getElem hi]
  rfl

/-- The loop that lists the candidates, run inside the allocated arrays. -/
theorem run_showCandidates (d : Driver) (n : Nat) (P : List Nat) (l : List Nat) (w : World)
    (hdev : w.devices = some n) (hP : ∀ p ∈ P, p < n) (hl : ∀ i ∈ l, i < P.length) :
    (forEach l (matrixMultiplyV1.showCandidate d P)).run w =
      (Outcome.returned (),
       { w with calls := w.calls ++ List.replicate (2 * l.length) "clGetDeviceInfo",
                stdout := w.stdout ++ l.map fun i =>
                  "Device " ++ toString i ++ ": [" ++ d.deviceName (P.getD i 0) ++
                    "] supports double precision.\n" }) := by
  induction l generalizing w with
  | nil => simp [forEach, run_pure]
  | cons i rest ih =>
    have h1 : i < P.length := hl i (List.mem_cons_self _ _)
    have h2 : ∀ j ∈ rest, j < P.length := fun j hj => hl j (List.mem_cons_of_mem _ hj)
    have h3 : P.getD i 0 < n := by
      apply hP
      rw [List.getD_eq_getElem?_getD, List.getElem?_eq_getElem h1]
      exact List.getElem_mem _
    simp only [forEach, matrixMultiplyV1.showCandidate, run_bind, run_readPossibleDevs P i _ h1,
      run_readDevices, hdev, run_call, run_cout]
    rw [if_pos ⟨by omega, by exact_mod_cast h3⟩]
    simp only []
    rw [ih]
    · simp [List.replicate_succ, Nat.mul_succ, List.replicate_add, hdev]
    · exact hdev
    · exact h2

/-- The prolog of the matrix-multiply example, when the four discovery calls
succeed on at least one platform and one device, searches all the devices and
goes on with the candidates; standard input is untouched so far. -/
theorem matrixMultiplyV1_prolog_search (d : Driver) (t : cl_device_type) (w : World)
    (h0 : d.status "clGetPlatformIDs-0" = 0) (h1 : d.status "clGetPlatformIDs-1" = 0)
    (h2 : d.status "clGetDeviceIDs-0" = 0) (h3 : d.status "clGetDeviceIDs-1" = 0)
    (hp : 1 ≤ d.numPlatforms) (hd : 1 ≤ d.numDevices) :
    (matrixMultiplyV1.typicalOpenCLProlog d t).run w =
      (matrixMultiplyV1.chooseCandidate d (matrixMultiplyV1.candidates d)).run
        (matrixMultiplyV1.searchState d w) := by
  have hp1 : 0 < d.numPlatforms := by omega
  have hd0 : ¬ d.numDevices ≤ 0 := by omega
  simp only [matrixMultiplyV1.typicalOpenCLProlog, run_bind, run_statusCall,
    matrixMultiplyV1_checkStatus_zero, h0, h1, h2, h3, run_ite, run_newPlatforms,
    run_newDevices, run_readPlatforms, run_pure, run_cout, run_call, reportVersion, hp1,
    if_true, gt_iff_lt, hd0, if_false]
  by_cases hpp : 1 < d.numPlatforms
  · simp only [hpp, if_true]
    rw [run_findDoubleDevices d d.numDevices _ _ _ rfl (fun idx h => List.mem_range.1 h)]
    simp [matrixMultiplyV1.chooseCandidate, run_bind, run_ite, run_pure, run_cout,
      matrixMultiplyV1.candidates, matrixMultiplyV1.searchState, hpp]
  · simp only [hpp, if_false]
    rw [run_findDoubleDevices d d.numDevices _ _ _ rfl (fun idx h => List.mem_range.1 h)]
    simp [matrixMultiplyV1.chooseCandidate, run_bind, run_ite, run_pure, run_cout,
      matrixMultiplyV1.candidates, matrixMultiplyV1.searchState, hpp]

/-- Without a candidate the prolog reports -1. -/
theorem chooseCandidate_none (d : Driver) (w : World) :
    ((matrixMultiplyV1.chooseCandidate d []).run w).1 = Outcome.returned (-1) := by
  simp [matrixMultiplyV1.chooseCandidate, run_bind, run_cerr, run_pure, run_ite]

/-- With exactly one candidate the prolog returns `possibleDevs[0]` and leaves
standard input alone. -/
theorem chooseCandidate_single (d : Driver) (n p : Nat) (w : World)
    (hdev : w.devices = some n) (hp : p < n) :
    ((matrixMultiplyV1.chooseCandidate d [p]).run w).1 = Outcome.returned (p : Int)
    ∧ ((matrixMultiplyV1.chooseCandidate d [p]).run w).2.stdin = w.stdin := by
  have hs := run_showCandidates d n [p] (List.range 1) w hdev (by simpa using hp) (by simp)
  simp only [List.length_singleton] at hs
  simp only [matrixMultiplyV1.chooseCandidate, List.length_singleton, run_ite, run_bind, hs,
    run_cout, run_pure]
  have hr := fun w' => run_readPossibleDevs [p] 0 w' (by simp)
  simp only [Nat.cast_zero] at hr
  simp [hr]

/-- With several candidates the prolog returns `possibleDevs[v]` for the first
acceptable value `v` of the input, when `v` and the rejected values before it
are values an `int` can hold, and leaves the rest of the input unread. -/
theorem chooseCandidate_menu (d : Driver) (n : Nat) (P : List Nat) (w : World)
    (pre rest : List Int) (v : Int)
    (hdev : w.devices = some n) (hP : ∀ p ∈ P, p < n) (h2 : 2 ≤ P.length)
    (hw : w.stdin = pre ++ v :: rest)
    (hpre : ∀ x ∈ pre, (x < 0 ∨ x ≥ (P.length : Int)) ∧ INT_MIN ≤ x ∧ x ≤ INT_MAX)
    (hv : 0 ≤ v ∧ v < (P.length : Int)) (hmax : v ≤ INT_MAX) :
    ((matrixMultiplyV1.chooseCandidate d P).run w).1 =
        Outcome.returned ((P.getD v.toNat 0 : Nat) : Int)
    ∧ ((matrixMultiplyV1.chooseCandidate d P).run w).2.stdin = rest := by
  have hs := run_showCandidates d n P (List.range P.length) w hdev hP
    (fun i hi => List.mem_range.1 hi)
  have h0 : ¬ P.length = 0 := by omega
  have h1 : ¬ P.length = 1 := by omega
  obtain ⟨k, rfl⟩ := Int.eq_ofNat_of_zero_le hv.1
  have hk : k < P.length := by exact_mod_cast hv.2
  simp only [matrixMultiplyV1.chooseCandidate, run_ite, run_bind, hs, h0, h1, if_false,
    run_getStdin, hw]
  have hacc := fun W hW =>
    whichDevice_accepts false P.length pre rest k (-1) W hW (Or.inl (by decide)) hpre hv hmax
  rw [hacc]
  · simp only [run_readPossibleDevs P k _ hk, run_pure, Int.toNat_ofNat]
    exact ⟨trivial, trivial⟩
  · rfl

/-- With several candidates, where the prolog returns: the input is rejected
values and then an acceptable menu number `k`, the result is `possibleDevs[k]`,
and the input after `k` is left unread. -/
theorem chooseCandidate_returned (d : Driver) (n : Nat) (P : List Nat) (w : World) (r : Int)
    (hdev : w.devices = some n) (hP : ∀ p ∈ P, p < n) (h2 : 2 ≤ P.length)
    (hret : ((matrixMultiplyV1.chooseCandidate d P).run w).1 = Outcome.returned r) :
    ∃ (pre : List Int) (k : Nat) (rest : List Int),
      w.stdin = pre ++ (k : Int) :: rest
      ∧ (∀ x ∈ pre, x < 0 ∨ x ≥ (P.length : Int))
      ∧ k < P.length
      ∧ r = ((P.getD k 0 : Nat) : Int)
      ∧ ((matrixMultiplyV1.chooseCandidate d P).run w).2.stdin = rest := by
  have hs := run_showCandidates d n P (List.range P.length) w hdev hP
    (fun i hi => List.mem_range.1 hi)
  have h0 : ¬ P.length = 0 := by omega
  have h1 : ¬ P.length = 1 := by omega
  have key := fun (a : Int) (W : World) (hW : W.stdin = w.stdin) =>
    whichDevice_returned false P.length w.stdin (-1) a W hW (Or.inl (by decide))
  simp only [matrixMultiplyV1.chooseCandidate, run_ite, run_bind, hs, h0, h1, if_false,
    run_getStdin] at hret ⊢
  revert hret
  generalize hres : (whichDevice false P.length w.stdin (-1)).run _ = res
  rcases res with ⟨o, w2⟩
  cases o with
  | returned a =>
    intro hret
    obtain ⟨pre, v, rest, hsplit, hpre, hv, hst⟩ := key a _ (by rfl) (congrArg Prod.fst hres)
    rw [hres] at hst
    rcases hv with ⟨a1, a2, -, rfl⟩ | ⟨hwide, -⟩
    · obtain ⟨k, rfl⟩ := Int.eq_ofNat_of_zero_le a1
      have hk : k < P.length := by exact_mod_cast a2
      simp only [run_readPossibleDevs P k _ hk, run_pure] at hret ⊢
      exact ⟨pre, k, rest, hsplit, fun x hx => (hpre x hx).1, hk,
        (Outcome.returned.inj hret).symm, hst⟩
    · cases hwide
  | exited c => intro hret; cases hret
  | hangs => intro hret; cases hret
  | undefinedBehaviour => intro hret; cases hret

/-- A failed step under `checkStatus` of `matrixMultiplyV1.c++` with
`abortOnError` set: the line is printed and the process exits with code 1. -/
theorem matrixMultiplyV1_checkStatus_fail (loc : String) (status : Int) (w : World)
    (h : status ≠ 0) :
    (matrixMultiplyV1.checkStatus loc status true).run w =
      (Outcome.exited 1, { w with stdout := w.stdout ++ [stepLine loc status] }) := by
  simp [matrixMultiplyV1.checkStatus, run_bind, run_getDebug, run_ite, run_cout, run_exit,
    run_pure, h]

/-- The prolog of the matrix-multiply example returns only when the discovery
calls it makes succeed and a platform is reported. -/
theorem matrixMultiplyV1_prolog_returns_only (d : Driver) (t : cl_device_type) (w : World)
    (r : Int) (h : ((matrixMultiplyV1.typicalOpenCLProlog d t).run w).1 = Outcome.returned r) :
    d.status "clGetPlatformIDs-0" = 0 ∧ d.status "clGetPlatformIDs-1" = 0
    ∧ d.status "clGetDeviceIDs-0" = 0 ∧ 1 ≤ d.numPlatforms
    ∧ (d.numDevices = 0 ∨ d.status "clGetDeviceIDs-1" = 0) := by
  by_cases h0 : d.status "clGetPlatformIDs-0" = 0
  swap
  · simp [matrixMultiplyV1.typicalOpenCLProlog, run_bind, run_statusCall,
      matrixMultiplyV1_checkStatus_fail _ _ _ h0] at h
  by_cases h1 : d.status "clGetPlatformIDs-1" = 0
  swap
  · simp [matrixMultiplyV1.typicalOpenCLProlog, run_bind, run_statusCall, h0,
      matrixMultiplyV1_checkStatus_zero, run_newPlatforms,
      matrixMultiplyV1_checkStatus_fail _ _ _ h1] at h
  by_cases hp : 1 ≤ d.numPlatforms
  swap
  · have hp0 : ¬ 0 < d.numPlatforms := by omega
    simp [matrixMultiplyV1.typicalOpenCLProlog, run_bind, run_statusCall, h0, h1,
      matrixMultiplyV1_checkStatus_zero, run_newPlatforms, run_readPlatforms, hp0] at h
  have hp1 : 0 < d.numPlatforms := by omega
  by_cases h2 : d.status "clGetDeviceIDs-0" = 0
  swap
  · by_cases hpp : 1 < d.numPlatforms
    · simp [matrixMultiplyV1.typicalOpenCLProlog, run_bind, run_statusCall, h0, h1,
        matrixMultiplyV1_checkStatus_zero, run_newPlatforms, run_readPlatforms, hp1, run_ite,
        run_call, run_cout, run_pure, reportVersion, hpp,
        matrixMultiplyV1_checkStatus_fail _ _ _ h2] at h
    · simp [matrixMultiplyV1.typicalOpenCLProlog, run_bind, run_statusCall, h0, h1,
        matrixMultiplyV1_checkStatus_zero, run_newPlatforms, run_readPlatforms, hp1, run_ite,
        run_call, run_cout, run_pure, reportVersion, hpp,
        matrixMultiplyV1_checkStatus_fail _ _ _ h2] at h
  refine ⟨h0, h1, h2, hp, ?_⟩
  by_cases hd : d.numDevices = 0
  · exact Or.inl hd
  right
  by_contra h3
  have hd0 : ¬ d.numDevices ≤ 0 := by omega
  by_cases hpp : 1 < d.numPlatforms
  · simp [matrixMultiplyV1.typicalOpenCLProlog, run_bind, run_statusCall, h0, h1, h2,
      matrixMultiplyV1_checkStatus_zero, run_newPlatforms, run_readPlatforms, hp1, run_ite,
      run_call, run_cout, run_pure, reportVersion, hpp, hd0, run_newDevices,
      matrixMultiplyV1_checkStatus_fail _ _ _ h3] at h
  · simp [matrixMultiplyV1.typicalOpenCLProlog, run_bind, run_statusCall, h0, h1, h2,
      matrixMultiplyV1_checkStatus_zero, run_newPlatforms, run_readPlatforms, hp1, run_ite,
      run_call, run_cout, run_pure, reportVersion, hpp, hd0, run_newDevices,
      matrixMultiplyV1_checkStatus_fail _ _ _ h3] at h

/-- The ways in which the prolog of the matrix-multiply example returns. -/
theorem matrixMultiplyV1_prolog_results (d : Driver) (t : cl_device_type) (w : World) (r : Int)
    (h : ((matrixMultiplyV1.typicalOpenCLProlog d t).run w).1 = Outcome.returned r) :
    (d.numDevices = 0 ∧ r = -1)
    ∨ (matrixMultiplyV1.candidates d = [] ∧ r = -1)
    ∨ (∃ p : Nat, matrixMultiplyV1.candidates d = [p] ∧ r = (p : Int)
        ∧ ((matrixMultiplyV1.typicalOpenCLProlog d t).run w).2.stdin = w.stdin)
    ∨ (2 ≤ (matrixMultiplyV1.candidates d).length
        ∧ ∃ (pre : List Int) (k : Nat) (rest : List Int),
            w.stdin = pre ++ (k : Int) :: rest
            ∧ (∀ x ∈ pre, x < 0 ∨ x ≥ ((matrixMultiplyV1.candidates d).length : Int))
            ∧ k < (matrixMultiplyV1.candidates d).length
            ∧ r = (((matrixMultiplyV1.candidates d).getD k 0 : Nat) : Int)
            ∧ ((matrixMultiplyV1.typicalOpenCLProlog d t).run w).2.stdin = rest) := by
  obtain ⟨h0, h1, h2, hp, h3⟩ := matrixMultiplyV1_prolog_returns_only d t w r h
  by_cases hd : d.numDevices = 0
  · left
    have h' := matrixMultiplyV1_prolog_noDevice d t w h0 h1 h2 hp hd
    rw [h'] at h
    exact ⟨hd, (Outcome.returned.inj h).symm⟩
  have h3' : d.status "clGetDeviceIDs-1" = 0 := h3.resolve_left hd
  have hs := matrixMultiplyV1_prolog_search d t w h0 h1 h2 h3' hp (by omega)
  have hP : ∀ p ∈ matrixMultiplyV1.candidates d, p < d.numDevices :=
    fun p hp' => ((mem_candidates d p).1 hp').1
  rw [hs] at h ⊢
  right
  rcases hc : matrixMultiplyV1.candidates d with _ | ⟨p, _ | ⟨q, l⟩⟩
  · left
    rw [hc, chooseCandidate_none] at h
    exact ⟨rfl, (Outcome.returned.inj h).symm⟩
  · right; left
    have hp' : p < d.numDevices := hP p (by simp [hc])
    obtain ⟨e1, e2⟩ := chooseCandidate_single d d.numDevices p
      (matrixMultiplyV1.searchState d w) rfl hp'
    rw [hc, e1] at h
    exact ⟨p, rfl, (Outcome.returned.inj h).symm, e2⟩
  · right; right
    rw [← hc]
    have hlen : 2 ≤ (matrixMultiplyV1.candidates d).length := by simp [hc]
    refine ⟨hlen, ?_⟩
    exact chooseCandidate_returned d d.numDevices _ (matrixMultiplyV1.searchState d w) r rfl hP
      hlen h

theorem candidates_twoDoubles : matrixMultiplyV1.candidates twoDoubles = [1, 2] := by decide

theorem candidates_secondIsDouble : matrixMultiplyV1.candidates secondIsDouble = [1] := by decide

/-- The candidates are the double-capable devices, in device order. -/
theorem candidates_eq_filter (d : Driver) :
    matrixMultiplyV1.candidates d =
      (List.range d.numDevices).filter (fun idx => decide (matrixMultiplyV1.hasDouble d idx)) := by
  unfold matrixMultiplyV1.candidates
  apply List.filter_congr
  intro idx _
  rw [Bool.eq_iff_iff, supportsDouble_iff, decide_eq_true_iff]

/-- No candidate means no double-capable device among the devices reported. -/
theorem candidates_eq_nil_iff (d : Driver) :
    matrixMultiplyV1.candidates d = [] ↔
      ∀ idx, idx < d.numDevices → ¬ matrixMultiplyV1.hasDouble d idx := by
  rw [List.eq_nil_iff_forall_not_mem]
  constructor
  · intro h idx hlt hdbl
    exact h idx ((mem_candidates d idx).2 ⟨hlt, hdbl⟩)
  · intro h idx hmem
    obtain ⟨hlt, hdbl⟩ := (mem_candidates d idx).1 hmem
    exact h idx hlt hdbl

/-- The prolog of the matrix-multiply example on three devices of which the
second and the third are double-capable, with the input 5, 1: the value 5 is
rejected, menu number 1 selects `devices[2]`. -/
theorem twoDoubles_returns :
    ((matrixMultiplyV1.typicalOpenCLProlog twoDoubles cl_device_type.CL_DEVICE_TYPE_DEFAULT).run
      (World.initial [5, 1])).1 = Outcome.returned 2 := by
  rw [matrixMultiplyV1_prolog_search twoDoubles _ _ rfl rfl rfl rfl (by decide) (by decide),
    candidates_twoDoubles]
  exact (chooseCandidate_menu twoDoubles 3 [1, 2]
    (matrixMultiplyV1.searchState twoDoubles (World.initial [5, 1])) [5] [] 1 rfl (by decide)
    (by decide) rfl (by decide) (by decide) (by decide)).1

/-- The prolog of the matrix-multiply example with exactly one candidate. -/
theorem matrixMultiplyV1_prolog_single (d : Driver) (t : cl_device_type) (w : World) (p : Nat)
    (h0 : d.status "clGetPlatformIDs-0" = 0) (h1 : d.status "clGetPlatformIDs-1" = 0)
    (h2 : d.status "clGetDeviceIDs-0" = 0) (h3 : d.status "clGetDeviceIDs-1" = 0)
    (hp : 1 ≤ d.numPlatforms) (hc : matrixMultiplyV1.candidates d = [p]) :
    ((matrixMultiplyV1.typicalOpenCLProlog d t).run w).1 = Outcome.returned (p : Int)
    ∧ ((matrixMultiplyV1.typicalOpenCLProlog d t).run w).2.stdin = w.stdin
    ∧ p < d.numDevices ∧ matrixMultiplyV1.hasDouble d p := by
  have hmem : p ∈ matrixMultiplyV1.candidates d := by simp [hc]
  obtain ⟨hlt, hdbl⟩ := (mem_candidates d p).1 hmem
  rw [matrixMultiplyV1_prolog_search d t w h0 h1 h2 h3 hp (by omega), hc]
  obtain ⟨e1, e2⟩ := chooseCandidate_single d d.numDevices p
    (matrixMultiplyV1.searchState d w) rfl hlt
  exact ⟨e1, e2, hlt, hdbl⟩

/-! ## The build step of the two launches -/

/-- The chains of checked steps of the two launches are the same process. -/
theorem matrixMultiplyV1_checkedSteps_eq (d : Driver) (labels : List String) :
    matrixMultiplyV1.checkedSteps d labels = saxpy.checkedSteps d labels := by
  induction labels with
  | nil => rfl
  | cons x rest ih =>
    simp only [matrixMultiplyV1.checkedSteps, saxpy.checkedSteps, ih]
    rfl

/-- The sequential text of `doTheKernelLaunch` in `matrixMultiplyV1.c++` is a
chain of checked steps, the build and kernel creation, a second chain, and the
read-back with the releases. -/
theorem matrixMultiplyV1_launch_eq (d : Driver) (dev : Nat) (A B C : List ℚ) (N : Nat) :
    matrixMultiplyV1.doTheKernelLaunch d dev A B C N =
      (matrixMultiplyV1.checkedSteps d matrixMultiplyV1.launchSetup >>= fun _ =>
        matrixMultiplyV1.buildAndCreate d >>= fun _ =>
          matrixMultiplyV1.checkedSteps d matrixMultiplyV1.launchArguments >>= fun _ =>
            matrixMultiplyV1.readBackAndRelease d C) := by
  simp only [matrixMultiplyV1.doTheKernelLaunch, matrixMultiplyV1.launchSetup,
    matrixMultiplyV1.launchArguments, matrixMultiplyV1.checkedSteps,
    matrixMultiplyV1.buildAndCreate, matrixMultiplyV1.readBackAndRelease, proc_bind_assoc,
    proc_pure_bind, proc_ite_bind, readSource]

/-- Whatever the statuses, a chain of checked steps issues an initial part of
its calls and only adds to the output. -/
theorem saxpy_checkedSteps_calls (d : Driver) (labels : List String) (w : World) :
    ∃ (k : Nat) (out : List String),
      ((saxpy.checkedSteps d labels).run w).2.calls = w.calls ++ labels.take k
      ∧ ((saxpy.checkedSteps d labels).run w).2.stdout = w.stdout ++ out := by
  induction labels generalizing w with
  | nil => exact ⟨0, [], by simp [saxpy.checkedSteps, run_pure], by simp [saxpy.checkedSteps, run_pure]⟩
  | cons x rest ih =>
    simp only [saxpy.checkedSteps, run_bind, run_statusCall, saxpy_checkStatus_run]
    by_cases hx : d.status x = 0
    · by_cases hd : w.debug = true
      · obtain ⟨k, out, e1, e2⟩ := ih
          { w with calls := w.calls ++ [x], stdout := w.stdout ++ [stepLine x (d.status x)] }
        refine ⟨k + 1, stepLine x (d.status x) :: out, ?_, ?_⟩
        · simp [hx, hd] at e1 ⊢
          exact e1
        · simp [hx, hd] at e2 ⊢
          exact e2
      · obtain ⟨k, out, e1, e2⟩ := ih { w with calls := w.calls ++ [x] }
        refine ⟨k + 1, out, ?_, ?_⟩
        · simp [hx, hd] at e1 ⊢
          exact e1
        · simp [hx, hd] at e2 ⊢
          exact e2
    · exact ⟨1, [stepLine x (d.status x)], by simp [hx], by simp [hx]⟩

/-- A chain of checked steps with a non-zero status exits with code 1. -/
theorem saxpy_checkedSteps_fail (d : Driver) (labels : List String) (w : World)
    (h : ∃ x ∈ labels, d.status x ≠ 0) :
    ((saxpy.checkedSteps d labels).run w).1 = Outcome.exited 1 := by
  induction labels generalizing w with
  | nil => simp at h
  | cons x rest ih =>
    simp only [saxpy.checkedSteps, run_bind, run_statusCall, saxpy_checkStatus_run]
    by_cases hx : d.status x = 0
    · have hrest : ∃ y ∈ rest, d.status y ≠ 0 := by
        obtain ⟨y, hy, hne⟩ := h
        rcases List.mem_cons.1 hy with rfl | hy'
        · exact absurd hx hne
        · exact ⟨y, hy', hne⟩
      simp only [hx, ne_eq, not_true_eq_false, false_and, if_false]
      exact ih _ hrest
    · simp [hx]

/-- The read-back and the releases are the same process in both launches. -/
theorem matrixMultiplyV1_readBackAndRelease_eq (d : Driver) (C : List ℚ) :
    matrixMultiplyV1.readBackAndRelease d C = saxpy.readBackAndRelease d C := rfl

/-- The build step of `matrixMultiplyV1.c++`: it returns whatever the status of
the build; the two queries for the log are issued exactly after a non-zero
status, and the kernel creation follows in both cases. -/
theorem matrixMultiplyV1_buildAndCreate_run (d : Driver) (w : World) :
    ∃ w', (matrixMultiplyV1.buildAndCreate d).run w = (Outcome.returned (), w')
      ∧ w'.calls = w.calls ++ "clBuildProgram" ::
          (if d.status "clBuildProgram" ≠ 0 then
            ["clGetProgramBuildInfo", "clGetProgramBuildInfo"] else []) ++ ["clCreateKernel"]
      ∧ w'.stdout = w.stdout ++
          (if d.status "clBuildProgram" ≠ 0 then
            [stepLine "clBuildProgram" (d.status "clBuildProgram"),
             "LOG:\n" ++ d.buildLog ++ "\n\n"]
           else debugLine w.debug "clBuildProgram") := by
  simp only [matrixMultiplyV1.buildAndCreate, matrixMultiplyV1.checkStatus, run_bind,
    run_statusCall, run_getDebug, run_ite, showProgramBuildLog, run_call, run_cout, run_pure]
  by_cases hb : d.status "clBuildProgram" = 0
  · cases hd : w.debug <;> simp [hb, hd, debugLine, run_pure, run_cout]
  · cases hd : w.debug <;> simp [hb, hd, debugLine, run_pure, run_cout, run_call]

/-- The build step of `saxpy.c++`: as in the matrix-multiply example, followed
by the reports on the device and kernel limits. -/
theorem saxpy_buildAndCreate_run (d : Driver) (w : World) :
    ∃ (w' : World) (calls out : List String),
      (saxpy.buildAndCreate d).run w = (Outcome.returned (), w')
      ∧ w'.calls = w.calls ++ "clBuildProgram" ::
          (if d.status "clBuildProgram" ≠ 0 then
            ["clGetProgramBuildInfo", "clGetProgramBuildInfo"] else []) ++
          "clCreateKernel" :: calls
      ∧ "clGetProgramBuildInfo" ∉ calls
      ∧ w'.stdout = w.stdout ++
          (if d.status "clBuildProgram" ≠ 0 then
            [stepLine "clBuildProgram" (d.status "clBuildProgram"),
             "LOG:\n" ++ d.buildLog ++ "\n\n"]
           else debugLine w.debug "clBuildProgram") ++ out := by
  refine ⟨((saxpy.buildAndCreate d).run w).2,
    List.replicate 4 "clGetDeviceInfo" ++ List.replicate 4 "clGetKernelWorkGroupInfo",
    ["Device global mem size:     " ++ toString (d.limit "CL_DEVICE_GLOBAL_MEM_SIZE") ++ "\n",
     "Device local mem size:      " ++ toString (d.limit "CL_DEVICE_LOCAL_MEM_SIZE") ++ "\n",
     "Device max work group size: " ++ toString (d.limit "CL_DEVICE_MAX_WORK_GROUP_SIZE") ++ "\n",
     "Device max compute units:   " ++ toString (d.limit "CL_DEVICE_MAX_COMPUTE_UNITS") ++ "\n",
     "\n",
     "Kernel local memory size:   " ++ toString (d.limit "CL_KERNEL_LOCAL_MEM_SIZE") ++ "\n",
     "Kernel private memory size: " ++ toString (d.limit "CL_KERNEL_PRIVATE_MEM_SIZE") ++ "\n",
     "Kernel warpSize:            " ++
       toString (d.limit "CL_KERNEL_PREFERRED_WORK_GROUP_SIZE_MULTIPLE") ++ "\n",
     "Kernel max work group size: " ++ toString (d.limit "CL_KERNEL_WORK_GROUP_SIZE") ++ "\n",
     "\n"], ?_, ?_, by decide, ?_⟩
  all_goals
    simp only [saxpy.buildAndCreate, saxpy.checkStatus, run_bind,
      run_statusCall, run_getDebug, run_ite, showProgramBuildLog, run_call, run_cout, run_pure,
      saxpy.lookAtDeviceLimits, saxpy.lookAtKernelLimits]
    by_cases hb : d.status "clBuildProgram" = 0
    · cases hd : w.debug <;> simp [hb, hd, debugLine, run_pure, run_cout, run_call]
    · cases hd : w.debug <;> simp [hb, hd, debugLine, run_pure, run_cout, run_call]

/-- What follows the kernel creation in both launches, whatever the statuses:
an initial part of the checked steps, then possibly the read-back and the
releases; no query for the build log. -/
theorem saxpy_launch_tail (d : Driver) (labels : List String) (Z : List ℚ) (w : World)
    (hl : "clGetProgramBuildInfo" ∉ labels) :
    ∃ ext out : List String,
      ((saxpy.checkedSteps d labels >>= fun _ => saxpy.readBackAndRelease d Z).run w).2.calls =
        w.calls ++ ext
      ∧ "clGetProgramBuildInfo" ∉ ext
      ∧ ((saxpy.checkedSteps d labels >>= fun _ => saxpy.readBackAndRelease d Z).run w).2.stdout =
        w.stdout ++ out := by
  obtain ⟨k, out, e1, e2⟩ := saxpy_checkedSteps_calls d labels w
  have hk : "clGetProgramBuildInfo" ∉ labels.take k := fun hm => hl (List.mem_of_mem_take hm)
  rw [run_bind]
  revert e1 e2
  generalize (saxpy.checkedSteps d labels).run w = res
  rcases res with ⟨o, w1⟩
  intro e1 e2
  simp only at e1 e2
  cases o with
  | returned u =>
    obtain ⟨Z', w', hrun, hcalls, hout⟩ := saxpy_readBackAndRelease_returns d Z w1
    simp only [hrun]
    refine ⟨labels.take k ++ saxpy.launchTail, out, ?_, ?_, ?_⟩
    · rw [hcalls, e1, List.append_assoc]
    · rw [List.mem_append]
      rintro (hm | hm)
      · exact hk hm
      · revert hm
        decide
    · rw [hout, e2]
  | exited c => exact ⟨labels.take k, out, e1, hk, e2⟩
  | hangs => exact ⟨labels.take k, out, e1, hk, e2⟩
  | undefinedBehaviour => exact ⟨labels.take k, out, e1, hk, e2⟩

/-- The launch of saxpy, once its steps before the build succeed: the build,
the log queries exactly after a non-zero build status, the kernel creation,
and no log query afterwards. -/
theorem saxpy_launch_build (d : Driver) (dev : Nat) (a : ℚ) (X Y : List ℚ) (n : Nat)
    (Z : List ℚ) (w : World) (h : ∀ x ∈ saxpy.launchSetup, d.status x = 0) :
    ∃ tail out1 out2 : List String,
      ((saxpy.doTheKernelLaunch d dev a X Y n Z).run w).2.calls =
        w.calls ++ saxpy.launchSetup ++ "clBuildProgram" ::
          (if d.status "clBuildProgram" ≠ 0 then
            ["clGetProgramBuildInfo", "clGetProgramBuildInfo"] else []) ++
          "clCreateKernel" :: tail
      ∧ "clGetProgramBuildInfo" ∉ tail
      ∧ ((saxpy.doTheKernelLaunch d dev a X Y n Z).run w).2.stdout =
        w.stdout ++ out1 ++
          (if d.status "clBuildProgram" ≠ 0 then
            [stepLine "clBuildProgram" (d.status "clBuildProgram"),
             "LOG:\n" ++ d.buildLog ++ "\n\n"]
           else debugLine w.debug "clBuildProgram") ++ out2 := by
  rw [saxpy_launch_eq, run_bind, saxpy_checkedSteps_ok d _ _ h]
  simp only []
  rw [run_bind]
  obtain ⟨w1, calls, out, hrun, hc, hn, ho⟩ := saxpy_buildAndCreate_run d
    { w with calls := w.calls ++ saxpy.launchSetup,
             stdout := w.stdout ++ (if w.debug = true then
               saxpy.launchSetup.map fun x => stepLine x 0 else []) }
  rw [hrun]
  simp only []
  obtain ⟨ext, out', e1, e2, e3⟩ := saxpy_launch_tail d saxpy.launchArguments Z w1 (by decide)
  refine ⟨calls ++ ext,
    (if w.debug = true then saxpy.launchSetup.map fun x => stepLine x 0 else []),
    out ++ out', ?_, ?_, ?_⟩
  · rw [e1, hc]
    simp
  · rw [List.mem_append]
    rintro (hm | hm)
    · exact hn hm
    · exact e2 hm
  · rw [e3, ho]
    simp only [List.append_assoc]

/-- The launch of the matrix-multiply example, once its steps before the build
succeed: the build, the log queries exactly after a non-zero build status, the
kernel creation, and no log query afterwards. -/
theorem matrixMultiplyV1_launch_build (d : Driver) (dev : Nat) (A B C : List ℚ) (N : Nat)
    (w : World) (h : ∀ x ∈ matrixMultiplyV1.launchSetup, d.status x = 0) :
    ∃ tail out1 out2 : List String,
      ((matrixMultiplyV1.doTheKernelLaunch d dev A B C N).run w).2.calls =
        w.calls ++ matrixMultiplyV1.launchSetup ++ "clBuildProgram" ::
          (if d.status "clBuildProgram" ≠ 0 then
            ["clGetProgramBuildInfo", "clGetProgramBuildInfo"] else []) ++
          "clCreateKernel" :: tail
      ∧ "clGetProgramBuildInfo" ∉ tail
      ∧ ((matrixMultiplyV1.doTheKernelLaunch d dev A B C N).run w).2.stdout =
        w.stdout ++ out1 ++
          (if d.status "clBuildProgram" ≠ 0 then
            [stepLine "clBuildProgram" (d.status "clBuildProgram"),
             "LOG:\n" ++ d.buildLog ++ "\n\n"]
           else debugLine w.debug "clBuildProgram") ++ out2 := by
  rw [matrixMultiplyV1_launch_eq, matrixMultiplyV1_checkedSteps_eq,
    matrixMultiplyV1_checkedSteps_eq, run_bind, saxpy_checkedSteps_ok d _ _ h]
  simp only []
  rw [run_bind]
  obtain ⟨w1, hrun, hc, ho⟩ := matrixMultiplyV1_buildAndCreate_run d
    { w with calls := w.calls ++ matrixMultiplyV1.launchSetup,
             stdout := w.stdout ++ (if w.debug = true then
               matrixMultiplyV1.launchSetup.map fun x => stepLine x 0 else []) }
  rw [hrun]
  simp only [matrixMultiplyV1_readBackAndRelease_eq]
  obtain ⟨ext, out', e1, e2, e3⟩ :=
    saxpy_launch_tail d matrixMultiplyV1.launchArguments C w1 (by decide)
  refine ⟨ext,
    (if w.debug = true then matrixMultiplyV1.launchSetup.map fun x => stepLine x 0 else []),
    out', ?_, e2, ?_⟩
  · rw [e1, hc]
    simp
  · rw [e3, ho]

/-- A launch whose steps before the build do not all succeed exits with code 1
before the build. -/
theorem saxpy_launch_setup_fails (d : Driver) (dev : Nat) (a : ℚ) (X Y : List ℚ) (n : Nat)
    (Z : List ℚ) (w : World) (h : ∃ x ∈ saxpy.launchSetup, d.status x ≠ 0) :
    ((saxpy.doTheKernelLaunch d dev a X Y n Z).run w).1 = Outcome.exited 1
    ∧ ∃ k, ((saxpy.doTheKernelLaunch d dev a X Y n Z).run w).2.calls =
        w.calls ++ saxpy.launchSetup.take k := by
  obtain ⟨k, out, e1, -⟩ := saxpy_checkedSteps_calls d saxpy.launchSetup w
  have hf := saxpy_checkedSteps_fail d saxpy.launchSetup w h
  rw [saxpy_launch_eq, run_bind]
  revert e1 hf
  generalize (saxpy.checkedSteps d saxpy.launchSetup).run w = res
  rcases res with ⟨o, w1⟩
  intro e1 hf
  simp only at e1 hf
  subst hf
  exact ⟨rfl, k, e1⟩

/-- The same for the matrix-multiply example. -/
theorem matrixMultiplyV1_launch_setup_fails (d : Driver) (dev : Nat) (A B C : List ℚ) (N : Nat)
    (w : World) (h : ∃ x ∈ matrixMultiplyV1.launchSetup, d.status x ≠ 0) :
    ((matrixMultiplyV1.doTheKernelLaunch d dev A B C N).run w).1 = Outcome.exited 1
    ∧ ∃ k, ((matrixMultiplyV1.doTheKernelLaunch d dev A B C N).run w).2.calls =
        w.calls ++ matrixMultiplyV1.launchSetup.take k := by
  obtain ⟨k, out, e1, -⟩ := saxpy_checkedSteps_calls d matrixMultiplyV1.launchSetup w
  have hf := saxpy_checkedSteps_fail d matrixMultiplyV1.launchSetup w h
  rw [matrixMultiplyV1_launch_eq, matrixMultiplyV1_checkedSteps_eq, run_bind]
  revert e1 hf
  generalize (saxpy.checkedSteps d matrixMultiplyV1.launchSetup).run w = res
  rcases res with ⟨o, w1⟩
  intro e1 hf
  simp only at e1 hf
  subst hf
  exact ⟨rfl, k, e1⟩

/-! ## The prolog of the matrix-multiply example without a platform -/

/-- The prolog of the matrix-multiply example when the discovery succeeds but
reports no platform: `platforms[0]` is read from an array of length zero. -/
theorem matrixMultiplyV1_prolog_noPlatform (d : Driver) (t : cl_device_type) (w : World)
    (h0 : d.status "clGetPlatformIDs-0" = 0) (h1 : d.status "clGetPlatformIDs-1" = 0)
    (hp : d.numPlatforms = 0) :
    (matrixMultiplyV1.typicalOpenCLProlog d t).run w =
      (Outcome.undefinedBehaviour,
       { w with platforms := some 0,
                calls := w.calls ++ ["clGetPlatformIDs-0", "clGetPlatformIDs-1"],
                stdout := w.stdout ++ debugLine w.debug "clGetPlatformIDs-0" ++
                  debugLine w.debug "clGetPlatformIDs-1" }) := by
  simp [matrixMultiplyV1.typicalOpenCLProlog, run_bind, run_statusCall, h0, h1,
    matrixMultiplyV1_checkStatus_zero, run_newPlatforms, run_readPlatforms, hp]

/-! ## The size argument -/

/-- The four bytes bound to the kernel hold `n mod 2^32`. -/
theorem clSetKernelArg_n_eq (n : Nat) :
    clSetKernelArg_n n =
      if n % 2 ^ 32 < 2 ^ 31 then ((n % 2 ^ 32 : Nat) : Int)
      else ((n % 2 ^ 32 : Nat) : Int) - 2 ^ 32 := by
  have h : ((sizeTBytes n).take sizeofInt).foldr (fun b acc => b + 256 * acc) 0 = n % 2 ^ 32 := by
    simp [sizeTBytes, sizeofInt, List.range_succ]
    omega
  unfold clSetKernelArg_n kernelInt
  simp only [h]

/-! ## The dispatch of HelloOpenCL -/

/-- A successful step under `checkStatus` of `HelloOpenCL.c++`. -/
theorem HelloOpenCL_checkStatus_zero (loc : String) (abortOnError : Bool) (w : World) :
    (HelloOpenCL.checkStatus loc 0 abortOnError).run w =
      (Outcome.returned (), { w with stdout := w.stdout ++ debugLine w.debug loc }) :=
  saxpy_checkStatus_zero loc abortOnError w

theorem run_clEnqueueNDRangeKernel (d : Driver) (work_dim : Int) (g l : List Nat) (w : World) :
    (HelloOpenCL.clEnqueueNDRangeKernel d work_dim g l).run w =
      (Outcome.returned (d.status "clEnqueueNDRangeKernel"),
       { w with calls := w.calls ++ [HelloOpenCL.enqueueEntry work_dim g l] }) := rfl

/-- When every checked call succeeds and a platform and a device are reported,
`main` of `HelloOpenCL.c++` returns 0 and has enqueued the kernel with the
dimension count taken from the command line. -/
theorem HelloOpenCL_main_enqueues (d : Driver) (args : List String) (w : World)
    (h : ∀ x ∈ ["clGetPlatformIDs-0", "clGetPlatformIDs-1", "clGetDeviceIDs-0",
      "clGetDeviceIDs-1", "clCreateContext", "clCreateCommandQueue",
      "clCreateProgramWithSource", "clBuildProgram", "clEnqueueNDRangeKernel"],
      d.status x = 0)
    (hp : 1 ≤ d.numPlatforms) (hd : 1 ≤ d.numDevices) :
    ((HelloOpenCL.main d args).run w).1 = Outcome.returned 0
    ∧ HelloOpenCL.enqueueEntry (HelloOpenCL.numDimsToUse args) HelloOpenCL.globalWorkSize
        (HelloOpenCL.localWorkSize (HelloOpenCL.numDimsToUse args)) ∈
          ((HelloOpenCL.main d args).run w).2.calls := by
  have hp1 : 0 < d.numPlatforms := by omega
  have hd1 : (0 : Int) < d.numDevices := by exact_mod_cast hd
  simp only [List.mem_cons, List.mem_singleton, forall_eq_or_imp, forall_eq, List.not_mem_nil,
    false_implies, implies_true, and_true] at h
  obtain ⟨h0, h1, h2, h3, h4, h5, h6, h7, h8⟩ := h
  simp only [HelloOpenCL.main, HelloOpenCL.typicalOpenCLProlog, run_bind, run_statusCall,
    HelloOpenCL_checkStatus_zero, h0, h1, h2, h3, h4, h5, h6, h7, h8, run_newPlatforms,
    run_readPlatforms, hp1, if_true, reportVersion, run_call, run_cout, run_newDevices,
    run_readDevices, run_readSource, run_clEnqueueNDRangeKernel, run_deleteGlobals, run_pure]
  simp [hd1]

theorem atoi_seven : atoi "7" = 7 := by decide

/-! ## The result check of SimpleOpenCL -/

/-- One difference is counted exactly when it is not zero. -/
theorem countDiff_nDiffs {K : Type} [LinearOrderedField K] (s : SimpleOpenCL.Check K) (diff : K) :
    (SimpleOpenCL.countDiff s diff).nDiffs = s.nDiffs + (if diff ≠ 0 then 1 else 0) := by
  unfold SimpleOpenCL.countDiff
  split_ifs <;> rfl

/-- After one difference `maxDiff` is the larger of its old value and the
difference. -/
theorem countDiff_maxDiff {K : Type} [LinearOrderedField K] (s : SimpleOpenCL.Check K)
    (diff : K) (hs : 0 ≤ s.maxDiff) :
    (SimpleOpenCL.countDiff s diff).maxDiff = max s.maxDiff diff := by
  unfold SimpleOpenCL.countDiff
  split_ifs with h0 h1
  · exact (max_eq_right (le_of_lt h1)).symm
  · exact (max_eq_left (not_lt.1 h1)).symm
  · have hz : diff = 0 := not_not.1 h0
    rw [hz]
    exact (max_eq_left hs).symm

/-- A maximum taken from a non-negative start is non-negative. -/
theorem foldl_max_nonneg {K : Type} [LinearOrderedField K] (l : List K) (a : K) (ha : 0 ≤ a) :
    0 ≤ l.foldl max a := by
  induction l generalizing a with
  | nil => exact ha
  | cons x xs ih => exact ih _ (le_max_of_le_left ha)

/-- A maximum below a bound: the start and every element are below it. -/
theorem foldl_max_le {K : Type} [LinearOrderedField K] (l : List K) (a eps : K) (ha : a ≤ eps)
    (hl : ∀ x ∈ l, x ≤ eps) : l.foldl max a ≤ eps := by
  induction l generalizing a with
  | nil => exact ha
  | cons x xs ih =>
    exact ih _ (max_le ha (hl x (List.mem_cons_self _ _)))
      (fun y hy => hl y (List.mem_cons_of_mem _ hy))

/-- A maximum is above its start and above every element. -/
theorem le_foldl_max {K : Type} [LinearOrderedField K] (l : List K) (a : K) :
    a ≤ l.foldl max a ∧ ∀ x ∈ l, x ≤ l.foldl max a := by
  induction l generalizing a with
  | nil => simp
  | cons y ys ih =>
    obtain ⟨h1, h2⟩ := ih (max a y)
    refine ⟨le_trans (le_max_left _ _) h1, ?_⟩
    intro x hx
    rcases List.mem_cons.1 hx with rfl | hx
    · exact le_trans (le_max_right _ _) h1
    · exact h2 x hx

/-- A maximum is its start or one of the elements. -/
theorem foldl_max_mem {K : Type} [LinearOrderedField K] (l : List K) (a : K) :
    l.foldl max a = a ∨ l.foldl max a ∈ l := by
  induction l generalizing a with
  | nil => simp
  | cons y ys ih =>
    rcases ih (max a y) with h | h
    · rcases max_choice a y with hm | hm
      · left
        rw [List.foldl_cons, h, hm]
      · right
        rw [List.foldl_cons, h, hm]
        exact List.mem_cons_self _ _
    · right
      exact List.mem_cons_of_mem _ h

/-- The sanity check after `m` rounds: `nDiffs` is the number of non-zero
differences among the first `2m`, and `maxDiff` the largest of them. -/
theorem sanityCheck_fold {K : Type} [LinearOrderedField K] (cos sin : K → K) (A B C : List K)
    (m : Nat) :
    ((List.range m).foldl (SimpleOpenCL.checkCell cos sin A B C)
        { nDiffs := 0, maxDiff := 0 }).nDiffs =
      (SimpleOpenCL.differences cos sin m A B C).countP (fun x => decide (x ≠ 0))
    ∧ ((List.range m).foldl (SimpleOpenCL.checkCell cos sin A B C)
        { nDiffs := 0, maxDiff := 0 }).maxDiff =
      (SimpleOpenCL.differences cos sin m A B C).foldl max 0 := by
  induction m with
  | zero => simp [SimpleOpenCL.differences]
  | succ m ih =>
    obtain ⟨h1, h2⟩ := ih
    have hr : List.range (2 * (m + 1)) = List.range (2 * m) ++ [2 * m, 2 * m + 1] := by
      rw [show 2 * (m + 1) = 2 * m + 1 + 1 by ring, List.range_succ, List.range_succ,
        List.append_assoc]
      rfl
    have e1 : 2 * m % 2 = 0 := by omega
    have e2 : 2 * m / 2 = m := by omega
    have e3 : ¬ (2 * m + 1) % 2 = 0 := by omega
    have e4 : (2 * m + 1) / 2 = m := by omega
    have hd : SimpleOpenCL.differences cos sin (m + 1) A B C =
        SimpleOpenCL.differences cos sin m A B C ++
          [|C.getD (2 * m) 0 - cos (A.getD m 0)|, |C.getD (2 * m + 1) 0 - sin (B.getD m 0)|] := by
      unfold SimpleOpenCL.differences
      rw [hr, List.map_append]
      simp only [List.map_cons, List.map_nil, e1, e2, e3, e4, if_true, if_false]
    have hnn : (0 : K) ≤ (SimpleOpenCL.differences cos sin m A B C).foldl max 0 :=
      foldl_max_nonneg _ 0 le_rfl
    rw [List.range_succ, List.foldl_append, hd]
    simp only [List.foldl_cons, List.foldl_nil, SimpleOpenCL.checkCell, countDiff_nDiffs,
      List.countP_append, List.foldl_append]
    constructor
    · rw [h1]
      simp only [List.countP_cons, List.countP_nil, decide_eq_true_eq]
      split_ifs <;> omega
    · rw [countDiff_maxDiff, countDiff_maxDiff, h2]
      · rw [h2]
        exact hnn
      · rw [countDiff_maxDiff _ _ (by rw [h2]; exact hnn)]
        exact le_max_of_le_left (by rw [h2]; exact hnn)

/-- The differences of the cells of one element. -/
theorem mem_differences {K : Type} [LinearOrderedField K] (cos sin : K → K) (n : Nat)
    (A B C : List K) (i : Nat) (hi : i < n) :
    |C.getD (2 * i) 0 - cos (A.getD i 0)| ∈ SimpleOpenCL.differences cos sin n A B C
    ∧ |C.getD (2 * i + 1) 0 - sin (B.getD i 0)| ∈ SimpleOpenCL.differences cos sin n A B C := by
  unfold SimpleOpenCL.differences
  have e1 : 2 * i % 2 = 0 := by omega
  have e2 : 2 * i / 2 = i := by omega
  have e3 : ¬ (2 * i + 1) % 2 = 0 := by omega
  have e4 : (2 * i + 1) / 2 = i := by omega
  constructor
  · refine List.mem_map.2 ⟨2 * i, List.mem_range.2 (by omega), ?_⟩
    simp only [e1, e2, if_true]
  · refine List.mem_map.2 ⟨2 * i + 1, List.mem_range.2 (by omega), ?_⟩
    simp only [e3, e4, if_false]

/-- Every difference belongs to one of the two cells of an element. -/
theorem differences_cases {K : Type} [LinearOrderedField K] (cos sin : K → K) (n : Nat)
    (A B C : List K) (x : K) (hx : x ∈ SimpleOpenCL.differences cos sin n A B C) :
    ∃ i, i < n ∧ (x = |C.getD (2 * i) 0 - cos (A.getD i 0)|
      ∨ x = |C.getD (2 * i + 1) 0 - sin (B.getD i 0)|) := by
  unfold SimpleOpenCL.differences at hx
  obtain ⟨j, hj, rfl⟩ := List.mem_map.1 hx
  have hj' := List.mem_range.1 hj
  refine ⟨j / 2, by omega, ?_⟩
  by_cases h : j % 2 = 0
  · left
    have e : 2 * (j / 2) = j := by omega
    simp only [h, if_true, e]
  · right
    have e : 2 * (j / 2) + 1 = j := by omega
    simp only [h, if_false, e]

/-- The cells of the output that is off by one millionth in `C[0]`. -/
theorem nearOutput_cells {K : Type} [LinearOrderedField K] (cos sin : K → K) (A B : List K)
    (n i : Nat) (hi : i < n) :
    (nearOutput cos sin A B n).getD (2 * i) 0 =
        cos (A.getD i 0) + (if i = 0 then 1 / 1000000 else 0)
    ∧ (nearOutput cos sin A B n).getD (2 * i + 1) 0 = sin (B.getD i 0) := by
  simp only [nearOutput, referenceOutput, List.getD_eq_getElem?_getD, List.getElem?_set,
    List.getElem?_map, List.length_map, List.length_range]
  rw [List.getElem?_range (by omega : 2 * i < 2 * n),
    List.getElem?_range (by omega : 2 * i + 1 < 2 * n)]
  have h1 : (2 * i + 1) % 2 = 1 := by omega
  have h2 : (2 * i + 1) / 2 = i := by omega
  have h3 : 2 * i % 2 = 0 := by omega
  have h4 : 2 * i / 2 = i := by omega
  constructor
  · by_cases h0 : i = 0
    · subst h0
      have hpos : 0 < 2 * n := by omega
      simp [hpos]
    · have : ¬ 0 = 2 * i := by omega
      simp [h0, this, h3, h4]
  · have : ¬ 0 = 2 * i + 1 := by omega
    simp [this, h1, h2]

/-- An output within one millionth of its reference in every cell is still
counted as different. -/
theorem nearOutput_counted {K : Type} [LinearOrderedField K] (cos sin : K → K) (A B : List K)
    (n : Nat) (hn : 0 < n) :
    (∀ i, i < n →
        |(nearOutput cos sin A B n).getD (2 * i) 0 - cos (A.getD i 0)| ≤ 1 / 100000
        ∧ |(nearOutput cos sin A B n).getD (2 * i + 1) 0 - sin (B.getD i 0)| ≤ 1 / 100000)
    ∧ (SimpleOpenCL.sanityCheck cos sin n A B (nearOutput cos sin A B n)).nDiffs ≠ 0 := by
  constructor
  · intro i hi
    obtain ⟨h1, h2⟩ := nearOutput_cells cos sin A B n i hi
    rw [h1, h2]
    by_cases h0 : i = 0
    · simp only [h0, if_true, add_sub_cancel_left, sub_self, abs_zero]
      rw [abs_of_nonneg (by norm_num)]
      constructor <;> norm_num
    · simp only [h0, if_false, add_zero, sub_self, abs_zero]
      constructor <;> norm_num
  · intro hzero
    unfold SimpleOpenCL.sanityCheck at hzero
    rw [(sanityCheck_fold cos sin A B (nearOutput cos sin A B n) n).1, List.countP_eq_zero] at hzero
    have h := hzero _ (mem_differences cos sin n A B (nearOutput cos sin A B n) 0 hn).1
    rw [(nearOutput_cells cos sin A B n 0 hn).1] at h
    simp at h

/-! ## Rounding -/

/-- A number less than one half away from an integer rounds to it. -/
theorem roundHalfEven_eq (s : ℚ) (z : ℤ) (h : |s - z| < 1 / 2) : roundHalfEven s = z := by
  have h1 := abs_lt.1 h
  have hf : ⌊s⌋ = z ∨ ⌊s⌋ = z - 1 := by
    have a : z - 1 ≤ ⌊s⌋ := Int.le_floor.2 (by push_cast; linarith [h1.1])
    have b : ⌊s⌋ < z + 1 := Int.floor_lt.2 (by push_cast; linarith [h1.2])
    omega
  unfold roundHalfEven
  rcases hf with hf | hf
  · have hs : s - ⌊s⌋ < 1 / 2 := by rw [hf]; linarith [h1.2]
    rw [if_pos hs, hf]
  · have hs : (1 : ℚ) / 2 < s - ⌊s⌋ := by rw [hf]; push_cast; linarith [h1.1]
    rw [if_neg (not_lt.2 hs.le), if_pos hs, hf]; ring

/-- Rounding to an integer moves a number by at most one half. -/
theorem roundHalfEven_error (s : ℚ) : |(roundHalfEven s : ℚ) - s| ≤ 1 / 2 := by
  have h0 := Int.floor_le s
  have h1 := Int.lt_floor_add_one s
  unfold roundHalfEven
  split_ifs with a b c
  · rw [abs_le]; constructor <;> linarith
  · rw [abs_le]; constructor <;> push_cast <;> linarith
  · rw [abs_le]; constructor <;> linarith
  · rw [abs_le]; constructor <;> push_cast <;> linarith

theorem roundHalfEven_nonneg (s : ℚ) (h : 0 ≤ s) : 0 ≤ roundHalfEven s := by
  have h0 : 0 ≤ ⌊s⌋ := Int.floor_nonneg.2 h
  unfold roundHalfEven
  split_ifs <;> omega

/-- The value of a rounding: when `q / 2 ^ e` has `p` bits before the point and
is less than one half away from the integer `z`, `q` rounds to `z * 2 ^ e`. -/
theorem roundTo_eq (p : ℕ) (q : ℚ) (e z : ℤ) (hq : 0 < q)
    (hlo : (2 : ℚ) ^ ((p : ℤ) - 1) ≤ q / 2 ^ e) (hhi : q / 2 ^ e < (2 : ℚ) ^ (p : ℤ))
    (hz : |q / 2 ^ e - z| < 1 / 2) : roundTo p q = z * 2 ^ e := by
  have h2 : (0 : ℚ) < 2 ^ e := zpow_pos (by norm_num) e
  have hlog : Int.log 2 |q| = e + ((p : ℤ) - 1) := by
    rw [abs_of_pos hq]
    apply le_antisymm
    · have : Int.log 2 q < e + (p : ℤ) := by
        rw [← Int.lt_zpow_iff_log_lt (by norm_num) hq]
        rw [div_lt_iff₀ h2] at hhi
        rw [zpow_add₀ (by norm_num), mul_comm]
        exact_mod_cast hhi
      omega
    · rw [← Int.zpow_le_iff_le_log (by norm_num) hq]
      rw [le_div_iff₀ h2] at hlo
      rw [zpow_add₀ (by norm_num), mul_comm]
      exact_mod_cast hlo
  unfold roundTo
  rw [if_neg hq.ne']
  simp only [hlog, add_sub_cancel_right]
  rw [roundHalfEven_eq _ z hz]

/-- The relative error of a rounding to `p` bits is at most `2 ^ (-p)`. -/
theorem roundTo_error (p : ℕ) (q : ℚ) : |roundTo p q - q| ≤ |q| * 2 ^ (-(p : ℤ)) := by
  by_cases hq : q = 0
  · simp [roundTo, hq]
  have hq' : 0 < |q| := abs_pos.2 hq
  unfold roundTo
  rw [if_neg hq]
  simp only
  set e : ℤ := Int.log 2 |q| - ((p : ℤ) - 1) with he
  have h2 : (0 : ℚ) < 2 ^ e := zpow_pos (by norm_num) e
  have h := roundHalfEven_error (q / 2 ^ e)
  have e1 : (roundHalfEven (q / 2 ^ e) : ℚ) * 2 ^ e - q
      = ((roundHalfEven (q / 2 ^ e) : ℚ) - q / 2 ^ e) * 2 ^ e := by
    field_simp
  rw [e1, abs_mul, abs_of_pos h2]
  have hl : (2 : ℚ) ^ Int.log 2 |q| ≤ |q| := by
    have := Int.zpow_log_le_self (b := 2) (by norm_num) hq'
    exact_mod_cast this
  have e2 : (2 : ℚ) ^ e = 2 ^ Int.log 2 |q| * 2 ^ (-(p : ℤ)) * 2 := by
    rw [he, show Int.log 2 |q| - ((p : ℤ) - 1) = Int.log 2 |q| + -(p : ℤ) + 1 by ring,
      zpow_add₀ (by norm_num), zpow_add₀ (by norm_num), zpow_one]
  have hp : (0 : ℚ) < 2 ^ (-(p : ℤ)) := zpow_pos (by norm_num) _
  calc |(roundHalfEven (q / 2 ^ e) : ℚ) - q / 2 ^ e| * 2 ^ e
      ≤ 1 / 2 * 2 ^ e := by gcongr
    _ = 2 ^ Int.log 2 |q| * 2 ^ (-(p : ℤ)) := by rw [e2]; ring
    _ ≤ |q| * 2 ^ (-(p : ℤ)) := by gcongr

theorem roundTo_nonneg (p : ℕ) (q : ℚ) (h : 0 ≤ q) : 0 ≤ roundTo p q := by
  unfold roundTo
  split_ifs
  · exact le_rfl
  · simp only
    have h2 : (0 : ℚ) < 2 ^ (Int.log 2 |q| - ((p : ℤ) - 1)) := zpow_pos (by norm_num) _
    have := roundHalfEven_nonneg (q / 2 ^ (Int.log 2 |q| - ((p : ℤ) - 1))) (div_nonneg h h2.le)
    have : (0 : ℚ) ≤ roundHalfEven (q / 2 ^ (Int.log 2 |q| - ((p : ℤ) - 1))) := by
      exact_mod_cast this
    positivity

/-- The value of a `float`: when `q / 2 ^ e` lies between `2 ^ 23` and `2 ^ 24`
and is less than one half away from the integer `z`, the float is `z * 2 ^ e`. -/
theorem toFloat_eq (q : ℚ) (e z : ℤ) (hq : 0 < q) (hlo : 8388608 ≤ q / 2 ^ e)
    (hhi : q / 2 ^ e < 16777216) (hz : |q / 2 ^ e - z| < 1 / 2) : toFloat q = z * 2 ^ e := by
  unfold toFloat
  exact roundTo_eq 24 q e z hq (by norm_num; exact hlo) (by norm_num; exact hhi) hz

theorem toFloat_error (q : ℚ) : |toFloat q - q| ≤ |q| / 16777216 := by
  have h := roundTo_error 24 q
  have e : (2 : ℚ) ^ (-((24 : ℕ) : ℤ)) = 1 / 16777216 := by norm_num
  rw [e] at h
  unfold toFloat
  linarith

theorem toDouble_error (q : ℚ) : |toDouble q - q| ≤ |q| / 9007199254740992 := by
  have h := roundTo_error 53 q
  have e : (2 : ℚ) ^ (-((53 : ℕ) : ℤ)) = 1 / 9007199254740992 := by norm_num
  rw [e] at h
  unfold toDouble
  linarith

/-- The float that holds a `double` result between 0 and 4 lies within
0.00000024 of the exact result. -/
theorem toFloat_toDouble_near (x : ℚ) (h0 : 0 ≤ x) (h1 : x ≤ 4) :
    0 ≤ toFloat (toDouble x) ∧ |toFloat (toDouble x) - x| ≤ 24 / 100000000 := by
  have hd := toDouble_error x
  have hf := toFloat_error (toDouble x)
  have hn : 0 ≤ toDouble x := roundTo_nonneg 53 x h0
  rw [abs_of_nonneg h0] at hd
  rw [abs_of_nonneg hn] at hf
  have hd' := abs_le.1 hd
  have hf' := abs_le.1 hf
  refine ⟨roundTo_nonneg 24 _ hn, ?_⟩
  rw [abs_le]
  constructor <;> linarith

/-- The double `M_PI`. -/
theorem M_PI_eq : M_PI = 884279719003555 / 281474976710656 := by
  unfold M_PI toDouble
  rw [roundTo_eq 53 _ (-51) 7074237752028440 (by norm_num) (by norm_num) (by norm_num)
    (by rw [abs_lt]; constructor <;> norm_num)]
  norm_num

/-- The float that holds `M_PI - 0.0`. -/
theorem float_M_PI : toFloat (toDouble (M_PI - 0)) = 13176795 / 4194304 := by
  have h1 : toDouble (M_PI - 0) = 884279719003555 / 281474976710656 := by
    unfold toDouble
    rw [M_PI_eq, roundTo_eq 53 _ (-51) 7074237752028440 (by norm_num) (by norm_num) (by norm_num)
      (by rw [abs_lt]; constructor <;> norm_num)]
    norm_num
  rw [h1, toFloat_eq _ (-22) 13176795 (by norm_num) (by norm_num) (by norm_num)
    (by rw [abs_lt]; constructor <;> norm_num)]
  norm_num

/-- The number pi to twenty decimals. -/
theorem pi_between :
    ((314159265358979323846 / 100000000000000000000 : ℚ) : ℝ) < Real.pi
    ∧ Real.pi < ((314159265358979323847 / 100000000000000000000 : ℚ) : ℝ) := by
  have h1 := Real.pi_gt_d20
  have h2 := Real.pi_lt_d20
  constructor
  · have e : ((314159265358979323846 / 100000000000000000000 : ℚ) : ℝ)
        = 3.14159265358979323846 := by norm_num
    rw [e]; exact h1
  · have e : ((314159265358979323847 / 100000000000000000000 : ℚ) : ℝ)
        = 3.14159265358979323847 := by norm_num
    rw [e]; exact h2

/-- A run of float additions inside one binade. The first sum `t + d` has 24
bits before the point in units of `2 ^ e` and rounds to `z`; as long as the
sums stay below `2 ^ 24` units, each later addition adds the `c` units that `d`
rounds to. -/
theorem float_run (d t : ℚ) (e z c : ℤ) (K : ℕ) (hd : 0 < d) (ht : 0 ≤ t)
    (hlo : 8388608 ≤ (t + d) / 2 ^ e) (hhi0 : (t + d) / 2 ^ e < 16777216)
    (hz : |(t + d) / 2 ^ e - z| < 1 / 2) (hc : 1 ≤ K → |d / 2 ^ e - c| < 1 / 2)
    (hhi : (z : ℚ) + ((K : ℚ) - 1) * c + d / 2 ^ e < 16777216) :
    ∀ j, j ≤ K → (fun x => toFloat (x + d))^[j + 1] t = ((z : ℚ) + j * c) * 2 ^ e := by
  have h2 : (0 : ℚ) < 2 ^ e := zpow_pos (by norm_num) e
  have hde : 0 < d / 2 ^ e := div_pos hd h2
  have hz1 := abs_lt.1 hz
  have hz0 : (8388608 : ℤ) ≤ z := by
    have : ((8388607 : ℤ) : ℚ) < z := by push_cast; linarith
    have := Int.cast_lt.1 this
    omega
  have hzq : (8388608 : ℚ) ≤ z := by exact_mod_cast hz0
  intro j
  induction j with
  | zero =>
      intro _
      simp only [zero_add, Function.iterate_one, Nat.cast_zero, zero_mul, add_zero]
      exact toFloat_eq (t + d) e z (by linarith) hlo hhi0 hz
  | succ j ih =>
      intro hj
      have hc1 := abs_lt.1 (hc (by omega))
      have hc0 : (0 : ℤ) ≤ c := by
        have : (((-1 : ℤ)) : ℚ) < c := by push_cast; linarith
        have := Int.cast_lt.1 this
        omega
      have hcq : (0 : ℚ) ≤ c := by exact_mod_cast hc0
      rw [Function.iterate_succ_apply', ih (by omega)]
      have hjK : (j : ℚ) + 1 ≤ K := by exact_mod_cast hj
      have hjc : (j : ℚ) * c ≤ ((K : ℚ) - 1) * c :=
        mul_le_mul_of_nonneg_right (by linarith) hcq
      have hj0 : (0 : ℚ) ≤ (j : ℚ) * c := mul_nonneg (Nat.cast_nonneg j) hcq
      have e1 : (((z : ℚ) + j * c) * 2 ^ e + d) / 2 ^ e = (z : ℚ) + j * c + d / 2 ^ e := by
        field_simp
      have h := toFloat_eq (((z : ℚ) + j * c) * 2 ^ e + d) e (z + (j + 1) * c)
        (by positivity) (by rw [e1]; linarith) (by rw [e1]; linarith)
        (by
          rw [e1]
          have e2 : (z : ℚ) + j * c + d / 2 ^ e - ((z + (j + 1) * c : ℤ) : ℚ) = d / 2 ^ e - c := by
            push_cast; ring
          rw [e2]; exact hc (by omega))
      rw [h]; push_cast; ring

/-! ## The tables of SimpleOpenCL -/

/-- The float `dTheta` of the 16384 elements. -/
theorem dTheta_eq : SimpleOpenCL.dTheta SimpleOpenCL.NUM_ELEMENTS = 13177599 / 68719476736 := by
  have h1 : toFloat (((((SimpleOpenCL.NUM_ELEMENTS : ℕ) : ℤ) - 1 : ℤ)) : ℚ) = 16383 := by
    unfold toFloat
    rw [roundTo_eq 24 _ (-10) 16776192 (by norm_num [SimpleOpenCL.NUM_ELEMENTS])
      (by norm_num [SimpleOpenCL.NUM_ELEMENTS]) (by norm_num [SimpleOpenCL.NUM_ELEMENTS])
      (by rw [abs_lt]; constructor <;> norm_num [SimpleOpenCL.NUM_ELEMENTS])]
    norm_num
  have h2 : toDouble (M_PI / 16383) = 7074669555590183 / 36893488147419103232 := by
    unfold toDouble
    rw [M_PI_eq, roundTo_eq 53 _ (-65) 7074669555590183 (by norm_num) (by norm_num) (by norm_num)
      (by rw [abs_lt]; constructor <;> norm_num)]
    norm_num
  unfold SimpleOpenCL.dTheta
  rw [h1, h2]
  unfold toFloat
  rw [roundTo_eq 24 _ (-36) 13177599 (by norm_num) (by norm_num) (by norm_num)
    (by rw [abs_lt]; constructor <;> norm_num)]
  norm_num

theorem thetaAt_succ (n i : ℕ) :
    SimpleOpenCL.thetaAt n (i + 1) = toFloat (SimpleOpenCL.thetaAt n i + SimpleOpenCL.dTheta n) := by
  unfold SimpleOpenCL.thetaAt
  rw [Function.iterate_succ_apply']

/-- A run of the rounds of the loop inside one binade, from round `i0` on. -/
theorem thetaAt_run (n i0 : ℕ) (t : ℚ) (e z c : ℤ) (K : ℕ) (h0 : SimpleOpenCL.thetaAt n i0 = t)
    (hd : 0 < SimpleOpenCL.dTheta n) (ht : 0 ≤ t)
    (hlo : 8388608 ≤ (t + SimpleOpenCL.dTheta n) / 2 ^ e)
    (hhi0 : (t + SimpleOpenCL.dTheta n) / 2 ^ e < 16777216)
    (hz : |(t + SimpleOpenCL.dTheta n) / 2 ^ e - z| < 1 / 2)
    (hc : 1 ≤ K → |SimpleOpenCL.dTheta n / 2 ^ e - c| < 1 / 2)
    (hhi : (z : ℚ) + ((K : ℚ) - 1) * c + SimpleOpenCL.dTheta n / 2 ^ e < 16777216) :
    ∀ j, j ≤ K → SimpleOpenCL.thetaAt n (i0 + 1 + j) = ((z : ℚ) + j * c) * 2 ^ e := by
  intro j hj
  have h := float_run (SimpleOpenCL.dTheta n) t e z c K hd ht hlo hhi0 hz hc hhi j hj
  rw [← h, ← h0]
  unfold SimpleOpenCL.thetaAt
  rw [show i0 + 1 + j = (j + 1) + i0 by omega, Function.iterate_add_apply]

/-- The angle `theta` at round 1, in units of `2 ^ (-36)`: the sums have 24
bits before the point in units of `2 ^ (-36)`. -/
theorem thetaAt_seg0 (j : ℕ) (hj : j ≤ 0) :
    SimpleOpenCL.thetaAt SimpleOpenCL.NUM_ELEMENTS (1 + j) = (13177599 + j * 13177599) / 68719476736 := by
  have h := thetaAt_run SimpleOpenCL.NUM_ELEMENTS 0 0 (-36) 13177599 13177599 0
    (by simp [SimpleOpenCL.thetaAt])
    (by rw [dTheta_eq]; norm_num) (by norm_num)
    (by rw [dTheta_eq]; norm_num) (by rw [dTheta_eq]; norm_num)
    (by rw [dTheta_eq, abs_lt]; constructor <;> norm_num)
    (by intro h; exact absurd h (by norm_num))
    (by rw [dTheta_eq]; norm_num) j hj
  rw [h]
  norm_num
  ring

/-- The angle `theta` at round 2, in units of `2 ^ (-36)`: the sums have 24
bits before the point in units of `2 ^ (-35)`. -/
theorem thetaAt_seg1 (j : ℕ) (hj : j ≤ 0) :
    SimpleOpenCL.thetaAt SimpleOpenCL.NUM_ELEMENTS (2 + j) = (26355198 + j * 13177600) / 68719476736 := by
  have h := thetaAt_run SimpleOpenCL.NUM_ELEMENTS 1 (13177599 / 68719476736) (-35) 13177599 6588800 0
    (by rw [thetaAt_seg0 0 (le_refl _)]; norm_num)
    (by rw [dTheta_eq]; norm_num) (by norm_num)
    (by rw [dTheta_eq]; norm_num) (by rw [dTheta_eq]; norm_num)
    (by rw [dTheta_eq, abs_lt]; constructor <;> norm_num)
    (by intro h; exact absurd h (by norm_num))
    (by rw [dTheta_eq]; norm_num) j hj
  rw [h]
  norm_num
  ring

/-- The angle `theta` at rounds 3 to 5, in units of `2 ^ (-36)`: the sums have 24
bits before the point in units of `2 ^ (-34)`. -/
theorem thetaAt_seg2 (j : ℕ) (hj : j ≤ 2) :
    SimpleOpenCL.thetaAt SimpleOpenCL.NUM_ELEMENTS (3 + j) = (39532796 + j * 13177600) / 68719476736 := by
  have h := thetaAt_run SimpleOpenCL.NUM_ELEMENTS 2 (26355198 / 68719476736) (-34) 9883199 3294400 2
    (by rw [thetaAt_seg1 0 (le_refl _)]; norm_num)
    (by rw [dTheta_eq]; norm_num) (by norm_num)
    (by rw [dTheta_eq]; norm_num) (by rw [dTheta_eq]; norm_num)
    (by rw [dTheta_eq, abs_lt]; constructor <;> norm_num)
    (by intro _; rw [dTheta_eq, abs_lt]; constructor <;> norm_num)
    (by rw [dTheta_eq]; norm_num) j hj
  rw [h]
  norm_num
  ring

/-- The angle `theta` at rounds 6 to 10, in units of `2 ^ (-36)`: the sums have 24
bits before the point in units of `2 ^ (-33)`. -/
theorem thetaAt_seg3 (j : ℕ) (hj : j ≤ 4) :
    SimpleOpenCL.thetaAt SimpleOpenCL.NUM_ELEMENTS (6 + j) = (79065592 + j * 13177600) / 68719476736 := by
  have h := thetaAt_run SimpleOpenCL.NUM_ELEMENTS 5 (65887996 / 68719476736) (-33) 9883199 1647200 4
    (by rw [thetaAt_seg2 2 (le_refl _)]; norm_num)
    (by rw [dTheta_eq]; norm_num) (by norm_num)
    (by rw [dTheta_eq]; norm_num) (by rw [dTheta_eq]; norm_num)
    (by rw [dTheta_eq, abs_lt]; constructor <;> norm_num)
    (by intro _; rw [dTheta_eq, abs_lt]; constructor <;> norm_num)
    (by rw [dTheta_eq]; norm_num) j hj
  rw [h]
  norm_num
  ring

/-- The angle `theta` at rounds 11 to 20, in units of `2 ^ (-36)`: the sums have 24
bits before the point in units of `2 ^ (-32)`. -/
theorem thetaAt_seg4 (j : ℕ) (hj : j ≤ 9) :
    SimpleOpenCL.thetaAt SimpleOpenCL.NUM_ELEMENTS (11 + j) = (144953584 + j * 13177600) / 68719476736 := by
  have h := thetaAt_run SimpleOpenCL.NUM_ELEMENTS 10 (131775992 / 68719476736) (-32) 9059599 823600 9
    (by rw [thetaAt_seg3 4 (le_refl _)]; norm_num)
    (by rw [dTheta_eq]; norm_num) (by norm_num)
    (by rw [dTheta_eq]; norm_num) (by rw [dTheta_eq]; norm_num)
    (by rw [dTheta_eq, abs_lt]; constructor <;> norm_num)
    (by intro _; rw [dTheta_eq, abs_lt]; constructor <;> norm_num)
    (by rw [dTheta_eq]; norm_num) j hj
  rw [h]
  norm_num
  ring

/-- The angle `theta` at rounds 21 to 40, in units of `2 ^ (-36)`: the sums have 24
bits before the point in units of `2 ^ (-31)`. -/
theorem thetaAt_seg5 (j : ℕ) (hj : j ≤ 19) :
    SimpleOpenCL.thetaAt SimpleOpenCL.NUM_ELEMENTS (21 + j) = (276729568 + j * 13177600) / 68719476736 := by
  have h := thetaAt_run SimpleOpenCL.NUM_ELEMENTS 20 (263551984 / 68719476736) (-31) 8647799 411800 19
    (by rw [thetaAt_seg4 9 (le_refl _)]; norm_num)
    (by rw [dTheta_eq]; norm_num) (by norm_num)
    (by rw [dTheta_eq]; norm_num) (by rw [dTheta_eq]; norm_num)
    (by rw [dTheta_eq, abs_lt]; constructor <;> norm_num)
    (by intro _; rw [dTheta_eq, abs_lt]; constructor <;> norm_num)
    (by rw [dTheta_eq]; norm_num) j hj
  rw [h]
  norm_num
  ring

/-- The angle `theta` at rounds 41 to 81, in units of `2 ^ (-36)`: the sums have 24
bits before the point in units of `2 ^ (-30)`. -/
theorem thetaAt_seg6 (j : ℕ) (hj : j ≤ 40) :
    SimpleOpenCL.thetaAt SimpleOpenCL.NUM_ELEMENTS (41 + j) = (540281536 + j * 13177600) / 68719476736 := by
  have h := thetaAt_run SimpleOpenCL.NUM_ELEMENTS 40 (527103968 / 68719476736) (-30) 8441899 205900 40
    (by rw [thetaAt_seg5 19 (le_refl _)]; norm_num)
    (by rw [dTheta_eq]; norm_num) (by norm_num)
    (by rw [dTheta_eq]; norm_num) (by rw [dTheta_eq]; norm_num)
    (by rw [dTheta_eq, abs_lt]; constructor <;> norm_num)
    (by intro _; rw [dTheta_eq, abs_lt]; constructor <;> norm_num)
    (by rw [dTheta_eq]; norm_num) j hj
  rw [h]
  norm_num
  ring

/-- The angle `theta` at rounds 82 to 162, in units of `2 ^ (-36)`: the sums have 24
bits before the point in units of `2 ^ (-29)`. -/
theorem thetaAt_seg7 (j : ℕ) (hj : j ≤ 80) :
    SimpleOpenCL.thetaAt SimpleOpenCL.NUM_ELEMENTS (82 + j) = (1080563072 + j * 13177600) / 68719476736 := by
  have h := thetaAt_run SimpleOpenCL.NUM_ELEMENTS 81 (1067385536 / 68719476736) (-29) 8441899 102950 80
    (by rw [thetaAt_seg6 40 (le_refl _)]; norm_num)
    (by rw [dTheta_eq]; norm_num) (by norm_num)
    (by rw [dTheta_eq]; norm_num) (by rw [dTheta_eq]; norm_num)
    (by rw [dTheta_eq, abs_lt]; constructor <;> norm_num)
    (by intro _; rw [dTheta_eq, abs_lt]; constructor <;> norm_num)
    (by rw [dTheta_eq]; norm_num) j hj
  rw [h]
  norm_num
  ring

/-- The angle `theta` at rounds 163 to 325, in units of `2 ^ (-36)`: the sums have 24
bits before the point in units of `2 ^ (-28)`. -/
theorem thetaAt_seg8 (j : ℕ) (hj : j ≤ 162) :
    SimpleOpenCL.thetaAt SimpleOpenCL.NUM_ELEMENTS (163 + j) = (2147948544 + j * 13177600) / 68719476736 := by
  have h := thetaAt_run SimpleOpenCL.NUM_ELEMENTS 162 (2134771072 / 68719476736) (-28) 8390424 51475 162
    (by rw [thetaAt_seg7 80 (le_refl _)]; norm_num)
    (by rw [dTheta_eq]; norm_num) (by norm_num)
    (by rw [dTheta_eq]; norm_num) (by rw [dTheta_eq]; norm_num)
    (by rw [dTheta_eq, abs_lt]; constructor <;> norm_num)
    (by intro _; rw [dTheta_eq, abs_lt]; constructor <;> norm_num)
    (by rw [dTheta_eq]; norm_num) j hj
  rw [h]
  norm_num
  ring

/-- The angle `theta` at rounds 326 to 651, in units of `2 ^ (-36)`: the sums have 24
bits before the point in units of `2 ^ (-27)`. -/
theorem thetaAt_seg9 (j : ℕ) (hj : j ≤ 325) :
    SimpleOpenCL.thetaAt SimpleOpenCL.NUM_ELEMENTS (326 + j) = (4295897088 + j * 13177344) / 68719476736 := by
  have h := thetaAt_run SimpleOpenCL.NUM_ELEMENTS 325 (4282719744 / 68719476736) (-27) 8390424 25737 325
    (by rw [thetaAt_seg8 162 (le_refl _)]; norm_num)
    (by rw [dTheta_eq]; norm_num) (by norm_num)
    (by rw [dTheta_eq]; norm_num) (by rw [dTheta_eq]; norm_num)
    (by rw [dTheta_eq, abs_lt]; constructor <;> norm_num)
    (by intro _; rw [dTheta_eq, abs_lt]; constructor <;> norm_num)
    (by rw [dTheta_eq]; norm_num) j hj
  rw [h]
  norm_num
  ring

/-- The angle `theta` at rounds 652 to 1303, in units of `2 ^ (-36)`: the sums have 24
bits before the point in units of `2 ^ (-26)`. -/
theorem thetaAt_seg10 (j : ℕ) (hj : j ≤ 651) :
    SimpleOpenCL.thetaAt SimpleOpenCL.NUM_ELEMENTS (652 + j) = (8591711232 + j * 13177856) / 68719476736 := by
  have h := thetaAt_run SimpleOpenCL.NUM_ELEMENTS 651 (8578533888 / 68719476736) (-26) 8390343 12869 651
    (by rw [thetaAt_seg9 325 (le_refl _)]; norm_num)
    (by rw [dTheta_eq]; norm_num) (by norm_num)
    (by rw [dTheta_eq]; norm_num) (by rw [dTheta_eq]; norm_num)
    (by rw [dTheta_eq, abs_lt]; constructor <;> norm_num)
    (by intro _; rw [dTheta_eq, abs_lt]; constructor <;> norm_num)
    (by rw [dTheta_eq]; norm_num) j hj
  rw [h]
  norm_num
  ring

/-- The angle `theta` at rounds 1304 to 2607, in units of `2 ^ (-36)`: the sums have 24
bits before the point in units of `2 ^ (-25)`. -/
theorem thetaAt_seg11 (j : ℕ) (hj : j ≤ 1303) :
    SimpleOpenCL.thetaAt SimpleOpenCL.NUM_ELEMENTS (1304 + j) = (17183672320 + j * 13176832) / 68719476736 := by
  have h := thetaAt_run SimpleOpenCL.NUM_ELEMENTS 1303 (17170495488 / 68719476736) (-25) 8390465 6434 1303
    (by rw [thetaAt_seg10 651 (le_refl _)]; norm_num)
    (by rw [dTheta_eq]; norm_num) (by norm_num)
    (by rw [dTheta_eq]; norm_num) (by rw [dTheta_eq]; norm_num)
    (by rw [dTheta_eq, abs_lt]; constructor <;> norm_num)
    (by intro _; rw [dTheta_eq, abs_lt]; constructor <;> norm_num)
    (by rw [dTheta_eq]; norm_num) j hj
  rw [h]
  norm_num
  ring

/-- The angle `theta` at rounds 2608 to 5215, in units of `2 ^ (-36)`: the sums have 24
bits before the point in units of `2 ^ (-24)`. -/
theorem thetaAt_seg12 (j : ℕ) (hj : j ≤ 2607) :
    SimpleOpenCL.thetaAt SimpleOpenCL.NUM_ELEMENTS (2608 + j) = (34366263296 + j * 13176832) / 68719476736 := by
  have h := thetaAt_run SimpleOpenCL.NUM_ELEMENTS 2607 (34353084416 / 68719476736) (-24) 8390201 3217 2607
    (by rw [thetaAt_seg11 1303 (le_refl _)]; norm_num)
    (by rw [dTheta_eq]; norm_num) (by norm_num)
    (by rw [dTheta_eq]; norm_num) (by rw [dTheta_eq]; norm_num)
    (by rw [dTheta_eq, abs_lt]; constructor <;> norm_num)
    (by intro _; rw [dTheta_eq, abs_lt]; constructor <;> norm_num)
    (by rw [dTheta_eq]; norm_num) j hj
  rw [h]
  norm_num
  ring

/-- The angle `theta` at rounds 5216 to 10428, in units of `2 ^ (-36)`: the sums have 24
bits before the point in units of `2 ^ (-23)`. -/
theorem thetaAt_seg13 (j : ℕ) (hj : j ≤ 5212) :
    SimpleOpenCL.thetaAt SimpleOpenCL.NUM_ELEMENTS (5216 + j) = (68731445248 + j * 13180928) / 68719476736 := by
  have h := thetaAt_run SimpleOpenCL.NUM_ELEMENTS 5215 (68718264320 / 68719476736) (-23) 8390069 1609 5212
    (by rw [thetaAt_seg12 2607 (le_refl _)]; norm_num)
    (by rw [dTheta_eq]; norm_num) (by norm_num)
    (by rw [dTheta_eq]; norm_num) (by rw [dTheta_eq]; norm_num)
    (by rw [dTheta_eq, abs_lt]; constructor <;> norm_num)
    (by intro _; rw [dTheta_eq, abs_lt]; constructor <;> norm_num)
    (by rw [dTheta_eq]; norm_num) j hj
  rw [h]
  norm_num
  ring

/-- The angle `theta` at rounds 10429 to 16383, in units of `2 ^ (-36)`: the sums have 24
bits before the point in units of `2 ^ (-22)`. -/
theorem thetaAt_seg14 (j : ℕ) (hj : j ≤ 5954) :
    SimpleOpenCL.thetaAt SimpleOpenCL.NUM_ELEMENTS (10429 + j) = (137443622912 + j * 13172736) / 68719476736 := by
  have h := thetaAt_run SimpleOpenCL.NUM_ELEMENTS 10428 (137430441984 / 68719476736) (-22) 8388893 804 5954
    (by rw [thetaAt_seg13 5212 (le_refl _)]; norm_num)
    (by rw [dTheta_eq]; norm_num) (by norm_num)
    (by rw [dTheta_eq]; norm_num) (by rw [dTheta_eq]; norm_num)
    (by rw [dTheta_eq, abs_lt]; constructor <;> norm_num)
    (by intro _; rw [dTheta_eq, abs_lt]; constructor <;> norm_num)
    (by rw [dTheta_eq]; norm_num) j hj
  rw [h]
  norm_num
  ring

/-- The angle `theta` after its last increment that is stored. -/
theorem thetaAt_last :
    SimpleOpenCL.thetaAt SimpleOpenCL.NUM_ELEMENTS 16383 = 13175909 / 4194304 := by
  rw [show (16383 : ℕ) = 10429 + 5954 from rfl, thetaAt_seg14 5954 (le_refl _)]
  norm_num

/-- Bounds of `theta` at every round: it is at least `dTheta` from round 1 on,
at most its last value, and within 0.00022 of `i` times a sixteen-thousandth of
pi, taken to twenty decimals from below and from above. -/
theorem thetaAt_envelope (i : ℕ) (hi : i < 16384) :
    0 ≤ SimpleOpenCL.thetaAt SimpleOpenCL.NUM_ELEMENTS i
    ∧ (1 ≤ i → 13177599 / 68719476736 ≤ SimpleOpenCL.thetaAt SimpleOpenCL.NUM_ELEMENTS i)
    ∧ SimpleOpenCL.thetaAt SimpleOpenCL.NUM_ELEMENTS i ≤ 13175909 / 4194304
    ∧ SimpleOpenCL.thetaAt SimpleOpenCL.NUM_ELEMENTS i ≤ (i : ℚ) * (314159265358979323846 / 100000000000000000000 / 16383) + 22 / 100000
    ∧ (i : ℚ) * (314159265358979323847 / 100000000000000000000 / 16383) - 22 / 100000 ≤ SimpleOpenCL.thetaAt SimpleOpenCL.NUM_ELEMENTS i := by
  rcases Nat.eq_zero_or_pos i with h | h
  · subst h
    simp only [SimpleOpenCL.thetaAt, Function.iterate_zero, id_eq]
    norm_num
  by_cases h0 : i ≤ 1
  · obtain ⟨j, rfl⟩ : ∃ j, i = 1 + j := ⟨i - 1, by omega⟩
    have hj : j ≤ 0 := by omega
    have hjq : (j : ℚ) ≤ 0 := by exact_mod_cast hj
    have hj0 : (0 : ℚ) ≤ j := Nat.cast_nonneg j
    rw [thetaAt_seg0 j hj]
    push_cast
    refine ⟨?_, fun _ => ?_, ?_, ?_, ?_⟩ <;> linarith
  by_cases h1 : i ≤ 2
  · obtain ⟨j, rfl⟩ : ∃ j, i = 2 + j := ⟨i - 2, by omega⟩
    have hj : j ≤ 0 := by omega
    have hjq : (j : ℚ) ≤ 0 := by exact_mod_cast hj
    have hj0 : (0 : ℚ) ≤ j := Nat.cast_nonneg j
    rw [thetaAt_seg1 j hj]
    push_cast
    refine ⟨?_, fun _ => ?_, ?_, ?_, ?_⟩ <;> linarith
  by_cases h2 : i ≤ 5
  · obtain ⟨j, rfl⟩ : ∃ j, i = 3 + j := ⟨i - 3, by omega⟩
    have hj : j ≤ 2 := by omega
    have hjq : (j : ℚ) ≤ 2 := by exact_mod_cast hj
    have hj0 : (0 : ℚ) ≤ j := Nat.cast_nonneg j
    rw [thetaAt_seg2 j hj]
    push_cast
    refine ⟨?_, fun _ => ?_, ?_, ?_, ?_⟩ <;> linarith
  by_cases h3 : i ≤ 10
  · obtain ⟨j, rfl⟩ : ∃ j, i = 6 + j := ⟨i - 6, by omega⟩
    have hj : j ≤ 4 := by omega
    have hjq : (j : ℚ) ≤ 4 := by exact_mod_cast hj
    have hj0 : (0 : ℚ) ≤ j := Nat.cast_nonneg j
    rw [thetaAt_seg3 j hj]
    push_cast
    refine ⟨?_, fun _ => ?_, ?_, ?_, ?_⟩ <;> linarith
  by_cases h4 : i ≤ 20
  · obtain ⟨j, rfl⟩ : ∃ j, i = 11 + j := ⟨i - 11, by omega⟩
    have hj : j ≤ 9 := by omega
    have hjq : (j : ℚ) ≤ 9 := by exact_mod_cast hj
    have hj0 : (0 : ℚ) ≤ j := Nat.cast_nonneg j
    rw [thetaAt_seg4 j hj]
    push_cast
    refine ⟨?_, fun _ => ?_, ?_, ?_, ?_⟩ <;> linarith
  by_cases h5 : i ≤ 40
  · obtain ⟨j, rfl⟩ : ∃ j, i = 21 + j := ⟨i - 21, by omega⟩
    have hj : j ≤ 19 := by omega
    have hjq : (j : ℚ) ≤ 19 := by exact_mod_cast hj
    have hj0 : (0 : ℚ) ≤ j := Nat.cast_nonneg j
    rw [thetaAt_seg5 j hj]
    push_cast
    refine ⟨?_, fun _ => ?_, ?_, ?_, ?_⟩ <;> linarith
  by_cases h6 : i ≤ 81
  · obtain ⟨j, rfl⟩ : ∃ j, i = 41 + j := ⟨i - 41, by omega⟩
    have hj : j ≤ 40 := by omega
    have hjq : (j : ℚ) ≤ 40 := by exact_mod_cast hj
    have hj0 : (0 : ℚ) ≤ j := Nat.cast_nonneg j
    rw [thetaAt_seg6 j hj]
    push_cast
    refine ⟨?_, fun _ => ?_, ?_, ?_, ?_⟩ <;> linarith
  by_cases h7 : i ≤ 162
  · obtain ⟨j, rfl⟩ : ∃ j, i = 82 + j := ⟨i - 82, by omega⟩
    have hj : j ≤ 80 := by omega
    have hjq : (j : ℚ) ≤ 80 := by exact_mod_cast hj
    have hj0 : (0 : ℚ) ≤ j := Nat.cast_nonneg j
    rw [thetaAt_seg7 j hj]
    push_cast
    refine ⟨?_, fun _ => ?_, ?_, ?_, ?_⟩ <;> linarith
  by_cases h8 : i ≤ 325
  · obtain ⟨j, rfl⟩ : ∃ j, i = 163 + j := ⟨i - 163, by omega⟩
    have hj : j ≤ 162 := by omega
    have hjq : (j : ℚ) ≤ 162 := by exact_mod_cast hj
    have hj0 : (0 : ℚ) ≤ j := Nat.cast_nonneg j
    rw [thetaAt_seg8 j hj]
    push_cast
    refine ⟨?_, fun _ => ?_, ?_, ?_, ?_⟩ <;> linarith
  by_cases h9 : i ≤ 651
  · obtain ⟨j, rfl⟩ : ∃ j, i = 326 + j := ⟨i - 326, by omega⟩
    have hj : j ≤ 325 := by omega
    have hjq : (j : ℚ) ≤ 325 := by exact_mod_cast hj
    have hj0 : (0 : ℚ) ≤ j := Nat.cast_nonneg j
    rw [thetaAt_seg9 j hj]
    push_cast
    refine ⟨?_, fun _ => ?_, ?_, ?_, ?_⟩ <;> linarith
  by_cases h10 : i ≤ 1303
  · obtain ⟨j, rfl⟩ : ∃ j, i = 652 + j := ⟨i - 652, by omega⟩
    have hj : j ≤ 651 := by omega
    have hjq : (j : ℚ) ≤ 651 := by exact_mod_cast hj
    have hj0 : (0 : ℚ) ≤ j := Nat.cast_nonneg j
    rw [thetaAt_seg10 j hj]
    push_cast
    refine ⟨?_, fun _ => ?_, ?_, ?_, ?_⟩ <;> linarith
  by_cases h11 : i ≤ 2607
  · obtain ⟨j, rfl⟩ : ∃ j, i = 1304 + j := ⟨i - 1304, by omega⟩
    have hj : j ≤ 1303 := by omega
    have hjq : (j : ℚ) ≤ 1303 := by exact_mod_cast hj
    have hj0 : (0 : ℚ) ≤ j := Nat.cast_nonneg j
    rw [thetaAt_seg11 j hj]
    push_cast
    refine ⟨?_, fun _ => ?_, ?_, ?_, ?_⟩ <;> linarith
  by_cases h12 : i ≤ 5215
  · obtain ⟨j, rfl⟩ : ∃ j, i = 2608 + j := ⟨i - 2608, by omega⟩
    have hj : j ≤ 2607 := by omega
    have hjq : (j : ℚ) ≤ 2607 := by exact_mod_cast hj
    have hj0 : (0 : ℚ) ≤ j := Nat.cast_nonneg j
    rw [thetaAt_seg12 j hj]
    push_cast
    refine ⟨?_, fun _ => ?_, ?_, ?_, ?_⟩ <;> linarith
  by_cases h13 : i ≤ 10428
  · obtain ⟨j, rfl⟩ : ∃ j, i = 5216 + j := ⟨i - 5216, by omega⟩
    have hj : j ≤ 5212 := by omega
    have hjq : (j : ℚ) ≤ 5212 := by exact_mod_cast hj
    have hj0 : (0 : ℚ) ≤ j := Nat.cast_nonneg j
    rw [thetaAt_seg13 j hj]
    push_cast
    refine ⟨?_, fun _ => ?_, ?_, ?_, ?_⟩ <;> linarith
  · obtain ⟨j, rfl⟩ : ∃ j, i = 10429 + j := ⟨i - 10429, by omega⟩
    have hj : j ≤ 5954 := by omega
    have hjq : (j : ℚ) ≤ 5954 := by exact_mod_cast hj
    have hj0 : (0 : ℚ) ≤ j := Nat.cast_nonneg j
    rw [thetaAt_seg14 j hj]
    push_cast
    refine ⟨?_, fun _ => ?_, ?_, ?_, ?_⟩ <;> linarith

/-- The loop after `m` rounds: `theta`, and the cells stored so far. -/
theorem initAngles_fold (n : ℕ) (A B : List ℚ) (m : ℕ) :
    ((List.range m).foldl (SimpleOpenCL.initCell (SimpleOpenCL.dTheta n))
        { A := A, B := B, theta := 0 }).theta = SimpleOpenCL.thetaAt n m
    ∧ ((List.range m).foldl (SimpleOpenCL.initCell (SimpleOpenCL.dTheta n))
        { A := A, B := B, theta := 0 }).A.length = A.length
    ∧ ((List.range m).foldl (SimpleOpenCL.initCell (SimpleOpenCL.dTheta n))
        { A := A, B := B, theta := 0 }).B.length = B.length
    ∧ (∀ i, i < m → i < A.length →
        ((List.range m).foldl (SimpleOpenCL.initCell (SimpleOpenCL.dTheta n))
          { A := A, B := B, theta := 0 }).A[i]? = some (SimpleOpenCL.thetaAt n i))
    ∧ (∀ i, i < m → i < B.length →
        ((List.range m).foldl (SimpleOpenCL.initCell (SimpleOpenCL.dTheta n))
          { A := A, B := B, theta := 0 }).B[i]? =
            some (toFloat (toDouble (M_PI - SimpleOpenCL.thetaAt n i)))) := by
  induction m with
  | zero => simp [SimpleOpenCL.thetaAt]
  | succ m ih =>
    obtain ⟨h1, h2, h3, h4, h5⟩ := ih
    rw [List.range_succ, List.foldl_append]
    simp only [List.foldl_cons, List.foldl_nil, SimpleOpenCL.initCell, List.length_set]
    refine ⟨?_, h2, h3, ?_, ?_⟩
    · rw [h1]
      unfold SimpleOpenCL.thetaAt
      rw [Function.iterate_succ_apply']
    · intro i hi hlen
      rw [List.getElem?_set]
      by_cases hm : m = i
      · subst hm
        simp [h1, h2, hlen]
      · rw [if_neg hm]
        exact h4 i (by omega) hlen
    · intro i hi hlen
      rw [List.getElem?_set]
      by_cases hm : m = i
      · subst hm
        simp [h1, h3, hlen]
      · rw [if_neg hm]
        exact h5 i (by omega) hlen

/-- The cells of the two tables after the initialisation. -/
theorem initAngles_cells (n : ℕ) (A B : List ℚ) (hA : A.length = n) (hB : B.length = n) :
    (SimpleOpenCL.initAngles n A B).A.length = n
    ∧ (SimpleOpenCL.initAngles n A B).B.length = n
    ∧ ∀ i, i < n →
      (SimpleOpenCL.initAngles n A B).A.getD i 0 = SimpleOpenCL.thetaAt n i
      ∧ (SimpleOpenCL.initAngles n A B).B.getD i 0 =
          toFloat (toDouble (M_PI - SimpleOpenCL.thetaAt n i)) := by
  obtain ⟨-, h2, h3, h4, h5⟩ := initAngles_fold n A B n
  unfold SimpleOpenCL.initAngles
  refine ⟨h2.trans hA, h3.trans hB, fun i hi => ?_⟩
  rw [List.getD_eq_getElem?_getD, List.getD_eq_getElem?_getD, h4 i hi (by omega),
    h5 i hi (by omega)]
  exact ⟨rfl, rfl⟩

/-- What the two tables hold, cell by cell. -/
theorem tables_cells (A B : List ℚ) (hA : A.length = SimpleOpenCL.NUM_ELEMENTS)
    (hB : B.length = SimpleOpenCL.NUM_ELEMENTS) (i : ℕ) (hi : i < SimpleOpenCL.NUM_ELEMENTS) :
    |(((SimpleOpenCL.initAngles SimpleOpenCL.NUM_ELEMENTS A B).A.getD i 0 : ℚ) : ℝ)
        - (i : ℝ) * Real.pi / 16383| ≤ 22 / 100000
    ∧ |((((SimpleOpenCL.initAngles SimpleOpenCL.NUM_ELEMENTS A B).A.getD i 0
          + (SimpleOpenCL.initAngles SimpleOpenCL.NUM_ELEMENTS A B).B.getD i 0 : ℚ)) : ℝ)
        - Real.pi| ≤ 25 / 100000000
    ∧ 0 ≤ (SimpleOpenCL.initAngles SimpleOpenCL.NUM_ELEMENTS A B).A.getD i 0
    ∧ (1 ≤ i → 13177599 / 68719476736 ≤
        (SimpleOpenCL.initAngles SimpleOpenCL.NUM_ELEMENTS A B).A.getD i 0)
    ∧ (SimpleOpenCL.initAngles SimpleOpenCL.NUM_ELEMENTS A B).A.getD i 0 ≤ 13175909 / 4194304
    ∧ 2 / 10000 ≤ (SimpleOpenCL.initAngles SimpleOpenCL.NUM_ELEMENTS A B).B.getD i 0
    ∧ (SimpleOpenCL.initAngles SimpleOpenCL.NUM_ELEMENTS A B).B.getD i 0 ≤ 13176795 / 4194304 := by
  have hi' : i < 16384 := hi
  obtain ⟨-, -, hc⟩ := initAngles_cells SimpleOpenCL.NUM_ELEMENTS A B hA hB
  obtain ⟨ha, hb⟩ := hc i hi
  obtain ⟨e0, e1, e2, e3, e4⟩ := thetaAt_envelope i hi'
  rw [ha, hb]
  set t := SimpleOpenCL.thetaAt SimpleOpenCL.NUM_ELEMENTS i with ht
  have hMq := M_PI_eq
  have hx0 : 0 ≤ M_PI - t := by linarith
  have hx1 : M_PI - t ≤ 4 := by linarith
  obtain ⟨-, n1⟩ := toFloat_toDouble_near (M_PI - t) hx0 hx1
  have n2 := abs_le.1 n1
  obtain ⟨p1, p2⟩ := pi_between
  have hiR : (0 : ℝ) ≤ (i : ℝ) := Nat.cast_nonneg i
  have e3R : (t : ℝ) ≤ (i : ℝ) * (314159265358979323846 / 100000000000000000000 / 16383)
      + 22 / 100000 := by
    have h := (Rat.cast_le (K := ℝ)).2 e3
    push_cast at h
    exact h
  have e4R : (i : ℝ) * (314159265358979323847 / 100000000000000000000 / 16383)
      - 22 / 100000 ≤ (t : ℝ) := by
    have h := (Rat.cast_le (K := ℝ)).2 e4
    push_cast at h
    exact h
  have p1' : (314159265358979323846 / 100000000000000000000 : ℝ) < Real.pi := by
    push_cast at p1
    exact p1
  have p2' : Real.pi < (314159265358979323847 / 100000000000000000000 : ℝ) := by
    push_cast at p2
    exact p2
  have m1 : (i : ℝ) * (314159265358979323846 / 100000000000000000000) ≤ (i : ℝ) * Real.pi :=
    mul_le_mul_of_nonneg_left p1'.le hiR
  have m2 : (i : ℝ) * Real.pi ≤ (i : ℝ) * (314159265358979323847 / 100000000000000000000) :=
    mul_le_mul_of_nonneg_left p2'.le hiR
  have n2l : ((-(24 / 100000000) : ℚ) : ℝ)
      ≤ ((toFloat (toDouble (M_PI - t)) - (M_PI - t) : ℚ) : ℝ) :=
    Rat.cast_le.2 n2.1
  have n2r : ((toFloat (toDouble (M_PI - t)) - (M_PI - t) : ℚ) : ℝ)
      ≤ ((24 / 100000000 : ℚ) : ℝ) :=
    Rat.cast_le.2 n2.2
  have hM : ((M_PI : ℚ) : ℝ) = 884279719003555 / 281474976710656 := by
    rw [M_PI_eq]; norm_num
  push_cast at n2l n2r
  rw [hM] at n2l n2r
  have h2 := n2.2
  have h3 := n2.1
  refine ⟨?_, ?_, e0, e1, e2, ?_, ?_⟩
  · rw [abs_le]
    constructor <;> linarith
  · rw [abs_le]
    push_cast
    constructor <;> linarith
  · linarith
  · rcases Nat.eq_zero_or_pos i with h | h
    · have : t = 0 := by rw [ht, h]; simp [SimpleOpenCL.thetaAt]
      rw [this, float_M_PI]
    · have h1 := e1 h
      linarith

/-! ## Properties of the programs -/

/-- C1: for every `N >= 1` the row-major `N*N` arrays that `do_MatrixMultiply`
fills satisfy `X[row*N+col] = 2.0` when `row = col` and `0.0` otherwise, and
`Y[row*N+col] = 17.5`, for every `row, col < N`; and the reference product
`Z[row*N+col] = sum over k < N of X[row*N+k] * Y[k*N+col]` equals `35.0` for
every `row, col < N` (exact rational arithmetic). -/
theorem matrix_multiply_scenario (d : Driver) (dev : Nat) (heap : Nat → Nat → ℚ)
    (N row col : Nat) (hN : 1 ≤ N) (hr : row < N) (hc : col < N) :
    matrixMultiplyV1.do_MatrixMultiply d dev N =
        matrixMultiplyV1.doTheKernelLaunch d dev
          (matrixMultiplyV1.do_MatrixMultiply_init d.heap N).X
          (matrixMultiplyV1.do_MatrixMultiply_init d.heap N).Y (newArray (N * N) (d.heap 2)) N
    ∧ (matrixMultiplyV1.do_MatrixMultiply_init heap N).X.length = N * N
    ∧ (matrixMultiplyV1.do_MatrixMultiply_init heap N).Y.length = N * N
    ∧ (matrixMultiplyV1.do_MatrixMultiply_init heap N).X[row * N + col]? =
        some (if row = col then (2.0 : ℚ) else 0.0)
    ∧ (matrixMultiplyV1.do_MatrixMultiply_init heap N).Y[row * N + col]? = some (17.5 : ℚ)
    ∧ matrixMultiplyV1.product N (matrixMultiplyV1.do_MatrixMultiply_init heap N) row col =
        35.0 := by
  have _ := hN
  refine ⟨rfl, ?_, ?_, ?_, ?_, ?_⟩
  · unfold matrixMultiplyV1.do_MatrixMultiply_init
    rw [(length_fillRows N N _).1, length_newArray]
  · unfold matrixMultiplyV1.do_MatrixMultiply_init
    rw [(length_fillRows N N _).2, length_newArray]
  · rw [(do_MatrixMultiply_init_cells heap N row col hr hc).1]
    norm_num
  · exact (do_MatrixMultiply_init_cells heap N row col hr hc).2
  · unfold matrixMultiplyV1.product
    have step : ∀ k ∈ Finset.range N,
        (matrixMultiplyV1.do_MatrixMultiply_init heap N).X.getD (row * N + k) 0 *
          (matrixMultiplyV1.do_MatrixMultiply_init heap N).Y.getD (k * N + col) 0 =
        if row = k then (35 : ℚ) else 0 := by
      intro k hk
      have hk' : k < N := Finset.mem_range.1 hk
      rw [List.getD_eq_getElem?_getD, List.getD_eq_getElem?_getD,
        (do_MatrixMultiply_init_cells heap N row k hr hk').1,
        (do_MatrixMultiply_init_cells heap N k col hk' hc).2]
      by_cases h : row = k
      · simp [h]; norm_num
      · simp [h]
    rw [Finset.sum_congr rfl step, Finset.sum_ite_eq]
    simp [hr]
    norm_num

/-- The scenario of C1 at the default size `N = 20`, in row 3: the diagonal cell
and an off-diagonal one. -/
theorem matrix_multiply_scenario_witness :
    (1 ≤ 20 ∧ 3 < 20 ∧ 7 < 20)
    ∧ (matrixMultiplyV1.do_MatrixMultiply_init (fun _ _ => 0) 20).X[3 * 20 + 7]? =
        some (if 3 = 7 then (2.0 : ℚ) else 0.0)
    ∧ (matrixMultiplyV1.do_MatrixMultiply_init (fun _ _ => 0) 20).Y[3 * 20 + 7]? = some (17.5 : ℚ)
    ∧ matrixMultiplyV1.product 20 (matrixMultiplyV1.do_MatrixMultiply_init (fun _ _ => 0) 20) 3 7 =
        35.0 :=
  ⟨by decide,
    (matrix_multiply_scenario oneDevice 0 (fun _ _ => 0) 20 3 7 (by decide) (by decide)
      (by decide)).2.2.2⟩

/-- C2: for every `n` (main uses `n = 20`), `do_saxpy` hands the kernel launch
`a = 2.0`, `X[i] = 1000.0` and `Y[i] = 10.0` for every `i < n`, with `Z[i]`
pre-filled with the sentinel `-999.99`; under the reference definition
`Z[i] = a*X[i] + Y[i]` every one of the `n` outputs equals `2010.0` exactly, and
the sentinel differs from `2010.0`, so a cell the kernel did not write is told
apart from a correct result. -/
theorem saxpy_scenario (d : Driver) (dev : Nat) (heap : Nat → Nat → ℚ) (n i : Nat)
    (hi : i < n) :
    saxpy.do_saxpy d dev n =
        (saxpy.doTheKernelLaunch d dev (saxpy.do_saxpy_init d.heap n).a
          (saxpy.do_saxpy_init d.heap n).X (saxpy.do_saxpy_init d.heap n).Y n
          (saxpy.do_saxpy_init d.heap n).Z >>= fun Z =>
            (forEach (List.range n) fun i =>
              cout (d.fmt (Z.getD i 0) ++ " = " ++ d.fmt (saxpy.do_saxpy_init d.heap n).a ++
                " * " ++ d.fmt ((saxpy.do_saxpy_init d.heap n).X.getD i 0) ++ "  +  " ++
                d.fmt ((saxpy.do_saxpy_init d.heap n).Y.getD i 0) ++ "\n")) >>= fun _ =>
            pure Z)
    ∧ (saxpy.do_saxpy_init heap n).a = 2.0
    ∧ (saxpy.do_saxpy_init heap n).X.length = n
    ∧ (saxpy.do_saxpy_init heap n).Y.length = n
    ∧ (saxpy.do_saxpy_init heap n).Z.length = n
    ∧ (saxpy.do_saxpy_init heap n).X[i]? = some (1000.0 : ℚ)
    ∧ (saxpy.do_saxpy_init heap n).Y[i]? = some (10.0 : ℚ)
    ∧ (saxpy.do_saxpy_init heap n).Z[i]? = some (-999.99 : ℚ)
    ∧ saxpy.reference (saxpy.do_saxpy_init heap n) i = 2010.0
    ∧ (saxpy.do_saxpy_init heap n).Z[i]? ≠ some (saxpy.reference (saxpy.do_saxpy_init heap n) i) := by
  obtain ⟨ha, hX, hY, hZ⟩ := do_saxpy_init_cells heap n i hi
  have href : saxpy.reference (saxpy.do_saxpy_init heap n) i = 2010.0 := by
    unfold saxpy.reference
    rw [List.getD_eq_getElem?_getD, List.getD_eq_getElem?_getD, ha, hX, hY]
    norm_num
  refine ⟨rfl, ?_, ?_, ?_, ?_, ?_, ?_, hZ, href, ?_⟩
  · rw [ha]; norm_num
  · unfold saxpy.do_saxpy_init
    rw [saxpy_fill_X]
    simpa [length_newArray] using length_foldl_set (newArray n (heap 0)) 0 (fun _ => 1000.0) n
  · unfold saxpy.do_saxpy_init
    rw [saxpy_fill_Y]
    simpa [length_newArray] using length_foldl_set (newArray n (heap 1)) 0 (fun _ => 10.0) n
  · unfold saxpy.do_saxpy_init
    rw [saxpy_fill_Z]
    simpa [length_newArray] using length_foldl_set (newArray n (heap 2)) 0 (fun _ => -999.99) n
  · rw [hX]; norm_num
  · rw [hY]; norm_num
  · rw [hZ, href]
    norm_num

/-- The scenario of C2 at the size `main` uses, `n = 20`, in cell 5. -/
theorem saxpy_scenario_witness :
    5 < 20
    ∧ (saxpy.do_saxpy_init (fun _ _ => 0) 20).X[5]? = some (1000.0 : ℚ)
    ∧ (saxpy.do_saxpy_init (fun _ _ => 0) 20).Y[5]? = some (10.0 : ℚ)
    ∧ (saxpy.do_saxpy_init (fun _ _ => 0) 20).Z[5]? = some (-999.99 : ℚ)
    ∧ saxpy.reference (saxpy.do_saxpy_init (fun _ _ => 0) 20) 5 = 2010.0
    ∧ (saxpy.do_saxpy_init (fun _ _ => 0) 20).Z[5]? ≠
        some (saxpy.reference (saxpy.do_saxpy_init (fun _ _ => 0) 20) 5) :=
  ⟨by decide, (saxpy_scenario oneDevice 0 (fun _ _ => 0) 20 5 (by decide)).2.2.2.2.2⟩


/-- C3: `checkStatus(where, status, abortOnError)` prints exactly the one line
`Step <where>, status = <status>` if and only if `debug` is set or the status
is non-zero, and changes nothing else; it ends the process with exit code 1 if
and only if the status is non-zero and `abortOnError` holds, with the line
already printed; otherwise it returns. The two-argument `checkStatus` of
SimpleOpenCL is the three-argument one with `abortOnError = true`, and the copy
in the matrix-multiply example is the one of saxpy. -/
theorem checkStatus_contract (loc : String) (status : Int) (abortOnError : Bool) (w : World) :
    ((saxpy.checkStatus loc status abortOnError).run w).2 =
        (if w.debug = true ∨ status ≠ 0 then
          { w with stdout := w.stdout ++ ["Step " ++ loc ++ ", status = " ++ toString status ++ "\n"] }
         else w)
    ∧ (((saxpy.checkStatus loc status abortOnError).run w).1 = Outcome.exited 1 ↔
        (status ≠ 0 ∧ abortOnError = true))
    ∧ (((saxpy.checkStatus loc status abortOnError).run w).1 = Outcome.returned () ↔
        ¬ (status ≠ 0 ∧ abortOnError = true))
    ∧ (((saxpy.checkStatus loc status abortOnError).run w).1 = Outcome.exited 1 →
        ((saxpy.checkStatus loc status abortOnError).run w).2.stdout =
          w.stdout ++ ["Step " ++ loc ++ ", status = " ++ toString status ++ "\n"])
    ∧ (SimpleOpenCL.checkStatus loc status).run w = (saxpy.checkStatus loc status true).run w
    ∧ matrixMultiplyV1.checkStatus loc status abortOnError =
        saxpy.checkStatus loc status abortOnError := by
  rw [saxpy_checkStatus_run, SimpleOpenCL_checkStatus_run, saxpy_checkStatus_run]
  refine ⟨rfl, ?_, ?_, ?_, ?_, rfl⟩
  · by_cases h : status ≠ 0 ∧ abortOnError = true <;> simp [h]
  · by_cases h : status ≠ 0 ∧ abortOnError = true <;> simp [h]
  · by_cases hs : status = 0 <;> simp [hs, stepLine]
  · simp

/-- C5 fails on the code: when every driver call of saxpy succeeds except the
read-back (`clEnqueueReadBuffer` returns -5), `main` does not end the process
with exit code 1: the read-back is followed by all the releases and `main`
runs to its `return 0`. The same holds when only the kernel creation fails
(`clCreateKernel` returns -46). Neither status reaches `checkStatus`. -/
theorem saxpy_unchecked_calls :
    (readBackFails.status "clEnqueueReadBuffer" = -5
      ∧ ((saxpy.main readBackFails []).run (World.initial [])).1.exitCode = some 0
      ∧ ∃ before, ((saxpy.main readBackFails []).run (World.initial [])).2.calls =
          before ++ saxpy.launchTail)
    ∧ (createKernelFails.status "clCreateKernel" = -46
      ∧ ((saxpy.main createKernelFails []).run (World.initial [])).1.exitCode = some 0
      ∧ ∃ before, ((saxpy.main createKernelFails []).run (World.initial [])).2.calls =
          before ++ saxpy.launchTail) :=
  ⟨⟨rfl, congrArg Outcome.exitCode
      (saxpy_main_returns readBackFails [] (World.initial []) rfl rfl rfl rfl (by decide) rfl
        (by decide) (by decide)).1,
      (saxpy_main_returns readBackFails [] (World.initial []) rfl rfl rfl rfl (by decide) rfl
        (by decide) (by decide)).2⟩,
   ⟨rfl, congrArg Outcome.exitCode
      (saxpy_main_returns createKernelFails [] (World.initial []) rfl rfl rfl rfl (by decide) rfl
        (by decide) (by decide)).1,
      (saxpy_main_returns createKernelFails [] (World.initial []) rfl rfl rfl rfl (by decide) rfl
        (by decide) (by decide)).2⟩⟩

/-- C6 as amended: in the saxpy and matrix-multiply programs, whenever
`typicalOpenCLProlog` returns -1, `main` takes its guard on the negative index,
launches nothing and returns 0: the process ends with exit code 0, in the
state the prolog left. With successful discovery calls this is what happens
when no platform (saxpy), no device of the requested kind, or (matrix
multiply) no double-precision device is found. -/
theorem discovery_failure_exit (d : Driver) (args : List String) (input : List Int) :
    (((saxpy.typicalOpenCLProlog d (selected args cl_device_type.CL_DEVICE_TYPE_DEFAULT)).run
        ((saxpy.parseArgs args cl_device_type.CL_DEVICE_TYPE_DEFAULT).run
          (World.initial input)).2).1 = Outcome.returned (-1) →
      ((saxpy.main d args).run (World.initial input)).1.exitCode = some 0
      ∧ ((saxpy.main d args).run (World.initial input)).2 =
          ((saxpy.typicalOpenCLProlog d (selected args cl_device_type.CL_DEVICE_TYPE_DEFAULT)).run
            ((saxpy.parseArgs args cl_device_type.CL_DEVICE_TYPE_DEFAULT).run
              (World.initial input)).2).2)
    ∧ (((matrixMultiplyV1.typicalOpenCLProlog d
          (selected args cl_device_type.CL_DEVICE_TYPE_DEFAULT)).run
        ((matrixMultiplyV1.parseArgs args (cl_device_type.CL_DEVICE_TYPE_DEFAULT, 20)).run
          (World.initial input)).2).1 = Outcome.returned (-1) →
      ((matrixMultiplyV1.main d args).run (World.initial input)).1.exitCode = some 0
      ∧ ((matrixMultiplyV1.main d args).run (World.initial input)).2 =
          ((matrixMultiplyV1.typicalOpenCLProlog d
              (selected args cl_device_type.CL_DEVICE_TYPE_DEFAULT)).run
            ((matrixMultiplyV1.parseArgs args (cl_device_type.CL_DEVICE_TYPE_DEFAULT, 20)).run
              (World.initial input)).2).2)
    ∧ (d.status "clGetPlatformIDs-0" = 0 → d.numPlatforms = 0 →
      ((saxpy.main d args).run (World.initial input)).1.exitCode = some 0)
    ∧ (d.status "clGetPlatformIDs-0" = 0 → d.status "clGetPlatformIDs-1" = 0 →
      d.status "clGetDeviceIDs-0" = 0 → 1 ≤ d.numPlatforms → d.numDevices = 0 →
      ((saxpy.main d args).run (World.initial input)).1.exitCode = some 0
      ∧ ((matrixMultiplyV1.main d args).run (World.initial input)).1.exitCode = some 0)
    ∧ (d.status "clGetPlatformIDs-0" = 0 → d.status "clGetPlatformIDs-1" = 0 →
      d.status "clGetDeviceIDs-0" = 0 → d.status "clGetDeviceIDs-1" = 0 →
      1 ≤ d.numPlatforms → 1 ≤ d.numDevices →
      (∀ idx, idx < d.numDevices → matrixMultiplyV1.supportsDouble d idx = false) →
      ((matrixMultiplyV1.main d args).run (World.initial input)).1.exitCode = some 0) := by
  refine ⟨?_, ?_, ?_, ?_, ?_⟩
  · intro h
    rw [saxpy_main_skips d args _ (-1) h (by norm_num)]
    exact ⟨rfl, rfl⟩
  · intro h
    rw [matrixMultiplyV1_main_skips d args _ (-1) h (by norm_num)]
    exact ⟨rfl, rfl⟩
  · intro h0 hp
    rw [saxpy_main_skips d args _ (-1)
      (congrArg Prod.fst (saxpy_prolog_noPlatform d _ _ h0 hp)) (by norm_num)]
    rfl
  · intro h0 h1 h2 hp hd
    rw [saxpy_main_skips d args _ (-1) (saxpy_prolog_noDevice d _ _ h0 h1 h2 hp hd).1
        (by norm_num),
      matrixMultiplyV1_main_skips d args _ (-1)
        (matrixMultiplyV1_prolog_noDevice d _ _ h0 h1 h2 hp hd) (by norm_num)]
    exact ⟨rfl, rfl⟩
  · intro h0 h1 h2 h3 hp hd hx
    rw [matrixMultiplyV1_main_skips d args _ (-1)
      (matrixMultiplyV1_prolog_noDouble d _ _ h0 h1 h2 h3 hp hd hx) (by norm_num)]
    rfl

/-- C6 as amended, at a driver that reports no platform (saxpy), at one that
reports a platform without devices, and at one whose only device lacks double
precision (matrix multiply). -/
theorem discovery_failure_exit_witness :
    ((saxpy.main noPlatform []).run (World.initial [])).1.exitCode = some 0
    ∧ (((saxpy.main noDevice []).run (World.initial [])).1.exitCode = some 0
      ∧ ((matrixMultiplyV1.main noDevice []).run (World.initial [])).1.exitCode = some 0)
    ∧ ((matrixMultiplyV1.main oneDevice []).run (World.initial [])).1.exitCode = some 0 :=
  ⟨(discovery_failure_exit noPlatform [] []).2.2.1 rfl rfl,
   (discovery_failure_exit noDevice [] []).2.2.2.1 rfl rfl rfl (by decide) rfl,
   (discovery_failure_exit oneDevice [] []).2.2.2.2 rfl rfl rfl rfl (by decide) (by decide)
     (fun _ _ => rfl)⟩

/-- C6 as stated fails: when the driver reports no platform, the prolog of
saxpy returns -1 and the process ends with exit code 0, not with a non-zero
one. -/
theorem discovery_failure_counterexample :
    ((saxpy.typicalOpenCLProlog noPlatform
        (selected [] cl_device_type.CL_DEVICE_TYPE_DEFAULT)).run
      ((saxpy.parseArgs [] cl_device_type.CL_DEVICE_TYPE_DEFAULT).run (World.initial [])).2).1 =
        Outcome.returned (-1)
    ∧ ((saxpy.main noPlatform []).run (World.initial [])).1.exitCode = some 0
    ∧ ¬ (∃ code : Int, code ≠ 0 ∧
          ((saxpy.main noPlatform []).run (World.initial [])).1.exitCode = some code) := by
  have h1 := congrArg Prod.fst (saxpy_prolog_noPlatform noPlatform
    (selected [] cl_device_type.CL_DEVICE_TYPE_DEFAULT)
    ((saxpy.parseArgs [] cl_device_type.CL_DEVICE_TYPE_DEFAULT).run (World.initial [])).2
    rfl rfl)
  have h2 := saxpy_main_skips noPlatform [] (World.initial []) (-1) h1 (by norm_num)
  refine ⟨h1, ?_, ?_⟩
  · rw [h2]; rfl
  · rw [h2]
    rintro ⟨code, hc, he⟩
    exact hc (Option.some.inj he).symm

/-- C7: in the three programs that parse a device-kind filter (SimpleOpenCL,
saxpy, matrix multiply) the device type after the argument loop is DEFAULT when
no argument begins with `-` followed by `a`, `c` or `g`, and otherwise the one
chosen by the last such argument (`a` ALL, `c` CPU, `g` GPU). Only the
character after `-` counts, so `-gpu` selects like `-g`; an argument that does
not start with `-`, that is `-debug`, or whose second character is another one
selects nothing and leaves the device type as it was. -/
theorem device_kind_filter (args : List String) (arg : String) (rest : List String)
    (devType : cl_device_type) (w : World) :
    ((SimpleOpenCL.parseArgs args CL_DEVICE_TYPE_DEFAULT).run w).1 =
        Outcome.returned (((args.filterMap selector).getLast?).getD CL_DEVICE_TYPE_DEFAULT)
    ∧ ((saxpy.parseArgs args CL_DEVICE_TYPE_DEFAULT).run w).1 =
        Outcome.returned (((args.filterMap selector).getLast?).getD CL_DEVICE_TYPE_DEFAULT)
    ∧ ((matrixMultiplyV1.parseArgs args (CL_DEVICE_TYPE_DEFAULT, 20)).run w).1 =
        Outcome.returned
          (((args.filterMap selector).getLast?).getD CL_DEVICE_TYPE_DEFAULT, sizeArg args 20)
    ∧ (selector arg = some CL_DEVICE_TYPE_ALL ↔ (charAt arg 0 = '-' ∧ charAt arg 1 = 'a'))
    ∧ (selector arg = some CL_DEVICE_TYPE_CPU ↔ (charAt arg 0 = '-' ∧ charAt arg 1 = 'c'))
    ∧ (selector arg = some CL_DEVICE_TYPE_GPU ↔ (charAt arg 0 = '-' ∧ charAt arg 1 = 'g'))
    ∧ selector arg ≠ some CL_DEVICE_TYPE_DEFAULT
    ∧ (selector "-gpu" = some CL_DEVICE_TYPE_GPU ∧ selector "-g" = some CL_DEVICE_TYPE_GPU)
    ∧ selector "-debug" = none
    ∧ ((charAt arg 0 ≠ '-' ∨ arg = "-debug" ∨
          (charAt arg 1 ≠ 'a' ∧ charAt arg 1 ≠ 'c' ∧ charAt arg 1 ≠ 'g')) →
        ((saxpy.parseArgs (arg :: rest) devType).run w).1 =
          ((saxpy.parseArgs rest devType).run w).1) := by
  have key := switchDevType_eq arg CL_DEVICE_TYPE_DEFAULT
  have hnone := selector_eq_none_iff arg
  rw [SimpleOpenCL_parseArgs_run, saxpy_parseArgs_run, matrixMultiplyV1_parseArgs_run,
    saxpy_parseArgs_run, saxpy_parseArgs_run, selected_cons]
  refine ⟨rfl, rfl, rfl, ?_, ?_, ?_, ?_, by decide, by decide, ?_⟩
  · unfold switchDevType at key
    constructor
    · intro h
      rw [h] at key
      by_cases h0 : charAt arg 0 = '-'
      · refine ⟨h0, ?_⟩
        by_contra ha
        rw [if_pos h0, if_neg ha] at key
        split_ifs at key <;> simp at key
      · rw [if_neg h0] at key
        simp at key
    · rintro ⟨h0, ha⟩
      rw [if_pos h0, if_pos ha] at key
      cases hs : selector arg with
      | none => exact absurd (hnone.1 hs) (by simp [h0, ha])
      | some u => rw [hs] at key; simp at key; rw [key]
  · unfold switchDevType at key
    constructor
    · intro h
      rw [h] at key
      by_cases h0 : charAt arg 0 = '-'
      · refine ⟨h0, ?_⟩
        by_contra hc
        rw [if_pos h0] at key
        split_ifs at key <;> simp at key
      · rw [if_neg h0] at key
        simp at key
    · rintro ⟨h0, hc⟩
      have ha : charAt arg 1 ≠ 'a' := by rw [hc]; decide
      rw [if_pos h0, if_neg ha, if_pos hc] at key
      cases hs : selector arg with
      | none => exact absurd (hnone.1 hs) (by simp [h0, hc])
      | some u => rw [hs] at key; simp at key; rw [key]
  · unfold switchDevType at key
    constructor
    · intro h
      rw [h] at key
      by_cases h0 : charAt arg 0 = '-'
      · refine ⟨h0, ?_⟩
        by_contra hg
        rw [if_pos h0] at key
        split_ifs at key <;> simp at key
      · rw [if_neg h0] at key
        simp at key
    · rintro ⟨h0, hg⟩
      have ha : charAt arg 1 ≠ 'a' := by rw [hg]; decide
      have hc : charAt arg 1 ≠ 'c' := by rw [hg]; decide
      rw [if_pos h0, if_neg ha, if_neg hc, if_pos hg] at key
      cases hs : selector arg with
      | none => exact absurd (hnone.1 hs) (by simp [h0, hg])
      | some u => rw [hs] at key; simp at key; rw [key]
  · unfold selector
    split <;> simp
  · intro h
    have hn : selector arg = none := by
      rcases h with h | h | h
      · exact hnone.2 (fun hh => h hh.1)
      · rw [h]; decide
      · exact hnone.2 (fun hh => by rcases hh.2 with x | x | x <;> simp_all)
    rw [hn]
    simp

/-- C8: after the argument loop `debug` is true if and only if some argument
is exactly `-debug` (a shorter or longer spelling does not set it, and once
set it stays set); and with `debug` true every `checkStatus` call prints its
`Step <label>, status = <status>` line, also for status 0, where it returns
instead of ending the process. -/
theorem debug_flag (args : List String) (devType : cl_device_type) (N : Nat) (input : List Int)
    (w : World) (loc : String) (status : Int) (abortOnError : Bool) :
    (((saxpy.parseArgs args devType).run (World.initial input)).2.debug = true ↔
        "-debug" ∈ args)
    ∧ (((SimpleOpenCL.parseArgs args devType).run (World.initial input)).2.debug = true ↔
        "-debug" ∈ args)
    ∧ (((matrixMultiplyV1.parseArgs args (devType, N)).run (World.initial input)).2.debug = true ↔
        "-debug" ∈ args)
    ∧ ((saxpy.parseArgs args devType).run w).2 =
        { w with debug := w.debug || decide ("-debug" ∈ args) }
    ∧ ((saxpy.parseArgs ["-debu", "-debugging", "debug", "-d", "--debug"] devType).run
        (World.initial input)).2.debug = false
    ∧ (saxpy.checkStatus loc 0 abortOnError).run { w with debug := true } =
        (Outcome.returned (),
         { w with debug := true, stdout := w.stdout ++ ["Step " ++ loc ++ ", status = " ++ toString (0 : Int) ++ "\n"] })
    ∧ ((saxpy.checkStatus loc status abortOnError).run { w with debug := true }).2.stdout =
        w.stdout ++ ["Step " ++ loc ++ ", status = " ++ toString status ++ "\n"] := by
  rw [saxpy_parseArgs_run, SimpleOpenCL_parseArgs_run, matrixMultiplyV1_parseArgs_run,
    saxpy_parseArgs_run, saxpy_parseArgs_run, saxpy_checkStatus_run, saxpy_checkStatus_run]
  refine ⟨?_, ?_, ?_, rfl, ?_, ?_, ?_⟩
  · simp [World.initial]
  · simp [World.initial]
  · simp [World.initial]
  · simp [World.initial]
  · simp [stepLine]
  · simp [stepLine]


/-- C9: return contract of `typicalOpenCLProlog` in saxpy ("Return value is
device index to use; -1 ==> no available devices"). When the four discovery
calls return status 0, then for every platform count, device count and input
on which it returns, the result is -1 if and only if the platform count or the
device count is 0; any other result `r` satisfies `0 <= r < numDevices`, so
`devices[r]` in `main` is an access inside the array. For a device count an
`int` can hold, it returns exactly when no menu is needed or the input
reaches, after rejected values an `int` can hold, a value that is acceptable;
a value outside `int` before that makes every extraction fail and the menu
never ends. -/
theorem saxpy_prolog_contract (d : Driver) (t : cl_device_type) (w : World)
    (h0 : d.status "clGetPlatformIDs-0" = 0) (h1 : d.status "clGetPlatformIDs-1" = 0)
    (h2 : d.status "clGetDeviceIDs-0" = 0) (h3 : d.status "clGetDeviceIDs-1" = 0) :
    (∀ r : Int, ((saxpy.typicalOpenCLProlog d t).run w).1 = Outcome.returned r →
        (r = -1 ↔ (d.numPlatforms = 0 ∨ d.numDevices = 0))
        ∧ (r ≠ -1 → 0 ≤ r ∧ r < d.numDevices
            ∧ (readDevices r).run ((saxpy.typicalOpenCLProlog d t).run w).2 =
                (Outcome.returned r.toNat, ((saxpy.typicalOpenCLProlog d t).run w).2)))
    ∧ ((d.numDevices : Int) ≤ INT_MAX →
        ((∃ r : Int, ((saxpy.typicalOpenCLProlog d t).run w).1 = Outcome.returned r) ↔
          (d.numPlatforms = 0 ∨ d.numDevices ≤ 1 ∨
            ∃ (pre : List Int) (v : Int) (rest : List Int),
              w.stdin = pre ++ v :: rest
              ∧ (∀ x ∈ pre, (x < 0 ∨ x ≥ (d.numDevices : Int)) ∧ INT_MIN ≤ x ∧ x ≤ INT_MAX)
              ∧ 0 ≤ v ∧ v < (d.numDevices : Int)))) := by
  obtain ⟨hres, hret⟩ := saxpy_prolog_results d t w h0 h1 h2 h3
  refine ⟨fun r hr => hres r _ (Prod.ext hr rfl), fun hmax => ?_⟩
  constructor
  · rintro ⟨r, hr⟩
    rcases hret.1 ⟨r, _, Prod.ext hr rfl⟩ with hp | hd | ⟨pre, v, rest, hs, hpre, hv⟩
    · exact Or.inl hp
    · exact Or.inr (Or.inl hd)
    · rcases hv with ⟨a, b, -⟩ | ⟨-, b⟩
      · exact Or.inr (Or.inr ⟨pre, v, rest, hs, hpre, a, b⟩)
      · omega
  · intro h
    have h' : ∃ (r : Int) (w' : World),
        (saxpy.typicalOpenCLProlog d t).run w = (Outcome.returned r, w') := by
      apply hret.2
      rcases h with hp | hd | ⟨pre, v, rest, hs, hpre, a, b⟩
      · exact Or.inl hp
      · exact Or.inr (Or.inl hd)
      · exact Or.inr (Or.inr ⟨pre, v, rest, hs, hpre, Or.inl ⟨a, b, by omega⟩⟩)
    obtain ⟨r, w', hr⟩ := h'
    exact ⟨r, congrArg Prod.fst hr⟩

/-- The prolog of saxpy on one platform with three devices and the input
7, -1, 2: the values 7 and -1 are rejected, 2 is returned. -/
theorem threeDevices_returns :
    ((saxpy.typicalOpenCLProlog threeDevices cl_device_type.CL_DEVICE_TYPE_DEFAULT).run
      (World.initial [7, -1, 2])).1 = Outcome.returned 2 :=
  (congrArg Prod.fst
    (saxpy_prolog_menu threeDevices cl_device_type.CL_DEVICE_TYPE_DEFAULT
      (World.initial [7, -1, 2]) rfl rfl rfl rfl (by decide) (by decide))).trans
  (congrArg Prod.fst (whichDevice_accepts true threeDevices.numDevices [7, -1] [] 2 (-1)
    (saxpy.menuState threeDevices (World.initial [7, -1, 2])) rfl (Or.inl (by decide))
    (by decide) (by decide) (by decide)))

/-- The prolog of saxpy on one platform with three devices and the input
2147483648, 1: the first number is above `INT_MAX`, the extraction fails and
the menu never ends. -/
theorem threeDevices_overflow :
    ((saxpy.typicalOpenCLProlog threeDevices cl_device_type.CL_DEVICE_TYPE_DEFAULT).run
      (World.initial [2147483648, 1])).1 = Outcome.hangs :=
  (congrArg Prod.fst
    (saxpy_prolog_menu threeDevices cl_device_type.CL_DEVICE_TYPE_DEFAULT
      (World.initial [2147483648, 1]) rfl rfl rfl rfl (by decide) (by decide))).trans
  ((whichDevice_fails true threeDevices.numDevices [] [1] 2147483648 (-1)
    (saxpy.menuState threeDevices (World.initial [2147483648, 1])) rfl (Or.inl (by decide))
    (by decide) (by decide)).1.trans (if_neg (by decide)))

/-- C9 on one platform with three devices and the input 7, -1, 2: the prolog
returns 2, which is not -1 and lies inside the device array. On the input
2147483648, 1 it does not return. -/
theorem saxpy_prolog_contract_witness :
    (threeDevices.status "clGetPlatformIDs-0" = 0 ∧ threeDevices.status "clGetPlatformIDs-1" = 0
      ∧ threeDevices.status "clGetDeviceIDs-0" = 0 ∧ threeDevices.status "clGetDeviceIDs-1" = 0)
    ∧ ((saxpy.typicalOpenCLProlog threeDevices cl_device_type.CL_DEVICE_TYPE_DEFAULT).run
        (World.initial [7, -1, 2])).1 = Outcome.returned 2
    ∧ (((2 : Int) = -1 ↔ (threeDevices.numPlatforms = 0 ∨ threeDevices.numDevices = 0))
        ∧ ((2 : Int) ≠ -1 → 0 ≤ (2 : Int) ∧ (2 : Int) < threeDevices.numDevices
            ∧ (readDevices 2).run
                ((saxpy.typicalOpenCLProlog threeDevices cl_device_type.CL_DEVICE_TYPE_DEFAULT).run
                  (World.initial [7, -1, 2])).2 =
              (Outcome.returned (2 : Int).toNat,
                ((saxpy.typicalOpenCLProlog threeDevices cl_device_type.CL_DEVICE_TYPE_DEFAULT).run
                  (World.initial [7, -1, 2])).2)))
    ∧ ((saxpy.typicalOpenCLProlog threeDevices cl_device_type.CL_DEVICE_TYPE_DEFAULT).run
        (World.initial [2147483648, 1])).1 = Outcome.hangs :=
  ⟨⟨rfl, rfl, rfl, rfl⟩, threeDevices_returns,
    (saxpy_prolog_contract threeDevices cl_device_type.CL_DEVICE_TYPE_DEFAULT
      (World.initial [7, -1, 2]) rfl rfl rfl rfl).1 2 threeDevices_returns,
    threeDevices_overflow⟩

/-- C10: interactive device selection in `typicalOpenCLProlog` of saxpy over
the integers read from standard input, which are values an `int` can hold.
When the discovery succeeds and more than one device is reported, in a number
an `int` can hold (the loop that lists the devices counts them in an `int`),
the index returned is the first value `v` of the input with
`0 <= v < numDevices`; every earlier value is rejected and followed by another
prompt, so the prompts printed are the rejected values plus one; the input
after `v` is left unread. With at most one device standard input is not read
at all. A number outside `int` is not such a value: the extraction fails on
it, and with it in place of `v` the menu never ends. -/
theorem saxpy_device_menu (d : Driver) (t : cl_device_type) (w : World) (pre rest : List Int)
    (v : Int) :
    (d.status "clGetPlatformIDs-0" = 0 → d.status "clGetPlatformIDs-1" = 0 →
      d.status "clGetDeviceIDs-0" = 0 → d.status "clGetDeviceIDs-1" = 0 →
      1 ≤ d.numPlatforms → 1 < d.numDevices → (d.numDevices : Int) ≤ INT_MAX →
      w.stdin = pre ++ v :: rest →
      (∀ x ∈ pre, (x < 0 ∨ x ≥ (d.numDevices : Int)) ∧ INT_MIN ≤ x ∧ x ≤ INT_MAX) →
      (0 ≤ v ∧ v < (d.numDevices : Int)) →
        ((saxpy.typicalOpenCLProlog d t).run w).1 = Outcome.returned v
        ∧ ((saxpy.typicalOpenCLProlog d t).run w).2.stdin = rest
        ∧ ((saxpy.typicalOpenCLProlog d t).run w).2.stdout =
            (saxpy.menuState d w).stdout ++ List.replicate (pre.length + 1) prompt
        ∧ ((saxpy.typicalOpenCLProlog d t).run w).2.stdout.count prompt =
            w.stdout.count prompt + (pre.length + 1))
    ∧ (d.numDevices ≤ 1 → ((saxpy.typicalOpenCLProlog d t).run w).2.stdin = w.stdin)
    ∧ (d.status "clGetPlatformIDs-0" = 0 → d.status "clGetPlatformIDs-1" = 0 →
      d.status "clGetDeviceIDs-0" = 0 → d.status "clGetDeviceIDs-1" = 0 →
      1 ≤ d.numPlatforms → 1 < d.numDevices → (d.numDevices : Int) ≤ INT_MAX →
      w.stdin = pre ++ v :: rest →
      (∀ x ∈ pre, (x < 0 ∨ x ≥ (d.numDevices : Int)) ∧ INT_MIN ≤ x ∧ x ≤ INT_MAX) →
      (v < INT_MIN ∨ INT_MAX < v) →
        ((saxpy.typicalOpenCLProlog d t).run w).1 = Outcome.hangs) := by
  refine ⟨?_, saxpy_prolog_stdin d t w, ?_⟩
  · intro h0 h1 h2 h3 hp hd hdmax hsplit hpre hv
    have hmax : v ≤ INT_MAX := by omega
    rw [saxpy_prolog_menu d t w h0 h1 h2 h3 hp hd, hsplit,
      whichDevice_accepts true d.numDevices pre rest v (-1) (saxpy.menuState d w) hsplit
        (Or.inl (by norm_num)) hpre hv hmax]
    refine ⟨rfl, rfl, rfl, ?_⟩
    simp only [List.count_append, count_menuState, List.count_replicate_self]
  · intro h0 h1 h2 h3 hp hd hdmax hsplit hpre hv
    rw [saxpy_prolog_menu d t w h0 h1 h2 h3 hp hd, hsplit,
      (whichDevice_fails true d.numDevices pre rest v (-1) (saxpy.menuState d w) hsplit
        (Or.inl (by norm_num)) hpre hv).1]
    rw [if_neg]
    intro hc
    omega

/-- C10 on one platform with three devices and the input 7, -1, 2, 0: the
values 7 and -1 are rejected, 2 is returned after three prompts, 0 is left
unread. On the input 99999999999, 1 the first number is outside `int` and the
menu never ends. -/
theorem saxpy_device_menu_witness :
    (((saxpy.typicalOpenCLProlog threeDevices cl_device_type.CL_DEVICE_TYPE_DEFAULT).run
        (World.initial [7, -1, 2, 0])).1 = Outcome.returned 2
    ∧ ((saxpy.typicalOpenCLProlog threeDevices cl_device_type.CL_DEVICE_TYPE_DEFAULT).run
        (World.initial [7, -1, 2, 0])).2.stdin = [0]
    ∧ ((saxpy.typicalOpenCLProlog threeDevices cl_device_type.CL_DEVICE_TYPE_DEFAULT).run
        (World.initial [7, -1, 2, 0])).2.stdout =
          (saxpy.menuState threeDevices (World.initial [7, -1, 2, 0])).stdout ++
            List.replicate ([7, -1].length + 1) prompt
    ∧ List.count prompt
        ((saxpy.typicalOpenCLProlog threeDevices cl_device_type.CL_DEVICE_TYPE_DEFAULT).run
          (World.initial [7, -1, 2, 0])).2.stdout =
        List.count prompt (World.initial [7, -1, 2, 0]).stdout + ([7, -1].length + 1))
    ∧ ((saxpy.typicalOpenCLProlog threeDevices cl_device_type.CL_DEVICE_TYPE_DEFAULT).run
        (World.initial [99999999999, 1])).1 = Outcome.hangs :=
  ⟨(saxpy_device_menu threeDevices cl_device_type.CL_DEVICE_TYPE_DEFAULT
    (World.initial [7, -1, 2, 0]) [7, -1] [0] 2).1 rfl rfl rfl rfl (by decide) (by decide)
    (by decide) rfl (by decide) (by decide),
   (saxpy_device_menu threeDevices cl_device_type.CL_DEVICE_TYPE_DEFAULT
    (World.initial [99999999999, 1]) [] [1] 99999999999).2.2 rfl rfl rfl rfl (by decide)
    (by decide) (by decide) rfl (by decide) (by decide)⟩

/-- C11: double-precision device filtering in `typicalOpenCLProlog` of
`matrixMultiplyV1.c++`. For every driver (device count, extension strings,
statuses) and every input on which the prolog returns a value `r`: `r` is -1
if and only if no device was reported or no extension string contains
`cl_khr_fp64`; a result `r >= 0` lies below `numDevices` and the extension
string of `devices[r]` contains `cl_khr_fp64`; and when the menu is shown
(two candidates or more) the input is some rejected values, then a menu number
`k`, and `r` is the entry `k` of the candidate list, which is the list of the
double-capable device indices in device order; the input after `k` is left
unread. -/
theorem matrixMultiplyV1_prolog_contract (d : Driver) (t : cl_device_type) (w : World) :
    (∀ r : Int, ((matrixMultiplyV1.typicalOpenCLProlog d t).run w).1 = Outcome.returned r →
        (r = -1 ↔
          (d.numDevices = 0 ∨ ∀ idx, idx < d.numDevices → ¬ matrixMultiplyV1.hasDouble d idx))
        ∧ (0 ≤ r → r < d.numDevices ∧ matrixMultiplyV1.hasDouble d r.toNat)
        ∧ (2 ≤ (matrixMultiplyV1.candidates d).length →
            ∃ (pre : List Int) (k : Nat) (rest : List Int),
              w.stdin = pre ++ (k : Int) :: rest
              ∧ (∀ x ∈ pre, x < 0 ∨ x ≥ ((matrixMultiplyV1.candidates d).length : Int))
              ∧ k < (matrixMultiplyV1.candidates d).length
              ∧ r = (((matrixMultiplyV1.candidates d).getD k 0 : Nat) : Int)
              ∧ ((matrixMultiplyV1.typicalOpenCLProlog d t).run w).2.stdin = rest))
    ∧ matrixMultiplyV1.candidates d =
        (List.range d.numDevices).filter (fun idx => decide (matrixMultiplyV1.hasDouble d idx)) := by
  refine ⟨fun r hr => ?_, candidates_eq_filter d⟩
  have hmem : ∀ p ∈ matrixMultiplyV1.candidates d,
      ((p : Int) = -1 ↔
          (d.numDevices = 0 ∨ ∀ idx, idx < d.numDevices → ¬ matrixMultiplyV1.hasDouble d idx))
        ∧ (0 ≤ (p : Int) → (p : Int) < d.numDevices
            ∧ matrixMultiplyV1.hasDouble d (p : Int).toNat) := by
    intro p hp
    obtain ⟨hlt, hdbl⟩ := (mem_candidates d p).1 hp
    refine ⟨⟨fun h => by omega, ?_⟩, fun _ => ⟨by exact_mod_cast hlt, by simpa using hdbl⟩⟩
    rintro (h | h)
    · omega
    · exact absurd hdbl (h p hlt)
  rcases matrixMultiplyV1_prolog_results d t w r hr with
    ⟨hd, rfl⟩ | ⟨hc, rfl⟩ | ⟨p, hc, rfl, _⟩ | ⟨hlen, pre, k, rest, hw, hpre, hk, rfl, hrest⟩
  · refine ⟨⟨fun _ => Or.inl hd, fun _ => rfl⟩, fun h => absurd h (by decide), ?_⟩
    intro hlen
    have : matrixMultiplyV1.candidates d = [] := by
      simp [matrixMultiplyV1.candidates, hd]
    rw [this] at hlen
    simp at hlen
  · refine ⟨⟨fun _ => Or.inr ((candidates_eq_nil_iff d).1 hc), fun _ => rfl⟩,
      fun h => absurd h (by decide), ?_⟩
    intro hlen
    rw [hc] at hlen
    simp at hlen
  · obtain ⟨e1, e2⟩ := hmem p (by simp [hc])
    refine ⟨e1, e2, ?_⟩
    intro hlen
    rw [hc] at hlen
    simp at hlen
  · have hin : (matrixMultiplyV1.candidates d).getD k 0 ∈ matrixMultiplyV1.candidates d := by
      rw [List.getD_eq_getElem?_getD, List.getElem?_eq_getElem hk]
      exact List.getElem_mem _
    obtain ⟨e1, e2⟩ := hmem _ hin
    exact ⟨e1, e2, fun _ => ⟨pre, k, rest, hw, hpre, hk, rfl, hrest⟩⟩

/-- C11 on three devices of which the second and the third are
double-capable, with the input 5, 1: the prolog returns 2, the index in
`devices` of candidate number 1. -/
theorem matrixMultiplyV1_prolog_contract_witness :
    ((matrixMultiplyV1.typicalOpenCLProlog twoDoubles cl_device_type.CL_DEVICE_TYPE_DEFAULT).run
      (World.initial [5, 1])).1 = Outcome.returned 2
    ∧ (((2 : Int) = -1 ↔
          (twoDoubles.numDevices = 0 ∨
            ∀ idx, idx < twoDoubles.numDevices → ¬ matrixMultiplyV1.hasDouble twoDoubles idx))
        ∧ (0 ≤ (2 : Int) → (2 : Int) < twoDoubles.numDevices
            ∧ matrixMultiplyV1.hasDouble twoDoubles (2 : Int).toNat)
        ∧ (2 ≤ (matrixMultiplyV1.candidates twoDoubles).length →
            ∃ (pre : List Int) (k : Nat) (rest : List Int),
              (World.initial [5, 1]).stdin = pre ++ (k : Int) :: rest
              ∧ (∀ x ∈ pre, x < 0 ∨ x ≥ ((matrixMultiplyV1.candidates twoDoubles).length : Int))
              ∧ k < (matrixMultiplyV1.candidates twoDoubles).length
              ∧ (2 : Int) = (((matrixMultiplyV1.candidates twoDoubles).getD k 0 : Nat) : Int)
              ∧ ((matrixMultiplyV1.typicalOpenCLProlog twoDoubles
                    cl_device_type.CL_DEVICE_TYPE_DEFAULT).run
                  (World.initial [5, 1])).2.stdin = rest)) :=
  ⟨twoDoubles_returns,
    (matrixMultiplyV1_prolog_contract twoDoubles cl_device_type.CL_DEVICE_TYPE_DEFAULT
      (World.initial [5, 1])).1 2 twoDoubles_returns⟩

/-- C12 (amended): the single-candidate default in `typicalOpenCLProlog` of
`matrixMultiplyV1.c++`. When the discovery succeeds and exactly one device of
the requested category supports double precision, the prolog reads nothing
from standard input and returns `possibleDevs[0]`, the index in `devices` of
that one candidate. -/
theorem single_candidate_default (d : Driver) (t : cl_device_type) (w : World) (p : Nat)
    (h0 : d.status "clGetPlatformIDs-0" = 0) (h1 : d.status "clGetPlatformIDs-1" = 0)
    (h2 : d.status "clGetDeviceIDs-0" = 0) (h3 : d.status "clGetDeviceIDs-1" = 0)
    (hp : 1 ≤ d.numPlatforms) (hc : matrixMultiplyV1.candidates d = [p]) :
    ((matrixMultiplyV1.typicalOpenCLProlog d t).run w).1 = Outcome.returned (p : Int)
    ∧ ((matrixMultiplyV1.typicalOpenCLProlog d t).run w).2.stdin = w.stdin
    ∧ p < d.numDevices ∧ matrixMultiplyV1.hasDouble d p :=
  matrixMultiplyV1_prolog_single d t w p h0 h1 h2 h3 hp hc

/-- C12 on two devices of which only the second is double-capable, with the
input 0, 0: the prolog returns 1 and the input is still 0, 0. -/
theorem single_candidate_default_witness :
    (secondIsDouble.status "clGetPlatformIDs-0" = 0
      ∧ secondIsDouble.status "clGetPlatformIDs-1" = 0
      ∧ secondIsDouble.status "clGetDeviceIDs-0" = 0
      ∧ secondIsDouble.status "clGetDeviceIDs-1" = 0
      ∧ 1 ≤ secondIsDouble.numPlatforms ∧ matrixMultiplyV1.candidates secondIsDouble = [1])
    ∧ (((matrixMultiplyV1.typicalOpenCLProlog secondIsDouble
            cl_device_type.CL_DEVICE_TYPE_DEFAULT).run (World.initial [0, 0])).1 =
          Outcome.returned ((1 : Nat) : Int)
      ∧ ((matrixMultiplyV1.typicalOpenCLProlog secondIsDouble
            cl_device_type.CL_DEVICE_TYPE_DEFAULT).run (World.initial [0, 0])).2.stdin =
          (World.initial [0, 0]).stdin
      ∧ 1 < secondIsDouble.numDevices ∧ matrixMultiplyV1.hasDouble secondIsDouble 1) :=
  ⟨⟨rfl, rfl, rfl, rfl, by decide, candidates_secondIsDouble⟩,
    single_candidate_default secondIsDouble cl_device_type.CL_DEVICE_TYPE_DEFAULT
      (World.initial [0, 0]) 1 rfl rfl rfl rfl (by decide) candidates_secondIsDouble⟩

/-- C12 as stated fails: on two devices of which only the second is
double-capable there is exactly one candidate, and the prolog returns device
index 1, not 0. -/
theorem single_candidate_counterexample :
    matrixMultiplyV1.candidates secondIsDouble = [1]
    ∧ ((matrixMultiplyV1.typicalOpenCLProlog secondIsDouble
          cl_device_type.CL_DEVICE_TYPE_DEFAULT).run (World.initial [])).1 = Outcome.returned 1
    ∧ ((matrixMultiplyV1.typicalOpenCLProlog secondIsDouble
          cl_device_type.CL_DEVICE_TYPE_DEFAULT).run (World.initial [])).1 ≠
        Outcome.returned 0 := by
  have h := (matrixMultiplyV1_prolog_single secondIsDouble cl_device_type.CL_DEVICE_TYPE_DEFAULT
    (World.initial []) 1 rfl rfl rfl rfl (by decide) candidates_secondIsDouble).1
  refine ⟨candidates_secondIsDouble, h, ?_⟩
  rw [h]
  intro hne
  have := Outcome.returned.inj hne
  omega

/-- C13: the conditional fetch of the build log in `doTheKernelLaunch` of
`matrixMultiplyV1.c++` and of `saxpy.c++`, for every driver and every state.
When the steps before the build succeed, the calls of the launch are those
steps, `clBuildProgram`, the two `clGetProgramBuildInfo` queries of
`showProgramBuildLog` exactly when the build status is non-zero, then
`clCreateKernel` and a rest without any query for the log; the output holds
the status line of the build followed by the log after a non-zero status, and
only the debug line after status 0. So a failed build does not end the
process at the build step. When a step before the build fails the process
exits with code 1 before the build, and the log is not queried. -/
theorem build_log_fetch (d : Driver) (w : World) (dev : Nat) (A B C : List ℚ) (N : Nat)
    (a : ℚ) (X Y Z : List ℚ) (n : Nat) :
    ((∀ x ∈ matrixMultiplyV1.launchSetup, d.status x = 0) →
      ∃ tail out1 out2 : List String,
        ((matrixMultiplyV1.doTheKernelLaunch d dev A B C N).run w).2.calls =
          w.calls ++ matrixMultiplyV1.launchSetup ++ "clBuildProgram" ::
            (if d.status "clBuildProgram" ≠ 0 then
              ["clGetProgramBuildInfo", "clGetProgramBuildInfo"] else []) ++
            "clCreateKernel" :: tail
        ∧ "clGetProgramBuildInfo" ∉ tail
        ∧ ((matrixMultiplyV1.doTheKernelLaunch d dev A B C N).run w).2.stdout =
          w.stdout ++ out1 ++
            (if d.status "clBuildProgram" ≠ 0 then
              [stepLine "clBuildProgram" (d.status "clBuildProgram"),
               "LOG:\n" ++ d.buildLog ++ "\n\n"]
             else debugLine w.debug "clBuildProgram") ++ out2)
    ∧ ((∃ x ∈ matrixMultiplyV1.launchSetup, d.status x ≠ 0) →
        ((matrixMultiplyV1.doTheKernelLaunch d dev A B C N).run w).1 = Outcome.exited 1
        ∧ ∃ k, ((matrixMultiplyV1.doTheKernelLaunch d dev A B C N).run w).2.calls =
            w.calls ++ matrixMultiplyV1.launchSetup.take k)
    ∧ "clGetProgramBuildInfo" ∉ matrixMultiplyV1.launchSetup
    ∧ ((∀ x ∈ saxpy.launchSetup, d.status x = 0) →
      ∃ tail out1 out2 : List String,
        ((saxpy.doTheKernelLaunch d dev a X Y n Z).run w).2.calls =
          w.calls ++ saxpy.launchSetup ++ "clBuildProgram" ::
            (if d.status "clBuildProgram" ≠ 0 then
              ["clGetProgramBuildInfo", "clGetProgramBuildInfo"] else []) ++
            "clCreateKernel" :: tail
        ∧ "clGetProgramBuildInfo" ∉ tail
        ∧ ((saxpy.doTheKernelLaunch d dev a X Y n Z).run w).2.stdout =
          w.stdout ++ out1 ++
            (if d.status "clBuildProgram" ≠ 0 then
              [stepLine "clBuildProgram" (d.status "clBuildProgram"),
               "LOG:\n" ++ d.buildLog ++ "\n\n"]
             else debugLine w.debug "clBuildProgram") ++ out2)
    ∧ ((∃ x ∈ saxpy.launchSetup, d.status x ≠ 0) →
        ((saxpy.doTheKernelLaunch d dev a X Y n Z).run w).1 = Outcome.exited 1
        ∧ ∃ k, ((saxpy.doTheKernelLaunch d dev a X Y n Z).run w).2.calls =
            w.calls ++ saxpy.launchSetup.take k)
    ∧ "clGetProgramBuildInfo" ∉ saxpy.launchSetup :=
  ⟨matrixMultiplyV1_launch_build d dev A B C N w,
    matrixMultiplyV1_launch_setup_fails d dev A B C N w, by decide,
    saxpy_launch_build d dev a X Y n Z w, saxpy_launch_setup_fails d dev a X Y n Z w, by decide⟩

/-- C13 on a driver whose build returns -11 and whose other calls succeed: the
launch of the matrix-multiply example issues the two queries for the log after
`clBuildProgram` and goes on to `clCreateKernel`. -/
theorem build_log_fetch_witness :
    (∀ x ∈ matrixMultiplyV1.launchSetup, buildFails.status x = 0)
    ∧ (∃ tail out1 out2 : List String,
        ((matrixMultiplyV1.doTheKernelLaunch buildFails 0 [] [] [] 0).run (World.initial [])).2.calls =
          (World.initial []).calls ++ matrixMultiplyV1.launchSetup ++ "clBuildProgram" ::
            (if buildFails.status "clBuildProgram" ≠ 0 then
              ["clGetProgramBuildInfo", "clGetProgramBuildInfo"] else []) ++
            "clCreateKernel" :: tail
        ∧ "clGetProgramBuildInfo" ∉ tail
        ∧ ((matrixMultiplyV1.doTheKernelLaunch buildFails 0 [] [] [] 0).run (World.initial [])).2.stdout =
          (World.initial []).stdout ++ out1 ++
            (if buildFails.status "clBuildProgram" ≠ 0 then
              [stepLine "clBuildProgram" (buildFails.status "clBuildProgram"),
               "LOG:\n" ++ buildFails.buildLog ++ "\n\n"]
             else debugLine (World.initial []).debug "clBuildProgram") ++ out2) :=
  ⟨by decide,
    (build_log_fetch buildFails (World.initial []) 0 [] [] [] 0 0 [] [] [] 0).1 (by decide)⟩

/-- C14: zero platforms in `typicalOpenCLProlog` of `matrixMultiplyV1.c++`.
When the two calls of `clGetPlatformIDs` return status 0 and report no
platform, the prolog does not return -1: it allocates `platforms` with length
zero and reads `platforms[0]`, outside the array, right after the second call.
The prolog of `saxpy.c++` tests `numPlatforms <= 0` before that read and
returns -1 on the same driver. -/
theorem zero_platforms_read (d : Driver) (t : cl_device_type) (w : World)
    (h0 : d.status "clGetPlatformIDs-0" = 0) (h1 : d.status "clGetPlatformIDs-1" = 0)
    (hp : d.numPlatforms = 0) :
    ((matrixMultiplyV1.typicalOpenCLProlog d t).run w).1 = Outcome.undefinedBehaviour
    ∧ ((matrixMultiplyV1.typicalOpenCLProlog d t).run w).2.platforms = some 0
    ∧ ((matrixMultiplyV1.typicalOpenCLProlog d t).run w).2.calls =
        w.calls ++ ["clGetPlatformIDs-0", "clGetPlatformIDs-1"]
    ∧ ((saxpy.typicalOpenCLProlog d t).run w).1 = Outcome.returned (-1) := by
  rw [matrixMultiplyV1_prolog_noPlatform d t w h0 h1 hp, saxpy_prolog_noPlatform d t w h0 hp]
  exact ⟨rfl, rfl, rfl, rfl⟩

/-- C14 on the driver that reports no platform, started without input. -/
theorem zero_platforms_read_witness :
    (noPlatform.status "clGetPlatformIDs-0" = 0 ∧ noPlatform.status "clGetPlatformIDs-1" = 0
      ∧ noPlatform.numPlatforms = 0)
    ∧ (((matrixMultiplyV1.typicalOpenCLProlog noPlatform
            cl_device_type.CL_DEVICE_TYPE_DEFAULT).run (World.initial [])).1 =
          Outcome.undefinedBehaviour
      ∧ ((matrixMultiplyV1.typicalOpenCLProlog noPlatform
            cl_device_type.CL_DEVICE_TYPE_DEFAULT).run (World.initial [])).2.platforms = some 0
      ∧ ((matrixMultiplyV1.typicalOpenCLProlog noPlatform
            cl_device_type.CL_DEVICE_TYPE_DEFAULT).run (World.initial [])).2.calls =
          (World.initial []).calls ++ ["clGetPlatformIDs-0", "clGetPlatformIDs-1"]
      ∧ ((saxpy.typicalOpenCLProlog noPlatform
            cl_device_type.CL_DEVICE_TYPE_DEFAULT).run (World.initial [])).1 =
          Outcome.returned (-1)) :=
  ⟨⟨rfl, rfl, rfl⟩,
    zero_platforms_read noPlatform cl_device_type.CL_DEVICE_TYPE_DEFAULT (World.initial [])
      rfl rfl rfl⟩

/-- C19: the three copies of the argument loop agree. For every argument list,
every starting device type and every state, the loops of `SimpleOpenCL.c++` and
`saxpy.c++` run to the same result and state; the loop of
`matrixMultiplyV1.c++` returns the same device type and leaves the same state,
so the same debug flag, and its extra branch only sets `N` to the integer
value of the last argument that does not start with `-` (the starting `N`
without one). The device type is the choice of the last selecting argument,
the debug flag is set exactly by an argument `-debug`. -/
theorem parsers_agree (args : List String) (devType : cl_device_type) (N : Nat) (w : World) :
    (SimpleOpenCL.parseArgs args devType).run w = (saxpy.parseArgs args devType).run w
    ∧ (matrixMultiplyV1.parseArgs args (devType, N)).run w =
        (Outcome.returned (selected args devType, sizeArg args N),
         ((saxpy.parseArgs args devType).run w).2)
    ∧ ((saxpy.parseArgs args devType).run w).1 = Outcome.returned (selected args devType)
    ∧ ((saxpy.parseArgs args devType).run w).2 =
        { w with debug := w.debug || decide ("-debug" ∈ args) } := by
  rw [SimpleOpenCL_parseArgs_run, saxpy_parseArgs_run, matrixMultiplyV1_parseArgs_run]
  exact ⟨rfl, rfl, rfl, rfl⟩

/-- C20: the narrowing of the size argument. The count is a `size_t` whose
first `sizeof(int)` = 4 bytes are bound to the kernel; with the object as 8
bytes, least significant first, and the kernel argument a 32-bit
two's-complement `int`, the kernel receives `n mod 2^32` read as a signed
number: `n` itself for every `n < 2^31`, as for the count 20 of saxpy and the
default `N = 20`, and a value different from `n` for every `n >= 2^31`. -/
theorem size_argument_narrowing (n : Nat) :
    (clSetKernelArg_n n =
      if n % 2 ^ 32 < 2 ^ 31 then ((n % 2 ^ 32 : Nat) : Int)
      else ((n % 2 ^ 32 : Nat) : Int) - 2 ^ 32)
    ∧ (n < 2 ^ 31 → clSetKernelArg_n n = (n : Int))
    ∧ (2 ^ 31 ≤ n → clSetKernelArg_n n ≠ (n : Int))
    ∧ clSetKernelArg_n 20 = 20
    ∧ clSetKernelArg_n 2147483648 = -2147483648
    ∧ (sizeTBytes n).length = 8 ∧ sizeofInt = 4 := by
  refine ⟨clSetKernelArg_n_eq n, ?_, ?_, ?_, ?_, by simp [sizeTBytes], rfl⟩
  rotate_right
  · rw [clSetKernelArg_n_eq]
    norm_num
  · intro h
    rw [clSetKernelArg_n_eq]
    split_ifs <;> omega
  · intro h
    rw [clSetKernelArg_n_eq]
    split_ifs <;> omega
  · rw [clSetKernelArg_n_eq]
    norm_num

/-- C17: work-size divisibility in `main` of `HelloOpenCL.c++`. For every
dimension count 1, 2 or 3 the global extent is 64, 32, 32, the local extent is
32, 8, 4 for one dimension, 16, 16, 4 for two and 8, 8, 4 for three, and in
every used dimension `j` the local extent is positive and divides the global
one. -/
theorem work_size_divisibility (numDims : Int) (j : Nat) (h1 : 1 ≤ numDims) (h3 : numDims ≤ 3)
    (hj : (j : Int) < numDims) :
    HelloOpenCL.globalWorkSize = [64, 32, 32]
    ∧ HelloOpenCL.localWorkSize numDims =
        (if numDims = 1 then [32, 8, 4] else if numDims = 2 then [16, 16, 4] else [8, 8, 4])
    ∧ ∃ g l : Nat, HelloOpenCL.globalWorkSize[j]? = some g
        ∧ (HelloOpenCL.localWorkSize numDims)[j]? = some l ∧ 0 < l ∧ g % l = 0 := by
  obtain rfl | rfl | rfl : numDims = 1 ∨ numDims = 2 ∨ numDims = 3 := by omega
  · obtain rfl : j = 0 := by omega
    exact ⟨rfl, rfl, 64, 32, rfl, rfl, by decide, by decide⟩
  · obtain rfl | rfl : j = 0 ∨ j = 1 := by omega
    · exact ⟨rfl, rfl, 64, 16, rfl, rfl, by decide, by decide⟩
    · exact ⟨rfl, rfl, 32, 16, rfl, rfl, by decide, by decide⟩
  · obtain rfl | rfl | rfl : j = 0 ∨ j = 1 ∨ j = 2 := by omega
    · exact ⟨rfl, rfl, 64, 8, rfl, rfl, by decide, by decide⟩
    · exact ⟨rfl, rfl, 32, 8, rfl, rfl, by decide, by decide⟩
    · exact ⟨rfl, rfl, 32, 4, rfl, rfl, by decide, by decide⟩

/-- C17 for two dimensions, in the second of them: 32 is a multiple of 16. -/
theorem work_size_divisibility_witness :
    ((1 : Int) ≤ 2 ∧ (2 : Int) ≤ 3 ∧ ((1 : Nat) : Int) < 2)
    ∧ (HelloOpenCL.globalWorkSize = [64, 32, 32]
      ∧ HelloOpenCL.localWorkSize 2 =
          (if (2 : Int) = 1 then [32, 8, 4] else if (2 : Int) = 2 then [16, 16, 4] else [8, 8, 4])
      ∧ ∃ g l : Nat, HelloOpenCL.globalWorkSize[1]? = some g
          ∧ (HelloOpenCL.localWorkSize 2)[1]? = some l ∧ 0 < l ∧ g % l = 0) :=
  ⟨⟨by decide, by decide, by decide⟩,
    work_size_divisibility 2 1 (by decide) (by decide) (by decide)⟩

/-- C18 (amended): the work dimensionality in `main` of `HelloOpenCL.c++`. The
dimension count is 1 without an argument and otherwise the integer value
`atoi` gives the first argument, whatever it is: it lies between 1 and 3
exactly when no argument is given or that value is 1, 2 or 3. `main` does not
test it: when every checked call succeeds on a platform with a device, `main`
returns 0 and has passed that count to `clEnqueueNDRangeKernel`. -/
theorem work_dim_unvalidated (d : Driver) (args : List String) (w : World) :
    ((1 ≤ HelloOpenCL.numDimsToUse args ∧ HelloOpenCL.numDimsToUse args ≤ 3) ↔
        (args = [] ∨ ∃ (arg : String) (rest : List String),
          args = arg :: rest ∧ 1 ≤ atoi arg ∧ atoi arg ≤ 3))
    ∧ (args = [] → HelloOpenCL.numDimsToUse args = 1)
    ∧ (∀ (arg : String) (rest : List String), args = arg :: rest →
        HelloOpenCL.numDimsToUse args = atoi arg)
    ∧ ((∀ x ∈ ["clGetPlatformIDs-0", "clGetPlatformIDs-1", "clGetDeviceIDs-0",
          "clGetDeviceIDs-1", "clCreateContext", "clCreateCommandQueue",
          "clCreateProgramWithSource", "clBuildProgram", "clEnqueueNDRangeKernel"],
          d.status x = 0) →
        1 ≤ d.numPlatforms → 1 ≤ d.numDevices →
        ((HelloOpenCL.main d args).run w).1 = Outcome.returned 0
        ∧ HelloOpenCL.enqueueEntry (HelloOpenCL.numDimsToUse args) HelloOpenCL.globalWorkSize
            (HelloOpenCL.localWorkSize (HelloOpenCL.numDimsToUse args)) ∈
              ((HelloOpenCL.main d args).run w).2.calls) := by
  refine ⟨?_, ?_, ?_, HelloOpenCL_main_enqueues d args w⟩
  · cases args with
    | nil => simp [HelloOpenCL.numDimsToUse]
    | cons arg rest => simp [HelloOpenCL.numDimsToUse]
  · rintro rfl
    rfl
  · rintro arg rest rfl
    rfl

/-- C18 as stated fails: with the first argument `7` the dimension count is 7,
and on a driver whose calls all succeed `main` passes 7 to
`clEnqueueNDRangeKernel`. -/
theorem work_dim_counterexample :
    HelloOpenCL.numDimsToUse ["7"] = 7
    ∧ ¬ (1 ≤ HelloOpenCL.numDimsToUse ["7"] ∧ HelloOpenCL.numDimsToUse ["7"] ≤ 3)
    ∧ HelloOpenCL.enqueueEntry 7 [64, 32, 32] [8, 8, 4] ∈
        ((HelloOpenCL.main oneDevice ["7"]).run (World.initial [])).2.calls := by
  have h7 : HelloOpenCL.numDimsToUse ["7"] = 7 := atoi_seven
  refine ⟨h7, ?_, ?_⟩
  · rw [h7]
    decide
  · have h := (HelloOpenCL_main_enqueues oneDevice ["7"] (World.initial [])
      (fun _ _ => rfl) (by decide) (by decide)).2
    rw [h7] at h
    exact h

/-- C15 (amended): the result check of `main` in `SimpleOpenCL.c++`, in exact
arithmetic. The check compares exactly, without a tolerance: `nDiffs` is the
number of outputs that differ from their reference, `C[2i]` from `cos(A[i])`
and `C[2i+1]` from `sin(B[i])`, however little, so it is 0 if and only if every
output equals its reference, and it never exceeds twice the number of
elements. `maxDiff` is the largest of the differences: every difference is at
most `maxDiff`, which is one of them or 0, so that `maxDiff <= eps` whenever
every output is within `eps >= 0` of its reference. -/
theorem sanity_check_exact {K : Type} [LinearOrderedField K] (cos sin : K → K) (n : Nat)
    (A B C : List K) (eps : K) :
    (SimpleOpenCL.sanityCheck cos sin n A B C).nDiffs =
      (SimpleOpenCL.differences cos sin n A B C).countP (fun x => decide (x ≠ 0))
    ∧ (SimpleOpenCL.sanityCheck cos sin n A B C).maxDiff =
      (SimpleOpenCL.differences cos sin n A B C).foldl max 0
    ∧ (∀ i, i < n →
        |C.getD (2 * i) 0 - cos (A.getD i 0)| ≤ (SimpleOpenCL.sanityCheck cos sin n A B C).maxDiff
        ∧ |C.getD (2 * i + 1) 0 - sin (B.getD i 0)| ≤
            (SimpleOpenCL.sanityCheck cos sin n A B C).maxDiff)
    ∧ ((SimpleOpenCL.sanityCheck cos sin n A B C).maxDiff = 0
        ∨ ∃ i, i < n ∧
          ((SimpleOpenCL.sanityCheck cos sin n A B C).maxDiff =
              |C.getD (2 * i) 0 - cos (A.getD i 0)|
            ∨ (SimpleOpenCL.sanityCheck cos sin n A B C).maxDiff =
              |C.getD (2 * i + 1) 0 - sin (B.getD i 0)|))
    ∧ ((SimpleOpenCL.sanityCheck cos sin n A B C).nDiffs = 0 ↔
      ∀ i, i < n → C.getD (2 * i) 0 = cos (A.getD i 0) ∧ C.getD (2 * i + 1) 0 = sin (B.getD i 0))
    ∧ (SimpleOpenCL.sanityCheck cos sin n A B C).nDiffs ≤ 2 * n
    ∧ (0 ≤ eps →
        (∀ i, i < n → |C.getD (2 * i) 0 - cos (A.getD i 0)| ≤ eps
          ∧ |C.getD (2 * i + 1) 0 - sin (B.getD i 0)| ≤ eps) →
        (SimpleOpenCL.sanityCheck cos sin n A B C).maxDiff ≤ eps) := by
  obtain ⟨h1, h2⟩ := sanityCheck_fold cos sin A B C n
  unfold SimpleOpenCL.sanityCheck
  rw [h1, h2]
  refine ⟨rfl, rfl, ?_, ?_, ?_, ?_, ?_⟩
  · intro i hi
    obtain ⟨m1, m2⟩ := mem_differences cos sin n A B C i hi
    exact ⟨(le_foldl_max _ 0).2 _ m1, (le_foldl_max _ 0).2 _ m2⟩
  · rcases foldl_max_mem (SimpleOpenCL.differences cos sin n A B C) 0 with h | h
    · exact Or.inl h
    · exact Or.inr (differences_cases cos sin n A B C _ h)
  · rw [List.countP_eq_zero]
    constructor
    · intro h i hi
      obtain ⟨m1, m2⟩ := mem_differences cos sin n A B C i hi
      have a1 := h _ m1
      have a2 := h _ m2
      simp only [ne_eq, decide_not, Bool.not_eq_true', decide_eq_false_iff_not, not_not,
        abs_eq_zero, sub_eq_zero] at a1 a2
      exact ⟨a1, a2⟩
    · intro h x hx
      obtain ⟨i, hi, rfl | rfl⟩ := differences_cases cos sin n A B C x hx
      · rw [(h i hi).1]
        simp
      · rw [(h i hi).2]
        simp
  · refine le_trans (List.countP_le_length _) ?_
    simp [SimpleOpenCL.differences]
  · intro heps hall
    refine foldl_max_le _ 0 eps heps ?_
    intro x hx
    obtain ⟨i, hi, rfl | rfl⟩ := differences_cases cos sin n A B C x hx
    · exact (hall i hi).1
    · exact (hall i hi).2

/-- C15 as stated fails: with angles that are all 0 and the output that equals
its reference everywhere (`cos 0 = 1` in the even cells, `sin 0 = 0` in the odd
ones) except for `C[0] = cos(A[0]) + 0.000001`, over the real numbers with the
library functions `cos` and `sin`, every output is within 1e-5 of its
reference and `nDiffs` is not 0. -/
theorem tolerance_counterexample :
    (∀ i, i < SimpleOpenCL.NUM_ELEMENTS →
      |(nearOutput Real.cos Real.sin (List.replicate SimpleOpenCL.NUM_ELEMENTS 0)
            (List.replicate SimpleOpenCL.NUM_ELEMENTS 0) SimpleOpenCL.NUM_ELEMENTS).getD (2 * i) 0 -
          Real.cos ((List.replicate SimpleOpenCL.NUM_ELEMENTS (0 : ℝ)).getD i 0)| ≤ 1 / 100000
      ∧ |(nearOutput Real.cos Real.sin (List.replicate SimpleOpenCL.NUM_ELEMENTS 0)
            (List.replicate SimpleOpenCL.NUM_ELEMENTS 0) SimpleOpenCL.NUM_ELEMENTS).getD
              (2 * i + 1) 0 -
          Real.sin ((List.replicate SimpleOpenCL.NUM_ELEMENTS (0 : ℝ)).getD i 0)| ≤ 1 / 100000)
    ∧ (SimpleOpenCL.sanityCheck Real.cos Real.sin SimpleOpenCL.NUM_ELEMENTS
        (List.replicate SimpleOpenCL.NUM_ELEMENTS 0) (List.replicate SimpleOpenCL.NUM_ELEMENTS 0)
        (nearOutput Real.cos Real.sin (List.replicate SimpleOpenCL.NUM_ELEMENTS 0)
          (List.replicate SimpleOpenCL.NUM_ELEMENTS 0) SimpleOpenCL.NUM_ELEMENTS)).nDiffs ≠ 0 :=
  nearOutput_counted Real.cos Real.sin _ _ SimpleOpenCL.NUM_ELEMENTS
    (by simp [SimpleOpenCL.NUM_ELEMENTS])

/-- C16 (amended): the inputs of the trig table as `main` of `SimpleOpenCL.c++`
computes them, in float arithmetic, for `NUM_ELEMENTS` = 16384 and arrays of
that length. `dTheta` is the float 13177599 / 2^36; `A[0] = 0`, each further
`A[i+1]` is the float sum of `A[i]` and `dTheta`, and `B[i]` is the float that
holds the double `M_PI - A[i]`. For every `i < 16384`, `A[i]` is within 0.00022
of `i*pi/(16384-1)`, `A[i] + B[i]` is within 0.00000025 of pi, `A[i]` lies
between 0 (`dTheta` when `i >= 1`) and `A[16383]`, and `B[i]` lies between
0.0002 and `B[0]`. The last angle of `A` is 13175909 / 2^22, below pi; the
first angle of `B` is 13176795 / 2^22, above pi. -/
theorem trig_table_float (A B : List ℚ) (hA : A.length = SimpleOpenCL.NUM_ELEMENTS)
    (hB : B.length = SimpleOpenCL.NUM_ELEMENTS) :
    SimpleOpenCL.dTheta SimpleOpenCL.NUM_ELEMENTS = 13177599 / 68719476736
    ∧ (SimpleOpenCL.initAngles SimpleOpenCL.NUM_ELEMENTS A B).A.getD 0 0 = 0
    ∧ (∀ i, i + 1 < SimpleOpenCL.NUM_ELEMENTS →
        (SimpleOpenCL.initAngles SimpleOpenCL.NUM_ELEMENTS A B).A.getD (i + 1) 0 =
          toFloat ((SimpleOpenCL.initAngles SimpleOpenCL.NUM_ELEMENTS A B).A.getD i 0
            + SimpleOpenCL.dTheta SimpleOpenCL.NUM_ELEMENTS))
    ∧ (∀ i, i < SimpleOpenCL.NUM_ELEMENTS →
        (SimpleOpenCL.initAngles SimpleOpenCL.NUM_ELEMENTS A B).B.getD i 0 =
          toFloat (toDouble
            (M_PI - (SimpleOpenCL.initAngles SimpleOpenCL.NUM_ELEMENTS A B).A.getD i 0)))
    ∧ (∀ i, i < SimpleOpenCL.NUM_ELEMENTS →
        |(((SimpleOpenCL.initAngles SimpleOpenCL.NUM_ELEMENTS A B).A.getD i 0 : ℚ) : ℝ)
            - (i : ℝ) * Real.pi / (16384 - 1)| ≤ 22 / 100000
        ∧ |((((SimpleOpenCL.initAngles SimpleOpenCL.NUM_ELEMENTS A B).A.getD i 0
              + (SimpleOpenCL.initAngles SimpleOpenCL.NUM_ELEMENTS A B).B.getD i 0 : ℚ)) : ℝ)
            - Real.pi| ≤ 25 / 100000000
        ∧ 0 ≤ (SimpleOpenCL.initAngles SimpleOpenCL.NUM_ELEMENTS A B).A.getD i 0
        ∧ (1 ≤ i → SimpleOpenCL.dTheta SimpleOpenCL.NUM_ELEMENTS ≤
            (SimpleOpenCL.initAngles SimpleOpenCL.NUM_ELEMENTS A B).A.getD i 0)
        ∧ (SimpleOpenCL.initAngles SimpleOpenCL.NUM_ELEMENTS A B).A.getD i 0 ≤
            (SimpleOpenCL.initAngles SimpleOpenCL.NUM_ELEMENTS A B).A.getD 16383 0
        ∧ 2 / 10000 ≤ (SimpleOpenCL.initAngles SimpleOpenCL.NUM_ELEMENTS A B).B.getD i 0
        ∧ (SimpleOpenCL.initAngles SimpleOpenCL.NUM_ELEMENTS A B).B.getD i 0 ≤
            (SimpleOpenCL.initAngles SimpleOpenCL.NUM_ELEMENTS A B).B.getD 0 0)
    ∧ (SimpleOpenCL.initAngles SimpleOpenCL.NUM_ELEMENTS A B).A.getD 16383 0
        = 13175909 / 4194304
    ∧ ((13175909 / 4194304 : ℚ) : ℝ) < Real.pi
    ∧ (SimpleOpenCL.initAngles SimpleOpenCL.NUM_ELEMENTS A B).B.getD 0 0
        = 13176795 / 4194304
    ∧ Real.pi < ((13176795 / 4194304 : ℚ) : ℝ) := by
  obtain ⟨-, -, hc⟩ := initAngles_cells SimpleOpenCL.NUM_ELEMENTS A B hA hB
  obtain ⟨p1, p2⟩ := pi_between
  have hlast : (SimpleOpenCL.initAngles SimpleOpenCL.NUM_ELEMENTS A B).A.getD 16383 0
      = 13175909 / 4194304 := by
    rw [(hc 16383 (by simp [SimpleOpenCL.NUM_ELEMENTS])).1, thetaAt_last]
  have hfirst : (SimpleOpenCL.initAngles SimpleOpenCL.NUM_ELEMENTS A B).B.getD 0 0
      = 13176795 / 4194304 := by
    rw [(hc 0 (by simp [SimpleOpenCL.NUM_ELEMENTS])).2]
    have : SimpleOpenCL.thetaAt SimpleOpenCL.NUM_ELEMENTS 0 = 0 := by
      simp [SimpleOpenCL.thetaAt]
    rw [this, float_M_PI]
  refine ⟨dTheta_eq, ?_, ?_, ?_, ?_, hlast, ?_, hfirst, ?_⟩
  · rw [(hc 0 (by simp [SimpleOpenCL.NUM_ELEMENTS])).1]
    simp [SimpleOpenCL.thetaAt]
  · intro i hi
    rw [(hc (i + 1) hi).1, (hc i (by omega)).1, thetaAt_succ]
  · intro i hi
    rw [(hc i hi).2, (hc i hi).1]
  · intro i hi
    obtain ⟨t1, t2, t3, t4, t5, t6, t7⟩ := tables_cells A B hA hB i hi
    rw [hlast, hfirst, dTheta_eq]
    have e : ((16384 : ℝ) - 1) = 16383 := by norm_num
    rw [e]
    exact ⟨t1, t2, t3, t4, t5, t6, t7⟩
  · have h : ((13175909 / 4194304 : ℚ) : ℝ)
        < ((314159265358979323846 / 100000000000000000000 : ℚ) : ℝ) :=
      Rat.cast_lt.2 (by norm_num)
    exact h.trans p1
  · have h : ((314159265358979323847 / 100000000000000000000 : ℚ) : ℝ)
        < ((13176795 / 4194304 : ℚ) : ℝ) :=
      Rat.cast_lt.2 (by norm_num)
    exact p2.trans h

/-- C16 on arrays that hold zeros before the loop: the last angle of `A` and
the first angle of `B`. -/
theorem trig_table_float_witness :
    ((List.replicate 16384 (0 : ℚ)).length = SimpleOpenCL.NUM_ELEMENTS
      ∧ (List.replicate 16384 (0 : ℚ)).length = SimpleOpenCL.NUM_ELEMENTS)
    ∧ (SimpleOpenCL.initAngles SimpleOpenCL.NUM_ELEMENTS (List.replicate 16384 0)
          (List.replicate 16384 0)).A.getD 16383 0 = 13175909 / 4194304
    ∧ (SimpleOpenCL.initAngles SimpleOpenCL.NUM_ELEMENTS (List.replicate 16384 0)
          (List.replicate 16384 0)).B.getD 0 0 = 13176795 / 4194304 :=
  ⟨⟨List.length_replicate _ _, List.length_replicate _ _⟩,
    (trig_table_float (List.replicate 16384 0) (List.replicate 16384 0)
      (List.length_replicate _ _) (List.length_replicate _ _)).2.2.2.2.2.1,
    (trig_table_float (List.replicate 16384 0) (List.replicate 16384 0)
      (List.length_replicate _ _) (List.length_replicate _ _)).2.2.2.2.2.2.2.1⟩

/-- C16 as stated fails: the loop of `main` runs in float arithmetic, and on
arrays that hold zeros before it the last angle of `A` is below pi, not pi,
while the first angle of `B`, the float nearest to `M_PI`, is above pi, so it
is neither `pi - A[0]` nor an angle between 0 and pi. -/
theorem trig_table_counterexample :
    (((SimpleOpenCL.initAngles SimpleOpenCL.NUM_ELEMENTS (List.replicate 16384 0)
        (List.replicate 16384 0)).A.getD 16383 0 : ℚ) : ℝ) < Real.pi
    ∧ Real.pi < (((SimpleOpenCL.initAngles SimpleOpenCL.NUM_ELEMENTS (List.replicate 16384 0)
        (List.replicate 16384 0)).B.getD 0 0 : ℚ) : ℝ)
    ∧ (((SimpleOpenCL.initAngles SimpleOpenCL.NUM_ELEMENTS (List.replicate 16384 0)
        (List.replicate 16384 0)).B.getD 0 0 : ℚ) : ℝ) ≠
      Real.pi - (((SimpleOpenCL.initAngles SimpleOpenCL.NUM_ELEMENTS (List.replicate 16384 0)
        (List.replicate 16384 0)).A.getD 0 0 : ℚ) : ℝ) := by
  obtain ⟨-, -, hc⟩ := initAngles_cells SimpleOpenCL.NUM_ELEMENTS (List.replicate 16384 0)
    (List.replicate 16384 0) (List.length_replicate _ _) (List.length_replicate _ _)
  obtain ⟨p1, p2⟩ := pi_between
  have h0 : SimpleOpenCL.thetaAt SimpleOpenCL.NUM_ELEMENTS 0 = 0 := by
    simp [SimpleOpenCL.thetaAt]
  have hA : (((13175909 / 4194304 : ℚ)) : ℝ) < Real.pi :=
    lt_trans (Rat.cast_lt.2 (by norm_num)) p1
  have hB : Real.pi < (((13176795 / 4194304 : ℚ)) : ℝ) :=
    lt_trans p2 (Rat.cast_lt.2 (by norm_num))
  rw [(hc 16383 (by simp [SimpleOpenCL.NUM_ELEMENTS])).1, thetaAt_last,
    (hc 0 (by simp [SimpleOpenCL.NUM_ELEMENTS])).2, (hc 0 (by simp [SimpleOpenCL.NUM_ELEMENTS])).1,
    h0, float_M_PI]
  refine ⟨hA, hB, ?_⟩
  rw [Rat.cast_zero, sub_zero]
  exact hB.ne'

end GPGPU
